import Mathlib

/-!
# Command submission of the gsgpu driver (`gsgpu_cs.c`)

A shallow embedding of the command-submission path found in
`drivers/gpu/drm/gsgpu/gpu/gsgpu_cs.c`.  Kernel objects that the C code reaches through
pointers are named by natural numbers, a `NULL` pointer is `none`, and the collaborators that
live outside this file (allocator, user copies, handle lookup, placement primitive, scheduler)
are represented by the outcome they hand back, collected in small records.  Calls whose order or
number matters are logged as events.
-/

namespace Gsgpu

/-! ## Error numbers -/

def EPERM : Int := 1
def EAGAIN : Int := 11
def ENOMEM : Int := 12
def EFAULT : Int := 14
def EBUSY : Int := 16
def EINVAL : Int := 22
def ECANCELED : Int := 125
def ERESTARTSYS : Int := 512

/-! ## Constants of the headers

`PAGE_SIZE` and the sizes of the uAPI structures come from headers; the functions below take
them as parameters. -/

/-- The header constants the decoder reads. -/
structure Consts where
  PAGE_SIZE : Nat
  sizeof_chunk_fence : Nat
  sizeof_bo_list_in : Nat
  sizeof_chunk_dep : Nat
  sizeof_chunk_sem : Nat
deriving DecidableEq, Repr

/-- The chunk type identifiers the `switch` of `gsgpu_cs_parser_init` tells apart; every value
that is none of the six named identifiers is `unknown`. -/
inductive chunk_id_t where
  | GSGPU_CHUNK_ID_IB
  | GSGPU_CHUNK_ID_FENCE
  | GSGPU_CHUNK_ID_DEPENDENCIES
  | GSGPU_CHUNK_ID_SYNCOBJ_IN
  | GSGPU_CHUNK_ID_SYNCOBJ_OUT
  | GSGPU_CHUNK_ID_BO_HANDLES
  | unknown (raw : Nat)
deriving DecidableEq, Repr

open chunk_id_t

/-! ## Data model -/

/-- The fields of `struct gsgpu_bo` that are fixed while a submission is processed. -/
structure gsgpu_bo where
  /-- result of `gsgpu_bo_size` -/
  size : Nat := 0
  /-- `gsgpu_ttm_tt_get_usermm(bo->tbo.ttm)` is not `NULL` -/
  usermm : Bool := false
  /-- `bo->tbo.pin_count` -/
  pin_count : Nat := 0
  flags : Nat := 0
  preferred_domains : Nat := 0
  allowed_domains : Nat := 0
  /-- `bo->shadow`, the shadow resource if there is one -/
  shadow : Option Nat := none
deriving DecidableEq, Repr

/-- A chunk as it lies in user memory: `struct drm_gsgpu_cs_chunk` with the dwords found at
`chunk_data`. -/
structure drm_gsgpu_cs_chunk where
  chunk_id : chunk_id_t
  length_dw : Nat
  chunk_data : List Nat
deriving DecidableEq, Repr

/-- The payload of a user-fence chunk, `struct drm_gsgpu_cs_chunk_fence`. -/
structure drm_gsgpu_cs_chunk_fence where
  handle : Nat
  offset : Nat
deriving DecidableEq, Repr

/-- A decoded chunk, `struct gsgpu_cs_chunk`; `kdata = none` is a slot without payload buffer. -/
structure gsgpu_cs_chunk where
  chunk_id : chunk_id_t
  length_dw : Nat
  kdata : Option (List Nat)
deriving DecidableEq, Repr

/-- The fields of `struct gsgpu_job` the submission path reads or writes. -/
structure gsgpu_job where
  /-- descriptor count the job was allocated with -/
  num_ibs : Nat := 0
  vram_lost_counter : Nat := 0
  uf_addr : Nat := 0
  uf_sequence : Nat := 0
  preamble_status : Nat := 0
  /-- `job->owner` is set -/
  owner : Bool := false
  /-- `&job->base.s_fence->finished`, once the scheduler job is initialised -/
  finished : Option Nat := none
deriving DecidableEq, Repr

/-- The fields of `struct gsgpu_ctx` read by the submission path. -/
structure gsgpu_ctx where
  id : Nat := 0
  guilty : Nat := 0
  vram_lost_counter : Nat := 0
  preamble_presented : Bool := false
deriving DecidableEq, Repr

/-- The user-fence entry `p->uf_entry`. -/
structure uf_entry_t where
  robj : Option Nat := none
  priority : Nat := 0
  num_shared : Nat := 0
deriving DecidableEq, Repr

/-- The state of `struct gsgpu_cs_parser`; the default value is the zeroed `parser` variable
of `gsgpu_cs_ioctl`. -/
structure gsgpu_cs_parser_t where
  ctx : Option gsgpu_ctx := none
  nchunks : Nat := 0
  chunks : Option (List gsgpu_cs_chunk) := none
  job : Option gsgpu_job := none
  uf_entry : uf_entry_t := {}
  /-- `p->bo_list`, named by the handle of the list -/
  bo_list : Option Nat := none
  /-- `robj` of the entries of `p->validated`, head first -/
  validated : List Nat := []
  /-- the eviction cursor `p->evictable`: `none` is `NULL`, `some n` points at the entry with
  index `n - 1` of `validated`, and `some 0` at the list head itself -/
  evictable : Option Nat := none
  bytes_moved : Nat := 0
  bytes_moved_vis : Nat := 0
  bytes_moved_threshold : Nat := 0
  bytes_moved_vis_threshold : Nat := 0
  post_dep_syncobjs : List Nat := []
  num_post_dep_syncobjs : Nat := 0
  fence : Option Nat := none
  /-- `p->ring`, named by the index of the ring -/
  ring : Option Nat := none
deriving DecidableEq, Repr

/-! ## Submission decoder -/

/-- Outcomes of the collaborators of `gsgpu_cs_parser_init`. -/
structure InitEnv where
  /-- `kmalloc_array` for `chunk_array` succeeds -/
  kmalloc_chunk_array : Bool
  /-- `gsgpu_ctx_get` -/
  gsgpu_ctx_get : Nat → Option gsgpu_ctx
  /-- `copy_from_user` of the array of chunk pointers succeeds -/
  copy_chunk_array : Bool
  /-- `kmalloc_array` for `p->chunks` succeeds -/
  kmalloc_chunks : Bool
  /-- `copy_from_user` of the header of chunk `i` succeeds -/
  copy_user_chunk : Nat → Bool
  /-- `kvmalloc_array` for the payload of chunk `i` succeeds -/
  kvmalloc_kdata : Nat → Bool
  /-- `copy_from_user` of the payload of chunk `i` succeeds -/
  copy_kdata : Nat → Bool
  /-- `drm_gem_object_lookup` -/
  drm_gem_object_lookup : Nat → Option Nat
  /-- the buffer object behind a name -/
  bo : Nat → gsgpu_bo
  /-- return value of `gsgpu_bo_create_list_entry_array` -/
  gsgpu_bo_create_list_entry_array : Int
  /-- return value of `gsgpu_bo_list_create` and the list it creates -/
  gsgpu_bo_list_create : Int × Nat
  /-- return value of `gsgpu_job_alloc` for a descriptor count -/
  gsgpu_job_alloc : Nat → Int
  /-- `vram_lost_counter` stored in a freshly allocated job -/
  job_vram_lost_counter : Nat

/-- Allocation and release of chunk payload buffers, by chunk index. -/
inductive kdata_event where
  | kvmalloc (i : Nat)
  | kvfree (i : Nat)
  /-- `p->chunks[i]` read through a `NULL` array -/
  | null_deref (i : Nat)
deriving DecidableEq, Repr

/-- `gsgpu_cs_user_fence_chunk`: returns the error code, the parser and the value of `*offset`. -/
def gsgpu_cs_user_fence_chunk (c : Consts) (env : InitEnv) (p : gsgpu_cs_parser_t)
    (data : drm_gsgpu_cs_chunk_fence) (offset : Nat) : Int × gsgpu_cs_parser_t × Nat :=
  match env.drm_gem_object_lookup data.handle with
  | none => (-EINVAL, p, offset)
  | some gobj =>
    let p1 := { p with uf_entry := { robj := some gobj, priority := 0, num_shared := 1 } }
    let size := (env.bo gobj).size
    -- `data->offset + 8` is computed in 32 bits
    if size ≠ c.PAGE_SIZE ∨ (data.offset + 8) % 2 ^ 32 > size then
      (-EINVAL, { p1 with uf_entry := { p1.uf_entry with robj := none } }, offset)
    else if (env.bo gobj).usermm then
      (-EINVAL, { p1 with uf_entry := { p1.uf_entry with robj := none } }, offset)
    else
      (0, p1, data.offset)

/-- `gsgpu_cs_bo_handles_chunk`. -/
def gsgpu_cs_bo_handles_chunk (env : InitEnv) (p : gsgpu_cs_parser_t) : Int × gsgpu_cs_parser_t :=
  if env.gsgpu_bo_create_list_entry_array ≠ 0 then
    (env.gsgpu_bo_create_list_entry_array, p)
  else if env.gsgpu_bo_list_create.1 ≠ 0 then
    (env.gsgpu_bo_list_create.1, p)
  else
    (0, { p with bo_list := some env.gsgpu_bo_list_create.2 })

/-- The payload of a chunk read as `struct drm_gsgpu_cs_chunk_fence`: two 32-bit words. -/
def as_chunk_fence (kdata : List Nat) : drm_gsgpu_cs_chunk_fence :=
  { handle := kdata.getD 0 0 % 2 ^ 32, offset := kdata.getD 1 0 % 2 ^ 32 }

/-- The local state of the decoding loop of `gsgpu_cs_parser_init`. -/
structure init_state where
  p : gsgpu_cs_parser_t
  /-- `p->chunks[0 .. i)` as written so far -/
  decoded : List gsgpu_cs_chunk
  num_ibs : Nat
  uf_offset : Nat
  log : List kdata_event

/-- Exit of the decoding loop or of its body: either it ran to the end, or it jumped to
`free_partial_kdata` with a return value and the number of payload buffers that label releases
(`i + 1` for the `i` at the jump). -/
inductive loop_exit where
  | done (s : init_state)
  | fail (ret : Int) (to_free : Nat) (s : init_state)

/-- The body of the `for` loop of `gsgpu_cs_parser_init` for the chunk `u` at index `i`:
`done` when the body reaches its end, `fail` when it jumps to `free_partial_kdata`. -/
def parser_init_chunk (c : Consts) (env : InitEnv) (u : drm_gsgpu_cs_chunk) (i : Nat)
    (s : init_state) : loop_exit :=
  if !env.copy_user_chunk i then .fail (-EFAULT) i s
  else if !env.kvmalloc_kdata i then .fail (-ENOMEM) i s
  else
    let s1 := { s with log := s.log ++ [.kvmalloc i] }
    if !env.copy_kdata i then .fail (-EFAULT) (i + 1) s1
    else
      -- `size *= sizeof(uint32_t)` is an `unsigned` product
      let kdata := u.chunk_data.take ((u.length_dw * 4) % 2 ^ 32 / 4)
      let s2 := { s1 with decoded := s1.decoded ++ [⟨u.chunk_id, u.length_dw, some kdata⟩] }
      match u.chunk_id with
      | GSGPU_CHUNK_ID_IB => .done { s2 with num_ibs := s2.num_ibs + 1 }
      | GSGPU_CHUNK_ID_FENCE =>
        if u.length_dw * 4 < c.sizeof_chunk_fence then .fail (-EINVAL) (i + 1) s2
        else
          let r := gsgpu_cs_user_fence_chunk c env s2.p (as_chunk_fence kdata) s2.uf_offset
          if r.1 ≠ 0 then .fail r.1 (i + 1) { s2 with p := r.2.1, uf_offset := r.2.2 }
          else .done { s2 with p := r.2.1, uf_offset := r.2.2 }
      | GSGPU_CHUNK_ID_BO_HANDLES =>
        if u.length_dw * 4 < c.sizeof_bo_list_in then .fail (-EINVAL) (i + 1) s2
        else
          let r := gsgpu_cs_bo_handles_chunk env s2.p
          if r.1 ≠ 0 then .fail r.1 (i + 1) { s2 with p := r.2 }
          else .done { s2 with p := r.2 }
      | GSGPU_CHUNK_ID_DEPENDENCIES => .done s2
      | GSGPU_CHUNK_ID_SYNCOBJ_IN => .done s2
      | GSGPU_CHUNK_ID_SYNCOBJ_OUT => .done s2
      | unknown _ => .fail (-EINVAL) (i + 1) s2

/-- The `for` loop of `gsgpu_cs_parser_init` over the chunks still to decode, `i` being the index
of the first of them. -/
def parser_init_loop (c : Consts) (env : InitEnv) :
    List drm_gsgpu_cs_chunk → Nat → init_state → loop_exit
  | [], _, s => .done s
  | u :: us, i, s =>
    match parser_init_chunk c env u i s with
    | .done s1 => parser_init_loop c env us (i + 1) s1
    | .fail ret n s1 => .fail ret n s1

/-- The label `free_partial_kdata`: `for (; i >= 0; i--) kvfree(p->chunks[i].kdata)`, entered
with `i = n - 1`. -/
def free_partial_kdata (n : Nat) : List kdata_event :=
  (List.range n).reverse.map kdata_event.kvfree

/-- The input of the ioctl, `cs->in`: the context, the chunk array in user memory (its length is
`num_chunks`) and the handle of a resource list. -/
structure drm_gsgpu_cs_in where
  ctx_id : Nat := 0
  chunks : List drm_gsgpu_cs_chunk := []
  bo_list_handle : Nat := 0
deriving DecidableEq, Repr

/-- The part of `gsgpu_cs_parser_init` after the decoding loop: the labels `free_partial_kdata`
and `free_all_kdata`, the job allocation and the VRAM-lost check. -/
def parser_init_after_loop (env : InitEnv) (ctx : gsgpu_ctx) :
    loop_exit → Int × gsgpu_cs_parser_t × List kdata_event
  | .fail ret n s =>
    (ret, { s.p with chunks := none, nchunks := 0 }, s.log ++ free_partial_kdata n)
  | .done s =>
    let p3 := { s.p with chunks := some s.decoded }
    let ret := env.gsgpu_job_alloc s.num_ibs
    if ret ≠ 0 then
      (ret, { p3 with chunks := none, nchunks := 0 },
        s.log ++ free_partial_kdata p3.nchunks)
    else
      let job : gsgpu_job :=
        { num_ibs := s.num_ibs, vram_lost_counter := env.job_vram_lost_counter }
      let p4 := { p3 with job := some job }
      if ctx.vram_lost_counter ≠ job.vram_lost_counter then
        (-ECANCELED, { p4 with chunks := none, nchunks := 0 },
          s.log ++ free_partial_kdata p4.nchunks)
      else if p4.uf_entry.robj.isSome then
        (0, { p4 with job := some { job with uf_addr := s.uf_offset } }, s.log)
      else (0, p4, s.log)

/-- `gsgpu_cs_parser_init`: the return value, the parser, and the log of payload-buffer
allocations and releases. -/
def gsgpu_cs_parser_init (c : Consts) (env : InitEnv) (cs : drm_gsgpu_cs_in)
    (p : gsgpu_cs_parser_t) : Int × gsgpu_cs_parser_t × List kdata_event :=
  if cs.chunks.length = 0 then (0, p, [])
  else if !env.kmalloc_chunk_array then (-ENOMEM, p, [])
  else
    match env.gsgpu_ctx_get cs.ctx_id with
    | none => (-EINVAL, { p with ctx := none }, [])
    | some ctx =>
      let p1 := { p with ctx := some ctx }
      if ctx.guilty = 1 then (-ECANCELED, p1, [])
      else if !env.copy_chunk_array then (-EFAULT, p1, [])
      else
        let p2 := { p1 with nchunks := cs.chunks.length }
        if !env.kmalloc_chunks then (-ENOMEM, { p2 with chunks := none }, [])
        else
          parser_init_after_loop env ctx
            (parser_init_loop c env cs.chunks 0 ⟨p2, [], 0, 0, []⟩)

/-- The chunk loop of `gsgpu_cs_parser_fini`:
`for (i = 0; i < parser->nchunks; i++) kvfree(parser->chunks[i].kdata)`. -/
def gsgpu_cs_parser_fini_chunks (p : gsgpu_cs_parser_t) : List kdata_event :=
  match p.chunks with
  | some _ => (List.range p.nchunks).map kdata_event.kvfree
  | none => if p.nchunks = 0 then [] else [kdata_event.null_deref 0]

/-- The log of a call that allocated the payload buffers `0 .. n - 1` and released each of them
once, last one first. -/
def balanced_log (n : Nat) : List kdata_event :=
  (List.range n).map kdata_event.kvmalloc ++ free_partial_kdata n

/-- A chunk of a type whose size `gsgpu_cs_parser_init` checks, declared shorter than its
structure. -/
def undersized_checked (c : Consts) (u : drm_gsgpu_cs_chunk) : Prop :=
  (u.chunk_id = GSGPU_CHUNK_ID_FENCE ∧ u.length_dw * 4 < c.sizeof_chunk_fence) ∨
  (u.chunk_id = GSGPU_CHUNK_ID_BO_HANDLES ∧ u.length_dw * 4 < c.sizeof_bo_list_in)

/-- Number of chunks of type IB in a chunk array. -/
def num_ib_chunks (us : List drm_gsgpu_cs_chunk) : Nat :=
  (us.filter (fun u => u.chunk_id = GSGPU_CHUNK_ID_IB)).length

/-! ### Concrete inputs -/

/-- Header constants of a 64-bit build with 16 KiB pages. -/
def consts_la64 : Consts :=
  { PAGE_SIZE := 16384, sizeof_chunk_fence := 8, sizeof_bo_list_in := 24,
    sizeof_chunk_dep := 24, sizeof_chunk_sem := 4 }

/-- Every collaborator succeeds; `gsgpu_job_alloc` refuses a job without descriptors. -/
def env_all_ok : InitEnv :=
  { kmalloc_chunk_array := true
    gsgpu_ctx_get := fun _ => some {}
    copy_chunk_array := true
    kmalloc_chunks := true
    copy_user_chunk := fun _ => true
    kvmalloc_kdata := fun _ => true
    copy_kdata := fun _ => true
    drm_gem_object_lookup := fun _ => none
    bo := fun _ => {}
    gsgpu_bo_create_list_entry_array := 0
    gsgpu_bo_list_create := (0, 1)
    gsgpu_job_alloc := fun n => if n = 0 then -EINVAL else 0
    job_vram_lost_counter := 0 }

/-- As `env_all_ok`, but the allocation of the `p->chunks` array fails. -/
def env_chunks_alloc_fails : InitEnv := { env_all_ok with kmalloc_chunks := false }

/-- A submission of one IB chunk of eight dwords. -/
def cs_one_ib : drm_gsgpu_cs_in :=
  { chunks := [⟨GSGPU_CHUNK_ID_IB, 8, [0, 0, 4096, 0, 64, 0, 0, 0]⟩] }

/-- A submission of one IB chunk and one DEPENDENCIES chunk of a single dword. -/
def cs_short_dep : drm_gsgpu_cs_in :=
  { chunks := [⟨GSGPU_CHUNK_ID_IB, 8, [0, 0, 4096, 0, 64, 0, 0, 0]⟩,
      ⟨GSGPU_CHUNK_ID_DEPENDENCIES, 1, [7]⟩] }

/-- A submission of one IB chunk and one empty SYNCOBJ_IN chunk. -/
def cs_short_syncobj_in : drm_gsgpu_cs_in :=
  { chunks := [⟨GSGPU_CHUNK_ID_IB, 8, [0, 0, 4096, 0, 64, 0, 0, 0]⟩,
      ⟨GSGPU_CHUNK_ID_SYNCOBJ_IN, 0, []⟩] }

/-- A submission of one IB chunk and one empty SYNCOBJ_OUT chunk. -/
def cs_short_syncobj_out : drm_gsgpu_cs_in :=
  { chunks := [⟨GSGPU_CHUNK_ID_IB, 8, [0, 0, 4096, 0, 64, 0, 0, 0]⟩,
      ⟨GSGPU_CHUNK_ID_SYNCOBJ_OUT, 0, []⟩] }

/-- A submission of one IB chunk and one FENCE chunk of a single dword. -/
def cs_short_fence : drm_gsgpu_cs_in :=
  { chunks := [⟨GSGPU_CHUNK_ID_IB, 8, [0, 0, 4096, 0, 64, 0, 0, 0]⟩,
      ⟨GSGPU_CHUNK_ID_FENCE, 1, [7]⟩] }

/-! ## Resource validation -/

/-- One call of the placement primitive: the resource, the domain set the placement was built
from, and the value `ttm_bo_validate` returned. -/
structure place_call where
  bo : Nat
  domain : Nat
  r : Int
deriving DecidableEq, Repr

/-- The collaborators of validation, over a type `W` of placement states (where every resource
currently resides). -/
structure PlaceEnv (W : Type) where
  /-- the resource behind a name -/
  bo : Nat → gsgpu_bo
  /-- `gsgpu_bo_placement_from_domain(bo, domain)` followed by `ttm_bo_validate`, for a state, a
  resource, a domain set and the running `ctx.bytes_moved`: the return value, the new
  `ctx.bytes_moved` and the new state -/
  ttm_bo_validate : W → Nat → Nat → Nat → Int × Nat × W
  /-- `gsgpu_mem_type_to_domain(bo->tbo.resource->mem_type)` -/
  mem_type_domain : W → Nat → Nat
  /-- `gsgpu_bo_in_cpu_visible_vram` -/
  gsgpu_bo_in_cpu_visible_vram : W → Nat → Bool
  /-- `gsgpu_gmc_vram_full_visible(&adev->gmc)` -/
  vram_full_visible : Bool
  /-- the flag bit `GSGPU_GEM_CREATE_CPU_ACCESS_REQUIRED` -/
  GSGPU_GEM_CREATE_CPU_ACCESS_REQUIRED : Nat

/-- Result of a validation function: return value, parser, placement state and the calls of the
placement primitive it made, in order. -/
structure validate_result (W : Type) where
  r : Int
  p : gsgpu_cs_parser_t
  w : W
  calls : List place_call

/-- The accounting that follows a call of the placement primitive in
`gsgpu_cs_bo_validate`: `p->bytes_moved += ctx.bytes_moved`, and the same for
`p->bytes_moved_vis` when VRAM is not fully visible and the resource now lies in CPU-visible
VRAM.  Both counters are 64 bits wide. -/
def bo_validate_account {W : Type} (E : PlaceEnv W) (bo : Nat) (p : gsgpu_cs_parser_t)
    (res : Int × Nat × W) : gsgpu_cs_parser_t :=
  let p1 := { p with bytes_moved := (p.bytes_moved + res.2.1) % 2 ^ 64 }
  if !E.vram_full_visible && E.gsgpu_bo_in_cpu_visible_vram res.2.2 bo then
    { p1 with bytes_moved_vis := (p1.bytes_moved_vis + res.2.1) % 2 ^ 64 }
  else p1

/-- The code of `gsgpu_cs_bo_validate` from the label `retry` on, entered with the chosen
`domain` and the running `ctx.bytes_moved`. -/
def gsgpu_cs_bo_validate_retry {W : Type} (E : PlaceEnv W) (bo : Nat) (domain : Nat)
    (ctx_bytes_moved : Nat) (p : gsgpu_cs_parser_t) (w : W) (calls : List place_call) :
    validate_result W :=
  let res := E.ttm_bo_validate w bo domain ctx_bytes_moved
  let calls1 := calls ++ [⟨bo, domain, res.1⟩]
  let p1 := bo_validate_account E bo p res
  if res.1 = -ENOMEM ∧ domain ≠ (E.bo bo).allowed_domains then
    gsgpu_cs_bo_validate_retry E bo (E.bo bo).allowed_domains res.2.1 p1 res.2.2 calls1
  else
    ⟨res.1, p1, res.2.2, calls1⟩
termination_by (if domain = (E.bo bo).allowed_domains then 0 else 1)
decreasing_by
  simp_all

/-- The domain set `gsgpu_cs_bo_validate` starts with. -/
def bo_validate_domain {W : Type} (E : PlaceEnv W) (p : gsgpu_cs_parser_t) (bo : Nat) : Nat :=
  -- Don't move this buffer if we have depleted our allowance to move it.
  if p.bytes_moved < p.bytes_moved_threshold then
    if !E.vram_full_visible &&
        ((E.bo bo).flags &&& E.GSGPU_GEM_CREATE_CPU_ACCESS_REQUIRED != 0) then
      if p.bytes_moved_vis < p.bytes_moved_vis_threshold then
        (E.bo bo).preferred_domains
      else
        (E.bo bo).allowed_domains
    else
      (E.bo bo).preferred_domains
  else
    (E.bo bo).allowed_domains

/-- `gsgpu_cs_bo_validate`. -/
def gsgpu_cs_bo_validate {W : Type} (E : PlaceEnv W) (p : gsgpu_cs_parser_t) (w : W)
    (bo : Nat) : validate_result W :=
  if (E.bo bo).pin_count ≠ 0 then ⟨0, p, w, []⟩
  else gsgpu_cs_bo_validate_retry E bo (bo_validate_domain E p bo) 0 p w []

/-- The 32-bit expression `a & ~d`. -/
def and_not32 (a d : Nat) : Nat :=
  (a % 2 ^ 32) &&& ((d % 2 ^ 32) ^^^ (2 ^ 32 - 1))

/-- The scan of `gsgpu_cs_try_evict` with the cursor on the entry of index `n - 1` (on the list
head for `n = 0`), for the domain set `domain` of the resource `validated`. -/
def try_evict_scan {W : Type} (E : PlaceEnv W) (validated : Nat) (domain : Nat)
    (p : gsgpu_cs_parser_t) (w : W) : Nat → Bool × validate_result W
  | 0 => (false, ⟨0, { p with evictable := some 0 }, w, []⟩)
  | n + 1 =>
    match p.validated.get? n with
    | none => try_evict_scan E validated domain p w n
    | some candidate =>
      -- If we reached our current BO we can forget it
      if candidate = validated then
        (false, ⟨0, { p with evictable := some (n + 1) }, w, []⟩)
      -- We can't move pinned BOs here
      else if (E.bo candidate).pin_count ≠ 0 then try_evict_scan E validated domain p w n
      -- Check if this BO is in one of the domains we need space for
      else if E.mem_type_domain w candidate &&& domain = 0 then
        try_evict_scan E validated domain p w n
      -- Check if we can move this BO somewhere else
      else if and_not32 (E.bo candidate).allowed_domains domain = 0 then
        try_evict_scan E validated domain p w n
      else
        let other := and_not32 (E.bo candidate).allowed_domains domain
        let update_bytes_moved_vis :=
          !E.vram_full_visible && E.gsgpu_bo_in_cpu_visible_vram w candidate
        let res := E.ttm_bo_validate w candidate other 0
        let p1 := { p with bytes_moved := (p.bytes_moved + res.2.1) % 2 ^ 64 }
        let p2 :=
          if update_bytes_moved_vis then
            { p1 with bytes_moved_vis := (p1.bytes_moved_vis + res.2.1) % 2 ^ 64 }
          else p1
        if res.1 ≠ 0 then
          (false, ⟨res.1, { p2 with evictable := some (n + 1) }, res.2.2,
            [⟨candidate, other, res.1⟩]⟩)
        else
          -- the cursor steps to the previous entry, then `list_move` puts the candidate
          -- right behind the list head, which shifts the entries before it by one
          (true, ⟨0, { p2 with
              evictable := some (if n = 0 then 0 else n + 1)
              validated := candidate :: p.validated.eraseIdx n }, res.2.2,
            [⟨candidate, other, res.1⟩]⟩)

/-- `gsgpu_cs_try_evict` for the resource `validated`: the returned flag, and the parser, the
placement state and the calls of the placement primitive (field `r` is the value of the local
`r`, 0 when no call was made). -/
def gsgpu_cs_try_evict {W : Type} (E : PlaceEnv W) (p : gsgpu_cs_parser_t) (w : W)
    (validated : Nat) : Bool × validate_result W :=
  match p.evictable with
  | none => (false, ⟨0, p, w, []⟩)
  | some n => try_evict_scan E validated (E.bo validated).allowed_domains p w n

/-- An entry that `gsgpu_cs_try_evict` tries to relocate on behalf of `validated`: not the
resource being validated, not pinned, resident in a domain that meets the allowed domains of
`validated`, and with an allowed domain outside them. -/
def evict_candidate {W : Type} (E : PlaceEnv W) (w : W) (validated : Nat) (bo : Nat) : Prop :=
  bo ≠ validated ∧ (E.bo bo).pin_count = 0 ∧
  E.mem_type_domain w bo &&& (E.bo validated).allowed_domains ≠ 0 ∧
  and_not32 (E.bo bo).allowed_domains (E.bo validated).allowed_domains ≠ 0

/-! ### Concrete inputs -/

/-- Four resources, with domain bit 2 for GTT and 4 for VRAM: 0 may live in VRAM only, 1 is
pinned, 2 may live in VRAM or GTT, 3 prefers VRAM and may fall back to GTT.  A placement state
maps a resource to the domain it resides in; the primitive moves a resource into GTT when GTT
is among the requested domains and reports `-ENOMEM` for a request of VRAM only. -/
def env_vram_full : PlaceEnv (Nat → Nat) :=
  { bo := fun b =>
      if b = 0 then { size := 4096, preferred_domains := 4, allowed_domains := 4 }
      else if b = 1 then { size := 4096, pin_count := 1, preferred_domains := 4,
                           allowed_domains := 4 }
      else if b = 2 then { size := 4096, preferred_domains := 6, allowed_domains := 6 }
      else { size := 4096, preferred_domains := 4, allowed_domains := 6 }
    ttm_bo_validate := fun w b d m =>
      if d &&& 2 ≠ 0 then (0, m + 4096, fun x => if x = b then 2 else w x)
      else (-ENOMEM, m, w)
    mem_type_domain := fun w b => w b
    gsgpu_bo_in_cpu_visible_vram := fun _ _ => false
    vram_full_visible := true
    GSGPU_GEM_CREATE_CPU_ACCESS_REQUIRED := 1 }

/-- A parser within its move budget, with the validated list `[0, 1, 2]` and the cursor on the
last entry. -/
def parser_three : gsgpu_cs_parser_t :=
  { validated := [0, 1, 2], evictable := some 3, bytes_moved_threshold := 1000000 }

/-- A placement state with resource 0 in GTT and resources 1 and 2 in VRAM. -/
def w_vram : Nat → Nat := fun b => if b = 0 then 2 else 4

/-! ## Commit and the ioctl -/

/-- The calls of the submission path whose number and arguments matter: reservation and its
release, the throttle, the user-page check, fence bookkeeping and the scheduler. -/
inductive cs_event where
  | ttm_eu_reserve_buffers (r : Int)
  | ttm_eu_backoff_reservation
  | ttm_eu_fence_buffer_objects (validated : List Nat) (fence : Nat)
  | gsgpu_cs_get_threshold_for_moves
  | gsgpu_cs_report_moved_bytes (num_bytes num_vis_bytes : Nat)
  | gsgpu_ttm_tt_get_user_pages_done (bo : Nat) (done : Bool)
  | gsgpu_ctx_add_fence (fence : Nat) (r : Int) (seq : Nat)
  | drm_syncobj_replace_fence (syncobj fence : Nat)
  | drm_sched_entity_push_job (job : gsgpu_job)
  | gsgpu_job_free (job : gsgpu_job)
  | drm_syncobj_put (syncobj : Nat)
deriving DecidableEq, Repr

/-- Outcomes of the collaborators of `gsgpu_cs_ioctl` and of the phases it runs. -/
structure CsEnv where
  /-- `adev->accel_working` -/
  accel_working : Bool
  /-- collaborators of `gsgpu_cs_parser_init` -/
  init : InitEnv
  /-- `gsgpu_queue_mgr_map` for the IB chunk at an index: return value and ring -/
  gsgpu_queue_mgr_map : Nat → Int × Nat
  /-- `chunk_ib->flags & GSGPU_IB_FLAG_PREAMBLE` read from a chunk payload -/
  chunk_ib_preamble : List Nat → Bool
  /-- `gsgpu_ib_get` for the IB chunk at an index -/
  gsgpu_ib_get : Nat → Int
  gsgpu_ctx_wait_prev_fence : Int
  GSGPU_PREAMBLE_IB_PRESENT : Nat
  GSGPU_PREAMBLE_IB_PRESENT_FIRST : Nat
  /-- `gsgpu_bo_list_get`: return value and the list found -/
  gsgpu_bo_list_get : Int × Nat
  /-- `gsgpu_bo_list_create` for the empty list: return value and the list created -/
  gsgpu_bo_list_create_empty : Int × Nat
  /-- the entries `gsgpu_bo_list_get_list` and `gsgpu_vm_get_pd_bo` put on `p->validated` -/
  bo_list_get_list : Nat → List Nat
  /-- `bo->parent` is set -/
  bo_parent : Nat → Bool
  /-- the user-backed entries of a resource list -/
  userptr_entries : Nat → List Nat
  /-- `kvmalloc_array` for `e->user_pages` succeeds -/
  kvmalloc_user_pages : Nat → Bool
  gsgpu_ttm_tt_get_user_pages : Nat → Int
  ttm_eu_reserve_buffers : Int
  /-- the pair `gsgpu_cs_get_threshold_for_moves` stores -/
  threshold_for_moves : Nat × Nat
  /-- `gsgpu_vm_validate_pt_bos` with `gsgpu_cs_validate` as callback -/
  gsgpu_vm_validate_pt_bos : gsgpu_cs_parser_t → Int × gsgpu_cs_parser_t
  /-- `gsgpu_cs_list_validate(p, &duplicates)` -/
  list_validate_duplicates : gsgpu_cs_parser_t → Int × gsgpu_cs_parser_t
  /-- `gsgpu_cs_list_validate(p, &p->validated)` -/
  list_validate_validated : gsgpu_cs_parser_t → Int × gsgpu_cs_parser_t
  gsgpu_ttm_alloc_gart : Int
  gsgpu_bo_gpu_offset : Nat → Nat
  /-- `gsgpu_cs_dependencies` -/
  gsgpu_cs_dependencies : gsgpu_cs_parser_t → Int × gsgpu_cs_parser_t
  /-- `gsgpu_cs_ib_vm_chunk` -/
  gsgpu_cs_ib_vm_chunk : Int
  /-- `drm_sched_job_init`: return value and the `finished` fence of the scheduler job -/
  drm_sched_job_init : Int × Nat
  gsgpu_ttm_tt_get_user_pages_done : Nat → Bool
  /-- `gsgpu_ctx_add_fence`: return value and the sequence number stored in `seq` -/
  gsgpu_ctx_add_fence : Int × Nat

/-- Result of a phase: return value, parser, events.  A phase that dereferences a `NULL`
pointer has no result (`none`). -/
structure phase_result where
  r : Int
  p : gsgpu_cs_parser_t
  events : List cs_event
deriving DecidableEq, Repr

/-- The loop of `gsgpu_cs_ib_fill` over the chunks from index `i` on, `j` descriptors being
filled already. -/
def ib_fill_loop (env : CsEnv) (job : gsgpu_job) :
    List gsgpu_cs_chunk → Nat → Nat → gsgpu_cs_parser_t → gsgpu_job →
      Int × gsgpu_cs_parser_t × gsgpu_job × Bool
  | [], _, _, p, jb => (0, p, jb, true)
  | chunk :: rest, i, j, p, jb =>
    if ¬ j < job.num_ibs then (0, p, jb, true)
    else if chunk.chunk_id ≠ GSGPU_CHUNK_ID_IB then ib_fill_loop env job rest (i + 1) j p jb
    else if (env.gsgpu_queue_mgr_map i).1 ≠ 0 then ((env.gsgpu_queue_mgr_map i).1, p, jb, false)
    else
      let ring := (env.gsgpu_queue_mgr_map i).2
      let jb1 :=
        if env.chunk_ib_preamble (chunk.kdata.getD []) then
          { jb with preamble_status := jb.preamble_status ||| env.GSGPU_PREAMBLE_IB_PRESENT }
        else jb
      if p.ring.isSome ∧ p.ring ≠ some ring then (-EINVAL, p, jb1, false)
      else
        let p1 := { p with ring := some ring }
        if env.gsgpu_ib_get i ≠ 0 then (env.gsgpu_ib_get i, p1, jb1, false)
        else ib_fill_loop env job rest (i + 1) (j + 1) p1 jb1

/-- `gsgpu_cs_ib_fill`.  The last component of the loop result tells whether the loop ran to
its end; the function then reads `parser->ring->idx`, and has no result when the ring is
`NULL`.  With chunks to look at, the loop reads through `parser->job`, `parser->chunks` and
`parser->ctx`; the model has no result when one of them is `NULL`, which is not the case after
a successful `gsgpu_cs_parser_init` of a submission with chunks. -/
def gsgpu_cs_ib_fill (env : CsEnv) (p : gsgpu_cs_parser_t) : Option phase_result :=
  if p.nchunks = 0 then
    -- the loop condition fails at `i < parser->nchunks`
    match p.ring with
    | none => none
    | some _ => some ⟨env.gsgpu_ctx_wait_prev_fence, p, []⟩
  else
    match p.job, p.chunks, p.ctx with
    | some job, some chunks, some _ =>
      let out := ib_fill_loop env job (chunks.take p.nchunks) 0 0 p job
      let p1 := { out.2.1 with job := some out.2.2.1 }
      if !out.2.2.2 then some ⟨out.1, p1, []⟩
      else
        match p1.ring with
        | none => none
        | some _ => some ⟨env.gsgpu_ctx_wait_prev_fence, p1, []⟩
    | _, _, _ => none

/-- The loop of `gsgpu_cs_parser_bos` over the user-backed entries: 0 when every entry got its
pages, otherwise the error of the first entry that did not. -/
def parser_bos_userptr (env : CsEnv) : List Nat → Int
  | [] => 0
  | e :: rest =>
    if !env.kvmalloc_user_pages e then -ENOMEM
    else if env.gsgpu_ttm_tt_get_user_pages e ≠ 0 then env.gsgpu_ttm_tt_get_user_pages e
    else parser_bos_userptr env rest

/-- What a validation pass may change in the parser: the order of `validated`, the eviction
cursor and the two byte counters. -/
def validation_update (p q : gsgpu_cs_parser_t) : gsgpu_cs_parser_t :=
  { p with
    validated := q.validated
    evictable := q.evictable
    bytes_moved := q.bytes_moved
    bytes_moved_vis := q.bytes_moved_vis }

/-- What `gsgpu_cs_dependencies` may change in the parser: the post-dependency list. -/
def dependencies_update (p q : gsgpu_cs_parser_t) : gsgpu_cs_parser_t :=
  { p with
    post_dep_syncobjs := q.post_dep_syncobjs
    num_post_dep_syncobjs := q.num_post_dep_syncobjs }

/-- The first step of `gsgpu_cs_parser_bos`: the resource list the submission works on, or the
error that ends the function. -/
def parser_bos_list (env : CsEnv) (cs : drm_gsgpu_cs_in) (p : gsgpu_cs_parser_t) :
    Except Int Nat :=
  -- p->bo_list could already be assigned if GSGPU_CHUNK_ID_BO_HANDLES is present
  if cs.bo_list_handle ≠ 0 then
    if p.bo_list.isSome then .error (-EINVAL)
    else if env.gsgpu_bo_list_get.1 ≠ 0 then .error env.gsgpu_bo_list_get.1
    else .ok env.gsgpu_bo_list_get.2
  else
    match p.bo_list with
    | none =>
      -- Create a empty bo_list when no handle is provided
      if env.gsgpu_bo_list_create_empty.1 ≠ 0 then .error env.gsgpu_bo_list_create_empty.1
      else .ok env.gsgpu_bo_list_create_empty.2
    | some l => .ok l

/-- The three validation passes of `gsgpu_cs_parser_bos`, page-table resources first, then
the duplicates, then the validated list: the first error (or 0) and the parser. -/
def parser_bos_validate (env : CsEnv) (p2 : gsgpu_cs_parser_t) : Int × gsgpu_cs_parser_t :=
  let v1 := env.gsgpu_vm_validate_pt_bos p2
  let q1 := validation_update p2 v1.2
  if v1.1 ≠ 0 then (v1.1, q1)
  else
    let v2 := env.list_validate_duplicates q1
    let q2 := validation_update q1 v2.2
    if v2.1 ≠ 0 then (v2.1, q2)
    else
      let v3 := env.list_validate_validated q2
      (v3.1, validation_update q2 v3.2)

/-- The end of `gsgpu_cs_parser_bos` after the moved bytes are reported: the user-fence
resource gets its GART address, and the label `error_validate`. -/
def parser_bos_user_fence (env : CsEnv) (p3 : gsgpu_cs_parser_t) (ev1 : List cs_event) :
    Option phase_result :=
  match p3.uf_entry.robj with
  | none => some ⟨0, p3, ev1⟩
  | some uf =>
    match p3.job with
    | none => none
    | some job =>
      let r1 := env.gsgpu_ttm_alloc_gart
      let p4 := { p3 with job := some { job with
        uf_addr := (job.uf_addr + env.gsgpu_bo_gpu_offset uf) % 2 ^ 64 } }
      if r1 ≠ 0 then some ⟨r1, p4, ev1 ++ [.ttm_eu_backoff_reservation]⟩
      else some ⟨0, p4, ev1⟩

/-- The part of `gsgpu_cs_parser_bos` that follows a successful `ttm_eu_reserve_buffers`. -/
def parser_bos_reserved (env : CsEnv) (p1 : gsgpu_cs_parser_t) : Option phase_result :=
  let p2 := { p1 with
    bytes_moved_threshold := env.threshold_for_moves.1
    bytes_moved_vis_threshold := env.threshold_for_moves.2
    bytes_moved := 0
    bytes_moved_vis := 0
    evictable := some p1.validated.length }
  let ev := [cs_event.ttm_eu_reserve_buffers 0, .gsgpu_cs_get_threshold_for_moves]
  let v := parser_bos_validate env p2
  if v.1 ≠ 0 then some ⟨v.1, v.2, ev ++ [.ttm_eu_backoff_reservation]⟩
  else
    parser_bos_user_fence env v.2
      (ev ++ [.gsgpu_cs_report_moved_bytes v.2.bytes_moved v.2.bytes_moved_vis])

/-- `gsgpu_cs_parser_bos`. -/
def gsgpu_cs_parser_bos (env : CsEnv) (cs : drm_gsgpu_cs_in) (p : gsgpu_cs_parser_t) :
    Option phase_result :=
  let p0 := { p with validated := [] }
  match parser_bos_list env cs p0 with
  | .error r => some ⟨r, p0, []⟩
  | .ok bo_list =>
    let listed := env.bo_list_get_list bo_list
    let validated :=
      match p0.uf_entry.robj with
      | some uf => if !env.bo_parent uf then uf :: listed else listed
      | none => listed
    let p1 := { p0 with bo_list := some bo_list, validated := validated }
    let ru := parser_bos_userptr env (env.userptr_entries bo_list)
    if ru ≠ 0 then some ⟨ru, p1, []⟩
    else
      let r := env.ttm_eu_reserve_buffers
      if r ≠ 0 then some ⟨r, p1, [.ttm_eu_reserve_buffers r]⟩
      else parser_bos_reserved env p1

/-- `gsgpu_cs_post_dependencies`. -/
def gsgpu_cs_post_dependencies (p : gsgpu_cs_parser_t) (fence : Nat) : List cs_event :=
  (p.post_dep_syncobjs.take p.num_post_dep_syncobjs).map
    (fun s => cs_event.drm_syncobj_replace_fence s fence)

/-- Result of `gsgpu_cs_submit`: return value, parser, the value written to `cs->out.handle`
(`none` when nothing is written) and the events. -/
structure submit_result where
  r : Int
  p : gsgpu_cs_parser_t
  out_handle : Option Nat
  events : List cs_event
deriving DecidableEq, Repr

/-- The events of the loop of `gsgpu_cs_submit` over the user-backed entries. -/
def submit_userptr_checks (env : CsEnv) (userptr : List Nat) : List cs_event :=
  userptr.map (fun e =>
    cs_event.gsgpu_ttm_tt_get_user_pages_done e (env.gsgpu_ttm_tt_get_user_pages_done e))

/-- The part of `gsgpu_cs_submit` under `notifier_lock`, for the job with its scheduler fence
`finished` set up. -/
def submit_locked (env : CsEnv) (p0 : gsgpu_cs_parser_t) (job1 : gsgpu_job) (finished : Nat)
    (bo_list : Nat) (ctx : gsgpu_ctx) : submit_result :=
  -- If userptr are invalidated after gsgpu_cs_parser_bos(), return -EAGAIN
  let userptr := env.userptr_entries bo_list
  let checks := submit_userptr_checks env userptr
  if userptr.any (fun e => !env.gsgpu_ttm_tt_get_user_pages_done e) then
    ⟨-EAGAIN, p0, none, checks ++ [.gsgpu_job_free { job1 with finished := none }]⟩
  else
    let job2 := { job1 with owner := true }
    let p1 := { p0 with fence := some finished }
    let seq := env.gsgpu_ctx_add_fence.2
    if env.gsgpu_ctx_add_fence.1 ≠ 0 then
      ⟨env.gsgpu_ctx_add_fence.1, p1, none,
        checks ++ [.gsgpu_ctx_add_fence finished env.gsgpu_ctx_add_fence.1 seq,
          .gsgpu_job_free job2]⟩
    else
      let first := job2.preamble_status &&& env.GSGPU_PREAMBLE_IB_PRESENT ≠ 0 ∧
        ctx.preamble_presented = false
      let job3 :=
        if first then
          { job2 with preamble_status :=
              job2.preamble_status ||| env.GSGPU_PREAMBLE_IB_PRESENT_FIRST }
        else job2
      let ctx1 := if first then { ctx with preamble_presented := true } else ctx
      let job4 := { job3 with uf_sequence := seq }
      ⟨0, { p1 with ctx := some ctx1 }, some seq,
        checks ++ [.gsgpu_ctx_add_fence finished 0 seq] ++
          gsgpu_cs_post_dependencies p1 finished ++
          [.drm_sched_entity_push_job job4,
           .ttm_eu_fence_buffer_objects p1.validated finished]⟩

/-- `gsgpu_cs_submit`.  The function reads through `p->ring` and `p->job` at once, and through
`p->bo_list` and `p->ctx` once the scheduler job is initialised; there is no result (`none`)
when the pointer read is `NULL`. -/
def gsgpu_cs_submit (env : CsEnv) (p : gsgpu_cs_parser_t) : Option submit_result :=
  match p.ring, p.job with
  | some _, some job =>
    let p0 := { p with job := none }
    if env.drm_sched_job_init.1 ≠ 0 then
      some ⟨env.drm_sched_job_init.1, p0, none, [.gsgpu_job_free job]⟩
    else
      match p.bo_list, p.ctx with
      | some bo_list, some ctx =>
        some (submit_locked env p0 { job with finished := some env.drm_sched_job_init.2 }
          env.drm_sched_job_init.2 bo_list ctx)
      | _, _ => none
  | _, _ => none

/-- `gsgpu_cs_parser_fini`, as far as reservation, sync objects and the job go. -/
def gsgpu_cs_parser_fini (parser : gsgpu_cs_parser_t) (error : Int) (backoff : Bool) :
    List cs_event :=
  (if error ≠ 0 ∧ backoff = true then [cs_event.ttm_eu_backoff_reservation] else []) ++
  (parser.post_dep_syncobjs.take parser.num_post_dep_syncobjs).map cs_event.drm_syncobj_put ++
  (match parser.job with
   | some job => [cs_event.gsgpu_job_free job]
   | none => [])

/-- Result of the ioctl: return value, the value left in `cs->out.handle`, and the events. -/
structure ioctl_result where
  r : Int
  out_handle : Option Nat
  events : List cs_event
deriving DecidableEq, Repr

/-- The label `out` of `gsgpu_cs_ioctl`: `gsgpu_cs_parser_fini` and `return r`.  There is no
result when the chunk loop of `gsgpu_cs_parser_fini` reads through a `NULL` chunk array. -/
def ioctl_out (parser : gsgpu_cs_parser_t) (r : Int) (reserved_buffers : Bool)
    (out_handle : Option Nat) (events : List cs_event) : Option ioctl_result :=
  if parser.chunks.isNone ∧ parser.nchunks ≠ 0 then none
  else some ⟨r, out_handle, events ++ gsgpu_cs_parser_fini parser r reserved_buffers⟩

/-- `gsgpu_cs_ioctl`; `none` when a phase dereferences a `NULL` pointer. -/
def gsgpu_cs_ioctl (c : Consts) (env : CsEnv) (cs : drm_gsgpu_cs_in) : Option ioctl_result :=
  if !env.accel_working then some ⟨-EBUSY, none, []⟩
  else
    let i := gsgpu_cs_parser_init c env.init cs {}
    if i.1 ≠ 0 then ioctl_out i.2.1 i.1 false none []
    else
      match gsgpu_cs_ib_fill env i.2.1 with
      | none => none
      | some f =>
        if f.r ≠ 0 then ioctl_out f.p f.r false none []
        else
          match gsgpu_cs_parser_bos env cs f.p with
          | none => none
          | some b =>
            if b.r ≠ 0 then ioctl_out b.p b.r false none b.events
            else
              -- reserved_buffers = true
              let d := env.gsgpu_cs_dependencies b.p
              let pd := dependencies_update b.p d.2
              if d.1 ≠ 0 then ioctl_out pd d.1 true none b.events
              else if env.gsgpu_cs_ib_vm_chunk ≠ 0 then
                ioctl_out pd env.gsgpu_cs_ib_vm_chunk true none b.events
              else
                match gsgpu_cs_submit env pd with
                | none => none
                | some s => ioctl_out s.p s.r true s.out_handle (b.events ++ s.events)

/-- The fields of the parser that no phase after `gsgpu_cs_ib_fill` changes, and the job
staying in place. -/
def parser_frame (p q : gsgpu_cs_parser_t) : Prop :=
  q.chunks = p.chunks ∧ q.nchunks = p.nchunks ∧ q.ring = p.ring ∧ q.ctx = p.ctx ∧
  (p.job.isSome = true → q.job.isSome = true)

/-- The event is a call of `ttm_eu_backoff_reservation`. -/
def is_backoff : cs_event → Bool
  | .ttm_eu_backoff_reservation => true
  | _ => false

/-- The event is a call of `ttm_eu_fence_buffer_objects`. -/
def is_fence_buffer_objects : cs_event → Bool
  | .ttm_eu_fence_buffer_objects _ _ => true
  | _ => false

/-- Number of calls of `ttm_eu_backoff_reservation` among the events. -/
def count_backoff (events : List cs_event) : Nat :=
  events.countP is_backoff

/-- Number of calls of `ttm_eu_fence_buffer_objects` among the events. -/
def count_fence_buffer_objects (events : List cs_event) : Nat :=
  events.countP is_fence_buffer_objects

/-- `ttm_eu_reserve_buffers` was called and returned 0. -/
def reserve_succeeded (events : List cs_event) : Prop :=
  cs_event.ttm_eu_reserve_buffers 0 ∈ events

/-! ### Concrete inputs -/

/-- Every collaborator of the ioctl succeeds; the resource list 1 holds the resources 10 and 11,
the second of them user-backed, and the scheduler job gets the fence 77 and the sequence
number 5. -/
def cs_env_ok : CsEnv :=
  { accel_working := true
    init := env_all_ok
    gsgpu_queue_mgr_map := fun _ => (0, 3)
    chunk_ib_preamble := fun _ => false
    gsgpu_ib_get := fun _ => 0
    gsgpu_ctx_wait_prev_fence := 0
    GSGPU_PREAMBLE_IB_PRESENT := 1
    GSGPU_PREAMBLE_IB_PRESENT_FIRST := 2
    gsgpu_bo_list_get := (0, 1)
    gsgpu_bo_list_create_empty := (0, 1)
    bo_list_get_list := fun _ => [10, 11]
    bo_parent := fun _ => false
    userptr_entries := fun _ => [11]
    kvmalloc_user_pages := fun _ => true
    gsgpu_ttm_tt_get_user_pages := fun _ => 0
    ttm_eu_reserve_buffers := 0
    threshold_for_moves := (0, 0)
    gsgpu_vm_validate_pt_bos := fun p => (0, p)
    list_validate_duplicates := fun p => (0, p)
    list_validate_validated := fun p => (0, p)
    gsgpu_ttm_alloc_gart := 0
    gsgpu_bo_gpu_offset := fun _ => 0
    gsgpu_cs_dependencies := fun p => (0, p)
    gsgpu_cs_ib_vm_chunk := 0
    drm_sched_job_init := (0, 77)
    gsgpu_ttm_tt_get_user_pages_done := fun _ => true
    gsgpu_ctx_add_fence := (0, 5) }

/-- As `cs_env_ok`, but the pages of the user-backed resource were invalidated. -/
def cs_env_invalidated : CsEnv :=
  { cs_env_ok with gsgpu_ttm_tt_get_user_pages_done := fun _ => false }

/-- As `cs_env_ok`, but both resources of the list are user-backed and the pages of the second,
resource 11, were invalidated. -/
def cs_env_invalidated_later : CsEnv :=
  { cs_env_ok with
    userptr_entries := fun _ => [10, 11]
    gsgpu_ttm_tt_get_user_pages_done := fun b => decide (b ≠ 11) }

/-- As `cs_env_ok`, but `gsgpu_cs_dependencies` fails. -/
def cs_env_dep_fails : CsEnv :=
  { cs_env_ok with gsgpu_cs_dependencies := fun p => (-EINVAL, p) }

/-- A parser as `gsgpu_cs_submit` finds it: job, context, ring and resource list set, two
resources validated, two sync objects to signal. -/
def parser_ready : gsgpu_cs_parser_t :=
  { ctx := some {}, nchunks := 1,
    chunks := some [⟨GSGPU_CHUNK_ID_IB, 8, some [0, 0, 4096, 0, 64, 0, 0, 0]⟩],
    job := some { num_ibs := 1 }, bo_list := some 1, validated := [10, 11],
    post_dep_syncobjs := [40, 41], num_post_dep_syncobjs := 2, ring := some 3 }

/-! ## Concrete inputs for the eviction scenario and the user fence -/

/-- The validated list of `parser_three` with resource 2 in front of resource 0. -/
def parser_three_c_first : gsgpu_cs_parser_t :=
  { parser_three with validated := [2, 0, 1] }

/-- As `env_all_ok`, with handle 9 naming resource 20, one page of 16 KiB that is not
user-backed. -/
def env_user_fence : InitEnv :=
  { env_all_ok with
    drm_gem_object_lookup := fun h => if h = 9 then some 20 else none
    bo := fun _ => { size := 16384 } }

/-- A user-fence chunk for handle 9 whose offset is `2^32 - 4`. -/
def fence_near_wrap : drm_gsgpu_cs_chunk_fence := ⟨9, 4294967292⟩

/-- A submission of one IB chunk and one FENCE chunk for handle 9 with offset `2^32 - 4`. -/
def cs_fence_near_wrap : drm_gsgpu_cs_in :=
  { chunks := [⟨GSGPU_CHUNK_ID_IB, 8, [0, 0, 4096, 0, 64, 0, 0, 0]⟩,
      ⟨GSGPU_CHUNK_ID_FENCE, 2, [9, 4294967292]⟩] }


/-! ## Migration throttle -/

/-- A value of type `s64`: the integer wrapped into the signed 64-bit range. -/
def s64 (x : Int) : Int := (x + 2 ^ 63) % 2 ^ 64 - 2 ^ 63

/-- The fields of `adev->mm_stats`. -/
structure mm_stats_t where
  log2_max_MBps : Nat := 0
  last_update_us : Int := 0
  accum_us : Int := 0
  accum_us_vis : Int := 0
deriving DecidableEq, Repr

/-- The fields of `struct gsgpu_device` the throttle reads. -/
structure gsgpu_device where
  mm_stats : mm_stats_t := {}
  /-- `adev->flags & GSGPU_IS_APU` is set -/
  is_apu : Bool := false
  /-- `adev->gmc.real_vram_size` -/
  real_vram_size : Nat := 0
  /-- `adev->gmc.visible_vram_size` -/
  visible_vram_size : Nat := 0
  /-- `gsgpu_gmc_vram_full_visible(&adev->gmc)` -/
  vram_full_visible : Bool := false
deriving DecidableEq, Repr

/-- What one call of `gsgpu_cs_get_threshold_for_moves` reads besides the device fields: the
clock, the pinned VRAM and the two usage figures. -/
structure threshold_reading where
  /-- `ktime_to_us(ktime_get())` -/
  time_us : Int
  /-- `atomic64_read(&adev->vram_pin_size)` -/
  vram_pin_size : Nat
  /-- `gsgpu_vram_mgr_usage` -/
  vram_usage : Nat
  /-- `gsgpu_vram_mgr_vis_usage` -/
  vis_usage : Nat
deriving DecidableEq, Repr

/-- `us_to_bytes`: the signed value `us << log2_max_MBps` returned as `u64`. -/
def us_to_bytes (adev : gsgpu_device) (us : Int) : Nat :=
  if us ≤ 0 ∨ adev.mm_stats.log2_max_MBps = 0 then 0
  else (us.toNat * 2 ^ adev.mm_stats.log2_max_MBps) % 2 ^ 64

/-- `bytes_to_us`: the `u64` value `bytes >> log2_max_MBps` returned as `s64`. -/
def bytes_to_us (adev : gsgpu_device) (bytes : Nat) : Int :=
  if adev.mm_stats.log2_max_MBps = 0 then 0
  else s64 ((bytes % 2 ^ 64 / 2 ^ adev.mm_stats.log2_max_MBps : Nat) : Int)

/-- The constant `us_upper_bound` of `gsgpu_cs_get_threshold_for_moves`. -/
def us_upper_bound : Int := 200000

/-- The local `total_vram` of `gsgpu_cs_get_threshold_for_moves`, a `u64` difference. -/
def threshold_total_vram (adev : gsgpu_device) (rd : threshold_reading) : Nat :=
  (adev.real_vram_size % 2 ^ 64 + (2 ^ 64 - rd.vram_pin_size % 2 ^ 64)) % 2 ^ 64

/-- The local `free_vram` of `gsgpu_cs_get_threshold_for_moves`. -/
def threshold_free_vram (adev : gsgpu_device) (rd : threshold_reading) : Nat :=
  if rd.vram_usage % 2 ^ 64 ≥ threshold_total_vram adev rd then 0
  else threshold_total_vram adev rd - rd.vram_usage % 2 ^ 64

/-- The test under which `gsgpu_cs_get_threshold_for_moves` tops the credit up: 128 MB or
1/8th of VRAM is free. -/
def threshold_top_up (adev : gsgpu_device) (rd : threshold_reading) : Prop :=
  threshold_free_vram adev rd ≥ 128 * 1024 * 1024 ∨
  threshold_free_vram adev rd ≥ threshold_total_vram adev rd / 8

/-- The value `gsgpu_cs_get_threshold_for_moves` stores in `accum_us`, for the elapsed time
`increment_us`: the old credit plus the elapsed time, capped at `us_upper_bound`, and raised to
`min_us` when 128 MB or 1/8th of VRAM is free. -/
def threshold_accum_us (adev : gsgpu_device) (rd : threshold_reading) (increment_us : Int) :
    Int :=
  let total_vram := threshold_total_vram adev rd
  let free_vram := threshold_free_vram adev rd
  let accum_us := min (s64 (adev.mm_stats.accum_us + increment_us)) us_upper_bound
  if free_vram ≥ 128 * 1024 * 1024 ∨ free_vram ≥ total_vram / 8 then
    -- Be more aggresive on dGPUs. Reset accum_us on APUs.
    let min_us := if !adev.is_apu then bytes_to_us adev (free_vram / 4) else 0
    max min_us accum_us
  else accum_us

/-- The value `gsgpu_cs_get_threshold_for_moves` leaves in `accum_us_vis` when VRAM is not fully
CPU-visible, for the elapsed time `increment_us`. -/
def threshold_accum_us_vis (adev : gsgpu_device) (rd : threshold_reading)
    (increment_us : Int) : Int :=
  let total_vis_vram := adev.visible_vram_size % 2 ^ 64
  let used_vis_vram := rd.vis_usage % 2 ^ 64
  if used_vis_vram < total_vis_vram then
    let free_vis_vram := total_vis_vram - used_vis_vram
    let accum_us_vis := min (s64 (adev.mm_stats.accum_us_vis + increment_us)) us_upper_bound
    if free_vis_vram ≥ total_vis_vram / 2 then
      max (bytes_to_us adev (free_vis_vram / 2)) accum_us_vis
    else accum_us_vis
  else adev.mm_stats.accum_us_vis

/-- `gsgpu_cs_get_threshold_for_moves`: the device after the call and the values stored in
`*max_bytes` and `*max_vis_bytes`. -/
def gsgpu_cs_get_threshold_for_moves (adev : gsgpu_device) (rd : threshold_reading) :
    gsgpu_device × Nat × Nat :=
  if adev.mm_stats.log2_max_MBps = 0 then (adev, 0, 0)
  else
    -- Increase the amount of accumulated us.
    let time_us := s64 rd.time_us
    let increment_us := s64 (time_us - adev.mm_stats.last_update_us)
    let accum_us := threshold_accum_us adev rd increment_us
    -- This is set to 0 if the driver is in debt to disallow (optional) buffer moves.
    let max_bytes := us_to_bytes adev accum_us
    -- Do the same for visible VRAM if half of it is free
    if !adev.vram_full_visible then
      let accum_us_vis := threshold_accum_us_vis adev rd increment_us
      ({ adev with mm_stats := { adev.mm_stats with
          last_update_us := time_us, accum_us := accum_us, accum_us_vis := accum_us_vis } },
        max_bytes, us_to_bytes adev accum_us_vis)
    else
      ({ adev with mm_stats := { adev.mm_stats with
          last_update_us := time_us, accum_us := accum_us } },
        max_bytes, 0)

/-- `gsgpu_cs_report_moved_bytes`. -/
def gsgpu_cs_report_moved_bytes (adev : gsgpu_device) (num_bytes num_vis_bytes : Nat) :
    gsgpu_device :=
  { adev with mm_stats := { adev.mm_stats with
    accum_us := s64 (adev.mm_stats.accum_us - bytes_to_us adev num_bytes)
    accum_us_vis := s64 (adev.mm_stats.accum_us_vis - bytes_to_us adev num_vis_bytes) } }

/-- The Budget State after the throttle calls among the events of a submission, every call of
`gsgpu_cs_get_threshold_for_moves` reading `rd`. -/
def budget_after (rd : threshold_reading) : gsgpu_device → List cs_event → gsgpu_device
  | adev, [] => adev
  | adev, .gsgpu_cs_get_threshold_for_moves :: es =>
    budget_after rd (gsgpu_cs_get_threshold_for_moves adev rd).1 es
  | adev, .gsgpu_cs_report_moved_bytes b v :: es =>
    budget_after rd (gsgpu_cs_report_moved_bytes adev b v) es
  | adev, _ :: es => budget_after rd adev es

/-- The calls of `gsgpu_cs_report_moved_bytes` among the events, with their arguments. -/
def reported_moves : List cs_event → List (Nat × Nat)
  | [] => []
  | .gsgpu_cs_report_moved_bytes b v :: es => (b, v) :: reported_moves es
  | _ :: es => reported_moves es

/-! ### Concrete inputs -/

/-- A discrete GPU with 8 GiB of VRAM, a quarter of it CPU-visible, a rate of 8 MB/s
(`log2_max_MBps = 3`) and no credit. -/
def adev_dgpu : gsgpu_device :=
  { mm_stats := { log2_max_MBps := 3 }
    real_vram_size := 8589934592
    visible_vram_size := 2147483648 }

/-- As `adev_dgpu`, in debt by 1000 microseconds. -/
def adev_debt : gsgpu_device :=
  { adev_dgpu with mm_stats := { log2_max_MBps := 3, accum_us := -1000 } }

/-- As `adev_dgpu`, with the rate not configured (`log2_max_MBps = 0`). -/
def adev_no_rate : gsgpu_device :=
  { adev_dgpu with mm_stats := { log2_max_MBps := 0 } }

/-- A reading at time 0 with VRAM empty. -/
def reading_empty : threshold_reading :=
  { time_us := 0, vram_pin_size := 0, vram_usage := 0, vis_usage := 0 }

/-- A reading with VRAM and visible VRAM full, at time `t`. -/
def reading_full (t : Int) : threshold_reading :=
  { time_us := t, vram_pin_size := 0, vram_usage := 8589934592, vis_usage := 2147483648 }


/-- The parser as the validation passes of `gsgpu_cs_parser_bos` receive it: the two thresholds
stored, the byte counters cleared and the eviction cursor at the end of the list. -/
def parser_bos_thresholds (env : CsEnv) (p1 : gsgpu_cs_parser_t) : gsgpu_cs_parser_t :=
  { p1 with
    bytes_moved_threshold := env.threshold_for_moves.1
    bytes_moved_vis_threshold := env.threshold_for_moves.2
    bytes_moved := 0
    bytes_moved_vis := 0
    evictable := some p1.validated.length }

/-- As `adev_dgpu`, with a rate of `2^47` MB/s and in debt by one microsecond. -/
def adev_fast : gsgpu_device :=
  { adev_dgpu with mm_stats := { log2_max_MBps := 47, accum_us := -1 } }

/-- As `cs_env_ok`, but the validation of the validated list moves 4096 bytes. -/
def cs_env_moved : CsEnv :=
  { cs_env_ok with list_validate_validated := fun p => (0, { p with bytes_moved := 4096 }) }


/-- The parser of `gsgpu_cs_parser_bos` when the buffers are reserved: the resource list
`bo_list` stored and its entries, preceded by the user-fence resource, on `validated`. -/
def parser_bos_entry (env : CsEnv) (p : gsgpu_cs_parser_t) (bo_list : Nat) :
    gsgpu_cs_parser_t :=
  let p0 := { p with validated := [] }
  let listed := env.bo_list_get_list bo_list
  let validated :=
    match p0.uf_entry.robj with
    | some uf => if !env.bo_parent uf then uf :: listed else listed
    | none => listed
  { p0 with bo_list := some bo_list, validated := validated }

/-- As `cs_env_ok`, but the validation of the duplicates moves 4096 bytes and then fails. -/
def cs_env_dup_fails : CsEnv :=
  { cs_env_ok with
    list_validate_duplicates := fun p => (-EINVAL, { p with bytes_moved := 4096 }) }

/-- The result of `gsgpu_cs_parser_bos` for `parser_ready` under `cs_env_dup_fails`. -/
def bos_dup_fails_result : phase_result :=
  { r := -EINVAL
    p := { parser_ready with
      bytes_moved := 4096
      evictable := some 2 }
    events := [.ttm_eu_reserve_buffers 0, .gsgpu_cs_get_threshold_for_moves,
      .ttm_eu_backoff_reservation] }

/-- The result of `gsgpu_cs_parser_bos` for `parser_ready` under `cs_env_moved`. -/
def bos_moved_result : phase_result :=
  { r := 0
    p := { parser_ready with
      bytes_moved := 4096
      evictable := some 2 }
    events := [.ttm_eu_reserve_buffers 0, .gsgpu_cs_get_threshold_for_moves,
      .gsgpu_cs_report_moved_bytes 4096 0] }


/-! ## Dependencies -/

/-- One record of a DEPENDENCIES chunk, `struct drm_gsgpu_cs_chunk_dep`. -/
structure drm_gsgpu_cs_chunk_dep where
  ip_type : Nat := 0
  ip_instance : Nat := 0
  ring : Nat := 0
  ctx_id : Nat := 0
  handle : Nat := 0
deriving DecidableEq, Repr

/-- A fence pointer as `gsgpu_ctx_get_fence` hands it back: an error pointer (`IS_ERR`, with
its `PTR_ERR`), `NULL`, or a fence. -/
inductive fence_ptr where
  | err (r : Int)
  | null
  | fence (f : Nat)
deriving DecidableEq, Repr

/-- Outcomes of the collaborators of the dependency processing and of the fence waits. -/
structure DepEnv where
  /-- record `i` of the payload of a DEPENDENCIES chunk -/
  chunk_dep : List Nat → Nat → drm_gsgpu_cs_chunk_dep
  /-- `handle` of record `i` of the payload of a SYNCOBJ_IN or SYNCOBJ_OUT chunk -/
  chunk_sem : List Nat → Nat → Nat
  /-- `gsgpu_ctx_get`, the context named by its number -/
  gsgpu_ctx_get : Nat → Option Nat
  /-- `gsgpu_queue_mgr_map` of a context for `ip_type`, `ip_instance`, `ring`: return value and
  the ring -/
  gsgpu_queue_mgr_map : Nat → Nat → Nat → Nat → Int × Nat
  /-- `gsgpu_ctx_get_fence` of a context and ring for a sequence number -/
  gsgpu_ctx_get_fence : Nat → Nat → Nat → fence_ptr
  /-- `gsgpu_sync_fence` into the dependency set of the job -/
  gsgpu_sync_fence : Nat → Int
  /-- `drm_syncobj_find_fence`: return value and the fence -/
  drm_syncobj_find_fence : Nat → Int × Nat
  /-- `kmalloc_array` for `p->post_dep_syncobjs` with the given number of slots succeeds -/
  kmalloc_post_dep_syncobjs : Nat → Bool
  /-- `drm_syncobj_find` -/
  drm_syncobj_find : Nat → Option Nat

/-- Calls the dependency processing makes. -/
inductive dep_event where
  | gsgpu_ctx_get (ctx_id : Nat) (ctx : Option Nat)
  | gsgpu_ctx_put (ctx : Nat)
  | gsgpu_sync_fence (fence : Nat) (r : Int)
  | dma_fence_put (fence : Nat)
  | drm_syncobj_find (handle : Nat) (syncobj : Option Nat)
deriving DecidableEq, Repr

/-- The record count of a chunk, `chunk->length_dw * 4 / sizeof(record)`, the product in
32 bits. -/
def chunk_num_deps (chunk : gsgpu_cs_chunk) (size : Nat) : Nat :=
  (chunk.length_dw * 4) % 2 ^ 32 / size

/-- One turn of the loop of `gsgpu_cs_process_fence_dep`: `some r` when the turn returns `r`,
`none` when the loop goes on, and the calls made. -/
def fence_dep_entry (env : DepEnv) (d : drm_gsgpu_cs_chunk_dep) :
    Option Int × List dep_event :=
  match env.gsgpu_ctx_get d.ctx_id with
  | none => (some (-EINVAL), [.gsgpu_ctx_get d.ctx_id none])
  | some ctx =>
    let m := env.gsgpu_queue_mgr_map ctx d.ip_type d.ip_instance d.ring
    if m.1 ≠ 0 then
      (some m.1, [.gsgpu_ctx_get d.ctx_id (some ctx), .gsgpu_ctx_put ctx])
    else
      match env.gsgpu_ctx_get_fence ctx m.2 d.handle with
      | .err r => (some r, [.gsgpu_ctx_get d.ctx_id (some ctx), .gsgpu_ctx_put ctx])
      | .null => (none, [.gsgpu_ctx_get d.ctx_id (some ctx)])
      | .fence f =>
        let r := env.gsgpu_sync_fence f
        (if r ≠ 0 then some r else none,
          [.gsgpu_ctx_get d.ctx_id (some ctx), .gsgpu_sync_fence f r, .dma_fence_put f,
            .gsgpu_ctx_put ctx])

/-- The loop of `gsgpu_cs_process_fence_dep` over the records still to process. -/
def fence_dep_loop (env : DepEnv) : List drm_gsgpu_cs_chunk_dep → Int × List dep_event
  | [] => (0, [])
  | d :: ds =>
    match (fence_dep_entry env d).1 with
    | some r => (r, (fence_dep_entry env d).2)
    | none => ((fence_dep_loop env ds).1, (fence_dep_entry env d).2 ++ (fence_dep_loop env ds).2)

/-- `gsgpu_cs_process_fence_dep`: return value and calls; `none` when records are read through
a `NULL` payload. -/
def gsgpu_cs_process_fence_dep (c : Consts) (env : DepEnv) (chunk : gsgpu_cs_chunk) :
    Option (Int × List dep_event) :=
  let num_deps := chunk_num_deps chunk c.sizeof_chunk_dep
  match chunk.kdata with
  | none => if num_deps = 0 then some (0, []) else none
  | some kdata => some (fence_dep_loop env ((List.range num_deps).map (env.chunk_dep kdata)))

/-- `gsgpu_syncobj_lookup_and_add_to_sync`. -/
def gsgpu_syncobj_lookup_and_add_to_sync (env : DepEnv) (handle : Nat) :
    Int × List dep_event :=
  let f := env.drm_syncobj_find_fence handle
  if f.1 ≠ 0 then (f.1, [])
  else
    (env.gsgpu_sync_fence f.2,
      [.gsgpu_sync_fence f.2 (env.gsgpu_sync_fence f.2), .dma_fence_put f.2])

/-- The loop of `gsgpu_cs_process_syncobj_in_dep` over the handles still to process. -/
def syncobj_in_loop (env : DepEnv) : List Nat → Int × List dep_event
  | [] => (0, [])
  | h :: hs =>
    if (gsgpu_syncobj_lookup_and_add_to_sync env h).1 ≠ 0 then
      gsgpu_syncobj_lookup_and_add_to_sync env h
    else
      ((syncobj_in_loop env hs).1,
        (gsgpu_syncobj_lookup_and_add_to_sync env h).2 ++ (syncobj_in_loop env hs).2)

/-- `gsgpu_cs_process_syncobj_in_dep`. -/
def gsgpu_cs_process_syncobj_in_dep (c : Consts) (env : DepEnv) (chunk : gsgpu_cs_chunk) :
    Option (Int × List dep_event) :=
  let num_deps := chunk_num_deps chunk c.sizeof_chunk_sem
  match chunk.kdata with
  | none => if num_deps = 0 then some (0, []) else none
  | some kdata => some (syncobj_in_loop env ((List.range num_deps).map (env.chunk_sem kdata)))

/-- Result of a dependency function that writes the parser: return value, parser, calls. -/
structure dep_result where
  r : Int
  p : gsgpu_cs_parser_t
  events : List dep_event
deriving DecidableEq, Repr

/-- The loop of `gsgpu_cs_process_syncobj_out_dep` over the handles still to process; the
filled slots of `p->post_dep_syncobjs` are the list, `p->num_post_dep_syncobjs` their count. -/
def syncobj_out_loop (env : DepEnv) : List Nat → gsgpu_cs_parser_t → dep_result
  | [], p => ⟨0, p, []⟩
  | h :: hs, p =>
    match env.drm_syncobj_find h with
    | none => ⟨-EINVAL, p, [.drm_syncobj_find h none]⟩
    | some s =>
      let res := syncobj_out_loop env hs
        { p with
          post_dep_syncobjs := p.post_dep_syncobjs ++ [s]
          num_post_dep_syncobjs := p.num_post_dep_syncobjs + 1 }
      ⟨res.r, res.p, .drm_syncobj_find h (some s) :: res.events⟩

/-- `gsgpu_cs_process_syncobj_out_dep`. -/
def gsgpu_cs_process_syncobj_out_dep (c : Consts) (env : DepEnv) (p : gsgpu_cs_parser_t)
    (chunk : gsgpu_cs_chunk) : Option dep_result :=
  let num_deps := chunk_num_deps chunk c.sizeof_chunk_sem
  let p1 := { p with post_dep_syncobjs := [], num_post_dep_syncobjs := 0 }
  if !env.kmalloc_post_dep_syncobjs num_deps then some ⟨-ENOMEM, p1, []⟩
  else
    match chunk.kdata with
    | none => if num_deps = 0 then some ⟨0, p1, []⟩ else none
    | some kdata =>
      some (syncobj_out_loop env ((List.range num_deps).map (env.chunk_sem kdata)) p1)

/-- The loop of `gsgpu_cs_dependencies` over the chunks still to process. -/
def dependencies_loop (c : Consts) (env : DepEnv) :
    List gsgpu_cs_chunk → gsgpu_cs_parser_t → Option dep_result
  | [], p => some ⟨0, p, []⟩
  | chunk :: rest, p =>
    match chunk.chunk_id with
    | GSGPU_CHUNK_ID_DEPENDENCIES =>
      match gsgpu_cs_process_fence_dep c env chunk with
      | none => none
      | some res =>
        if res.1 ≠ 0 then some ⟨res.1, p, res.2⟩
        else (dependencies_loop c env rest p).map
          (fun t => { t with events := res.2 ++ t.events })
    | GSGPU_CHUNK_ID_SYNCOBJ_IN =>
      match gsgpu_cs_process_syncobj_in_dep c env chunk with
      | none => none
      | some res =>
        if res.1 ≠ 0 then some ⟨res.1, p, res.2⟩
        else (dependencies_loop c env rest p).map
          (fun t => { t with events := res.2 ++ t.events })
    | GSGPU_CHUNK_ID_SYNCOBJ_OUT =>
      match gsgpu_cs_process_syncobj_out_dep c env p chunk with
      | none => none
      | some res =>
        if res.r ≠ 0 then some res
        else (dependencies_loop c env rest res.p).map
          (fun t => { t with events := res.events ++ t.events })
    | _ => dependencies_loop c env rest p

/-- `gsgpu_cs_dependencies`; `none` when it reads through a `NULL` pointer. -/
def gsgpu_cs_dependencies (c : Consts) (env : DepEnv) (p : gsgpu_cs_parser_t) :
    Option dep_result :=
  match p.chunks with
  | none => if p.nchunks = 0 then some ⟨0, p, []⟩ else none
  | some chunks => dependencies_loop c env (chunks.take p.nchunks) p

/-- The fences handed to `gsgpu_sync_fence`, that is, offered to the dependency set of the
job, in call order. -/
def synced : List dep_event → List Nat
  | [] => []
  | .gsgpu_sync_fence f _ :: es => f :: synced es
  | _ :: es => synced es

/-- The sync objects the SYNCOBJ_OUT chunks among the first `nchunks` chunks ask to signal:
`drm_syncobj_find` of every handle, chunk after chunk. -/
def requested_out_syncobjs (c : Consts) (env : DepEnv) (p : gsgpu_cs_parser_t) :
    List (Option Nat) :=
  (((p.chunks.getD []).take p.nchunks).filter
    (fun chunk => chunk.chunk_id = GSGPU_CHUNK_ID_SYNCOBJ_OUT)).flatMap
    (fun chunk =>
      (List.range (chunk_num_deps chunk c.sizeof_chunk_sem)).map
        (fun i => env.drm_syncobj_find (env.chunk_sem (chunk.kdata.getD []) i)))

/-! ### Concrete inputs -/

/-- Every collaborator succeeds: context `n` is object `n + 200`, every queue maps to ring 3,
sequence number 0 and numbers from 100 on have no fence (retired), any other number `n` has
fence `n + 60`, sync object handles resolve to `handle + 100`, fences of sync objects are
`handle + 300`; a payload holds one dword per sync-object record and six per dependency
record. -/
def dep_env_ok : DepEnv :=
  { chunk_dep := fun kdata i =>
      { ip_type := kdata.getD (6 * i) 0, ip_instance := kdata.getD (6 * i + 1) 0,
        ring := kdata.getD (6 * i + 2) 0, ctx_id := kdata.getD (6 * i + 3) 0,
        handle := kdata.getD (6 * i + 4) 0 }
    chunk_sem := fun kdata i => kdata.getD i 0
    gsgpu_ctx_get := fun n => some (n + 200)
    gsgpu_queue_mgr_map := fun _ _ _ _ => (0, 3)
    gsgpu_ctx_get_fence := fun _ _ n =>
      if n = 0 ∨ 100 ≤ n then fence_ptr.null else fence_ptr.fence (n + 60)
    gsgpu_sync_fence := fun _ => 0
    drm_syncobj_find_fence := fun h => (0, h + 300)
    kmalloc_post_dep_syncobjs := fun _ => true
    drm_syncobj_find := fun h => some (h + 100) }

/-- A parser with an IB chunk and two SYNCOBJ_OUT chunks of one handle each, 40 and 41. -/
def parser_two_out : gsgpu_cs_parser_t :=
  { ctx := some {}, nchunks := 3,
    chunks := some [⟨GSGPU_CHUNK_ID_IB, 8, some [0, 0, 4096, 0, 64, 0, 0, 0]⟩,
      ⟨GSGPU_CHUNK_ID_SYNCOBJ_OUT, 1, some [40]⟩,
      ⟨GSGPU_CHUNK_ID_SYNCOBJ_OUT, 1, some [41]⟩],
    job := some { num_ibs := 1 }, ring := some 3 }

/-- A DEPENDENCIES chunk of two records, on context 1: sequence number 100, retired, and
sequence number 10, with fence 70. -/
def chunk_two_deps : gsgpu_cs_chunk :=
  ⟨GSGPU_CHUNK_ID_DEPENDENCIES, 12, some [0, 0, 0, 1, 100, 0, 0, 0, 0, 1, 10, 0]⟩

/-- A DEPENDENCIES chunk of two records on context 1, both retired. -/
def chunk_retired_deps : gsgpu_cs_chunk :=
  ⟨GSGPU_CHUNK_ID_DEPENDENCIES, 12, some [0, 0, 0, 1, 100, 0, 0, 0, 0, 1, 101, 0]⟩


/-! ## Fence waits -/

/-- Conversion of a `long` to the `int` a function returns. -/
def s32 (x : Int) : Int := (x + 2 ^ 31) % 2 ^ 32 - 2 ^ 31

/-- One entry of the fence list of a wait, `struct drm_gsgpu_fence`. -/
structure drm_gsgpu_fence where
  ctx_id : Nat := 0
  ip_type : Nat := 0
  ip_instance : Nat := 0
  ring : Nat := 0
  seq_no : Nat := 0
deriving DecidableEq, Repr

/-- `gsgpu_cs_get_fence`: the fence pointer of a list entry.  The context reference taken by
the lookup is put again on both paths that follow it. -/
def gsgpu_cs_get_fence (env : DepEnv) (user : drm_gsgpu_fence) : fence_ptr :=
  match env.gsgpu_ctx_get user.ctx_id with
  | none => .err (-EINVAL)
  | some ctx =>
    let m := env.gsgpu_queue_mgr_map ctx user.ip_type user.ip_instance user.ring
    if m.1 ≠ 0 then .err m.1
    else env.gsgpu_ctx_get_fence ctx m.2 user.seq_no

/-- Outcomes of the collaborators of the two wait functions. -/
structure WaitEnv where
  /-- collaborators of `gsgpu_cs_get_fence` -/
  dep : DepEnv
  /-- `dma_fence_wait_timeout` for the entry with the given index on its fence -/
  dma_fence_wait_timeout : Nat → Nat → Int
  /-- `fence->error` -/
  fence_error : Nat → Int
  /-- `kcalloc` of the fence array succeeds -/
  kcalloc_array : Bool
  /-- `dma_fence_wait_any_timeout` on the fence array: return value and the index it stores
  in `first`, if it stores one -/
  dma_fence_wait_any_timeout : List (Option Nat) → Int × Option Nat

/-- What a wait function writes to `wait->out`. -/
structure wait_out where
  status : Nat
  first_signaled : Nat
deriving DecidableEq, Repr

/-- Calls the wait functions make. -/
inductive wait_event where
  | dma_fence_wait_timeout (i : Nat) (fence : Nat)
  | dma_fence_wait_any_timeout (array : List (Option Nat))
  | dma_fence_put (fence : Option Nat)
deriving DecidableEq, Repr

/-- Result of a wait function: return value, what it wrote to `wait` (`none` when `wait` is left
unwritten) and the calls made. -/
structure wait_result where
  r : Int
  out : Option wait_out
  events : List wait_event
deriving DecidableEq, Repr

/-- The loop of `gsgpu_cs_wait_all_fences` over the entries from index `i` on, `r` being the
value of the variable `r`, and the code after the loop. -/
def wait_all_loop (env : WaitEnv) : List drm_gsgpu_fence → Nat → Int → wait_result
  | [], _, r => ⟨0, some ⟨if r > 0 then 1 else 0, 0⟩, []⟩
  | u :: us, i, r =>
    match gsgpu_cs_get_fence env.dep u with
    | .err e => ⟨s32 e, none, []⟩
    | .null => wait_all_loop env us (i + 1) r
    | .fence f =>
      let r1 := env.dma_fence_wait_timeout i f
      let ev := [wait_event.dma_fence_wait_timeout i f, .dma_fence_put (some f)]
      if r1 < 0 then ⟨s32 r1, none, ev⟩
      else if r1 = 0 then ⟨0, some ⟨0, 0⟩, ev⟩
      else if env.fence_error f ≠ 0 then ⟨env.fence_error f, none, ev⟩
      else
        let rest := wait_all_loop env us (i + 1) r1
        ⟨rest.r, rest.out, ev ++ rest.events⟩

/-- `gsgpu_cs_wait_all_fences` on the list of `wait->in.fence_count` entries. -/
def gsgpu_cs_wait_all_fences (env : WaitEnv) (fences : List drm_gsgpu_fence) : wait_result :=
  wait_all_loop env fences 0 1

/-- How the loop that fills the fence array of `gsgpu_cs_wait_any_fence` ends, with the array:
an entry fails to resolve, the entry with index `k` has no fence, or every slot is filled. -/
inductive prepare_result where
  | err (r : Int) (array : List (Option Nat))
  | retired (k : Nat) (array : List (Option Nat))
  | filled (array : List (Option Nat))
deriving DecidableEq, Repr

/-- The loop that fills the fence array, from index `i` on, `array` being the slots filled so
far; the slots not reached stay `NULL`. -/
def wait_any_prepare (env : WaitEnv) :
    List drm_gsgpu_fence → Nat → List (Option Nat) → prepare_result
  | [], _, array => .filled array
  | u :: us, i, array =>
    match gsgpu_cs_get_fence env.dep u with
    | .err e => .err e (array ++ List.replicate (us.length + 1) none)
    | .fence f => wait_any_prepare env us (i + 1) (array ++ [some f])
    | .null => .retired i (array ++ List.replicate (us.length + 1) none)

/-- The label `out` of `gsgpu_cs_wait_any_fence` and all that follows it. -/
def wait_any_out (env : WaitEnv) (array : List (Option Nat)) (fence_count : Nat) (r : Int)
    (first : Nat) : wait_result :=
  let ret :=
    if first < fence_count then
      match array.getD first none with
      | some f => env.fence_error f
      | none => 0
    else 0
  ⟨ret, some ⟨if r > 0 then 1 else 0, first⟩, array.map wait_event.dma_fence_put⟩

/-- `gsgpu_cs_wait_any_fence` on the list of `wait->in.fence_count` entries. -/
def gsgpu_cs_wait_any_fence (env : WaitEnv) (fences : List drm_gsgpu_fence) : wait_result :=
  if !env.kcalloc_array then ⟨-ENOMEM, none, []⟩
  else
    match wait_any_prepare env fences 0 [] with
    | .err e array => ⟨s32 e, none, array.map wait_event.dma_fence_put⟩
    | .retired k array => wait_any_out env array fences.length 1 k
    | .filled array =>
      let w := env.dma_fence_wait_any_timeout array
      let first := w.2.getD (2 ^ 32 - 1) % 2 ^ 32
      if w.1 < 0 then
        ⟨s32 w.1, none, .dma_fence_wait_any_timeout array :: array.map wait_event.dma_fence_put⟩
      else
        let res := wait_any_out env array fences.length w.1 first
        ⟨res.r, res.out, .dma_fence_wait_any_timeout array :: res.events⟩

/-- The indices of the entries `dma_fence_wait_timeout` was called for. -/
def wait_indices : List wait_event → List Nat
  | [] => []
  | .dma_fence_wait_timeout i _ :: es => i :: wait_indices es
  | _ :: es => wait_indices es

/-- Whether `dma_fence_wait_any_timeout` was called. -/
def waited_any : List wait_event → Bool
  | [] => false
  | .dma_fence_wait_any_timeout _ :: _ => true
  | _ :: es => waited_any es

/-- The entry with index `i` was already retired, or its fence signalled within the timeout
without error. -/
def wait_entry_signaled (env : WaitEnv) (i : Nat) (u : drm_gsgpu_fence) : Bool :=
  match gsgpu_cs_get_fence env.dep u with
  | .err _ => false
  | .null => true
  | .fence f => decide (0 < env.dma_fence_wait_timeout i f) && decide (env.fence_error f = 0)

/-- Every entry of the list, the first having index `i`, is `wait_entry_signaled`. -/
def wait_all_signaled (env : WaitEnv) : List drm_gsgpu_fence → Nat → Bool
  | [], _ => true
  | u :: us, i => wait_entry_signaled env i u && wait_all_signaled env us (i + 1)

/-! ### Concrete inputs -/

/-- Waits under `dep_env_ok`: a wait on the fence 70 signals with 5 jiffies left, a wait on
any other fence times out, no fence carries an error, and `dma_fence_wait_any_timeout` is
interrupted. -/
def wait_env_interrupted : WaitEnv :=
  { dep := dep_env_ok
    dma_fence_wait_timeout := fun _ f => if f = 70 then 5 else 0
    fence_error := fun _ => 0
    kcalloc_array := true
    dma_fence_wait_any_timeout := fun _ => (-ERESTARTSYS, none) }

/-- As `wait_env_interrupted`, but `dma_fence_wait_any_timeout` reports the entry with index 1
signalled with 4 jiffies left, and fence 71 carries the error `-ECANCELED`. -/
def wait_env_signaled : WaitEnv :=
  { wait_env_interrupted with
    fence_error := fun f => if f = 71 then -ECANCELED else 0
    dma_fence_wait_any_timeout := fun _ => (4, some 1) }

/-- As `wait_env_interrupted`, but the fence array cannot be allocated. -/
def wait_env_no_array : WaitEnv :=
  { wait_env_interrupted with kcalloc_array := false }

/-- The list entry for sequence number `n` of context 1. -/
def fence_entry (n : Nat) : drm_gsgpu_fence :=
  { ctx_id := 1, seq_no := n }


/-! ## The eviction retry loop -/

/-- Where the `do ... while` loop of `gsgpu_cs_validate` stands: whether it was left, the value
of `r` with the parser, the placement state and the calls of the placement primitive so far,
and the number of times `gsgpu_cs_try_evict` returned true. -/
structure validate_loop_result (W : Type) where
  returned : Bool
  res : validate_result W
  evictions : Nat

/-- The loop `do r = gsgpu_cs_bo_validate(p, bo); while (r == -ENOMEM &&
gsgpu_cs_try_evict(p, bo))` of `gsgpu_cs_validate`, run for at most `fuel` turns. -/
def validate_loop {W : Type} (E : PlaceEnv W) (bo : Nat) :
    Nat → gsgpu_cs_parser_t → W → List place_call → Nat → validate_loop_result W
  | 0, p, w, calls, evictions => ⟨false, ⟨0, p, w, calls⟩, evictions⟩
  | fuel + 1, p, w, calls, evictions =>
    let v := gsgpu_cs_bo_validate E p w bo
    if v.r = -ENOMEM then
      let t := gsgpu_cs_try_evict E v.p v.w bo
      if t.1 then
        validate_loop E bo fuel t.2.p t.2.w (calls ++ v.calls ++ t.2.calls) (evictions + 1)
      else
        ⟨true, ⟨v.r, t.2.p, t.2.w, calls ++ v.calls ++ t.2.calls⟩, evictions⟩
    else
      ⟨true, ⟨v.r, v.p, v.w, calls ++ v.calls⟩, evictions⟩

/-- `gsgpu_cs_validate`; `none` when the loop has not been left within `fuel` turns. -/
def gsgpu_cs_validate {W : Type} (E : PlaceEnv W) (fuel : Nat) (p : gsgpu_cs_parser_t) (w : W)
    (bo : Nat) : Option (validate_result W) :=
  let l := validate_loop E bo fuel p w [] 0
  if !l.returned then none
  else if l.res.r ≠ 0 then some l.res
  else
    match (E.bo bo).shadow with
    | none => some l.res
    | some shadow =>
      let v := gsgpu_cs_bo_validate E l.res.p l.res.w shadow
      some ⟨v.r, v.p, v.w, l.res.calls ++ v.calls⟩

/-- The number of entries of a list, other than `bo`, that reside in one of the domains
`domain`. -/
def resident_entries {W : Type} (E : PlaceEnv W) (w : W) (bo domain : Nat) (l : List Nat) :
    Nat :=
  l.countP (fun x => decide (x ≠ bo) && decide (E.mem_type_domain w x &&& domain ≠ 0))

/-- A placement call that reports success leaves the resource resident within the requested
domains. -/
def placement_settles {W : Type} (E : PlaceEnv W) : Prop :=
  ∀ w b d m, (E.ttm_bo_validate w b d m).1 = 0 →
    E.mem_type_domain (E.ttm_bo_validate w b d m).2.2 b &&& d =
      E.mem_type_domain (E.ttm_bo_validate w b d m).2.2 b

/-- A placement call that reports success changes the residence of no other resource. -/
def placement_success_local {W : Type} (E : PlaceEnv W) : Prop :=
  ∀ w b d m x, (E.ttm_bo_validate w b d m).1 = 0 → x ≠ b →
    E.mem_type_domain (E.ttm_bo_validate w b d m).2.2 x = E.mem_type_domain w x

/-- No placement call, whether it reports success or failure, changes the residence of another
resource. -/
def placement_local {W : Type} (E : PlaceEnv W) : Prop :=
  ∀ w b d m x, x ≠ b →
    E.mem_type_domain (E.ttm_bo_validate w b d m).2.2 x = E.mem_type_domain w x

/-! ### Concrete inputs -/

/-- Domain bit 2 is GTT and 4 is VRAM.  Resource 0 may live in VRAM only, every other resource
in VRAM or GTT.  VRAM never has room for resource 0: its placement reports `-ENOMEM`.  Any other
resource is moved into GTT when GTT is among the requested domains, and the call reports
`-ENOMEM` otherwise.  A placement state maps a resource to the domain it resides in. -/
def env_evict : PlaceEnv (Nat → Nat) :=
  { bo := fun b =>
      if b = 0 then { size := 4096, preferred_domains := 4, allowed_domains := 4 }
      else { size := 4096, preferred_domains := 6, allowed_domains := 6 }
    ttm_bo_validate := fun w b d m =>
      if b = 0 then (-ENOMEM, m, w)
      else if d &&& 2 = 2 then (0, m, fun x => if x = b then 2 else w x)
      else (-ENOMEM, m, w)
    mem_type_domain := fun w b => w b
    gsgpu_bo_in_cpu_visible_vram := fun _ _ => false
    vram_full_visible := true
    GSGPU_GEM_CREATE_CPU_ACCESS_REQUIRED := 1 }

/-- As `env_evict`, but the failing placement of resource 0 leaves every resource in VRAM. -/
def env_thrash : PlaceEnv (Nat → Nat) :=
  { env_evict with
    ttm_bo_validate := fun w b d m =>
      if b = 0 then (-ENOMEM, m, fun _ => 4)
      else if d &&& 2 = 2 then (0, m, fun x => if x = b then 2 else w x)
      else (-ENOMEM, m, w) }

/-- A parser with the validated list `[2, 3]` and the cursor on the last entry. -/
def parser_pair : gsgpu_cs_parser_t :=
  { validated := [2, 3], evictable := some 2 }

/-- The placement state with every resource in VRAM. -/
def w_all_vram : Nat → Nat := fun _ => 4


/-! ## Context references of the dependency processing -/

/-- The number of `gsgpu_ctx_get` lookups among the calls that found a context, each of which
takes a reference. -/
def ctx_gets : List dep_event → Nat
  | [] => 0
  | .gsgpu_ctx_get _ (some _) :: es => ctx_gets es + 1
  | _ :: es => ctx_gets es

/-- The number of `gsgpu_ctx_put` calls among the calls. -/
def ctx_puts : List dep_event → Nat
  | [] => 0
  | .gsgpu_ctx_put _ :: es => ctx_puts es + 1
  | _ :: es => ctx_puts es


/-! ## Theorems -/

/-- C7: `gsgpu_cs_user_fence_chunk` succeeds only for a handle that resolves to a resource of
exactly `PAGE_SIZE` bytes that is not user-backed, and then hands out the chunk's offset
unchanged; every failure is `-EINVAL`, a handle that does not resolve fails, and a resource
rejected for its size or for being user-backed fails with `uf_entry.robj` cleared again. -/
theorem user_fence_chunk_contract (c : Consts) (env : InitEnv) (p : gsgpu_cs_parser_t)
    (data : drm_gsgpu_cs_chunk_fence) (offset : Nat) :
    ((gsgpu_cs_user_fence_chunk c env p data offset).1 = 0 →
      ∃ bo, env.drm_gem_object_lookup data.handle = some bo ∧
        (env.bo bo).size = c.PAGE_SIZE ∧ (env.bo bo).usermm = false ∧
        (gsgpu_cs_user_fence_chunk c env p data offset).2.2 = data.offset ∧
        (gsgpu_cs_user_fence_chunk c env p data offset).2.1.uf_entry.robj = some bo) ∧
    ((gsgpu_cs_user_fence_chunk c env p data offset).1 ≠ 0 →
      (gsgpu_cs_user_fence_chunk c env p data offset).1 = -EINVAL) ∧
    (env.drm_gem_object_lookup data.handle = none →
      (gsgpu_cs_user_fence_chunk c env p data offset).1 = -EINVAL) ∧
    (∀ bo, env.drm_gem_object_lookup data.handle = some bo →
      ((env.bo bo).size ≠ c.PAGE_SIZE ∨ (env.bo bo).usermm = true) →
      (gsgpu_cs_user_fence_chunk c env p data offset).1 = -EINVAL ∧
      (gsgpu_cs_user_fence_chunk c env p data offset).2.1.uf_entry.robj = none) := by
  unfold gsgpu_cs_user_fence_chunk
  cases hl : env.drm_gem_object_lookup data.handle with
  | none => simp [EINVAL]
  | some gobj =>
    by_cases hs : (env.bo gobj).size ≠ c.PAGE_SIZE ∨ (data.offset + 8) % 2 ^ 32 > (env.bo gobj).size
    · simp only [if_pos hs]
      simp [EINVAL]
    · simp only [if_neg hs]
      by_cases hu : (env.bo gobj).usermm = true
      · simp [hu, EINVAL]
      · have hsz : (env.bo gobj).size = c.PAGE_SIZE := by
          by_contra h
          exact hs (Or.inl h)
        simp [hu, hsz]

/-! ### Submission decoder -/

theorem parser_init_chunk_fail_ret (c : Consts) (env : InitEnv) (u : drm_gsgpu_cs_chunk)
    (i : Nat) (s : init_state) (ret : Int) (n : Nat) (s' : init_state)
    (h : parser_init_chunk c env u i s = .fail ret n s') : ret ≠ 0 := by
  unfold parser_init_chunk at h
  cases hid : u.chunk_id <;> simp only [hid] at h <;> split_ifs at h <;> cases h <;>
    first
    | (simp [EFAULT]; done)
    | (simp [ENOMEM]; done)
    | (simp [EINVAL]; done)
    | assumption

theorem parser_init_loop_fail_ret (c : Consts) (env : InitEnv) :
    ∀ (us : List drm_gsgpu_cs_chunk) (i : Nat) (s : init_state) (ret : Int) (n : Nat)
      (s' : init_state), parser_init_loop c env us i s = .fail ret n s' → ret ≠ 0 := by
  intro us
  induction us with
  | nil => intro i s ret n s' h; simp [parser_init_loop] at h
  | cons u us ih =>
    intro i s ret n s' h
    unfold parser_init_loop at h
    cases hb : parser_init_chunk c env u i s with
    | done s1 => rw [hb] at h; exact ih _ _ _ _ _ h
    | fail r m s1 =>
      rw [hb] at h
      cases h
      exact parser_init_chunk_fail_ret c env u i s _ _ _ hb

theorem parser_init_chunk_undersized (c : Consts) (env : InitEnv) (u : drm_gsgpu_cs_chunk)
    (i : Nat) (s s' : init_state) (hu : undersized_checked c u) :
    parser_init_chunk c env u i s ≠ .done s' := by
  intro h
  unfold parser_init_chunk at h
  rcases hu with ⟨hid, hlt⟩ | ⟨hid, hlt⟩ <;> simp only [hid] at h <;> split_ifs at h

theorem parser_init_loop_undersized (c : Consts) (env : InitEnv) :
    ∀ (us : List drm_gsgpu_cs_chunk) (i : Nat) (s s' : init_state),
      (∃ u ∈ us, undersized_checked c u) → parser_init_loop c env us i s ≠ .done s' := by
  intro us
  induction us with
  | nil => intro i s s' h; simp at h
  | cons u us ih =>
    intro i s s' hex h
    unfold parser_init_loop at h
    cases hb : parser_init_chunk c env u i s with
    | fail r m s1 => rw [hb] at h; cases h
    | done s1 =>
      rw [hb] at h
      obtain ⟨v, hv, hvu⟩ := hex
      rcases List.mem_cons.mp hv with rfl | hv
      · exact parser_init_chunk_undersized c env v i s s1 hvu hb
      · exact ih _ _ _ ⟨v, hv, hvu⟩ h

/-- The return paths of `gsgpu_cs_parser_init` for a submission with at least one chunk. -/
theorem parser_init_cases (c : Consts) (env : InitEnv) (cs : drm_gsgpu_cs_in)
    (p : gsgpu_cs_parser_t) (hne : cs.chunks.length ≠ 0) :
    (gsgpu_cs_parser_init c env cs p = (-ENOMEM, p, [])) ∨
    (gsgpu_cs_parser_init c env cs p = (-EINVAL, { p with ctx := none }, [])) ∨
    (∃ ctx, gsgpu_cs_parser_init c env cs p = (-ECANCELED, { p with ctx := some ctx }, [])) ∨
    (∃ ctx, gsgpu_cs_parser_init c env cs p = (-EFAULT, { p with ctx := some ctx }, [])) ∨
    (∃ ctx, env.kmalloc_chunks = false ∧ gsgpu_cs_parser_init c env cs p =
      (-ENOMEM, { p with ctx := some ctx, nchunks := cs.chunks.length, chunks := none }, [])) ∨
    (∃ ctx, env.kmalloc_chunks = true ∧ gsgpu_cs_parser_init c env cs p =
      parser_init_after_loop env ctx (parser_init_loop c env cs.chunks 0
        ⟨{ p with ctx := some ctx, nchunks := cs.chunks.length }, [], 0, 0, []⟩)) := by
  unfold gsgpu_cs_parser_init
  rw [if_neg hne]
  by_cases h1 : (!env.kmalloc_chunk_array) = true
  · rw [if_pos h1]; exact Or.inl rfl
  rw [if_neg h1]
  cases hctx : env.gsgpu_ctx_get cs.ctx_id with
  | none => exact Or.inr (Or.inl rfl)
  | some ctx =>
    simp only []
    by_cases h2 : ctx.guilty = 1
    · rw [if_pos h2]; exact Or.inr (Or.inr (Or.inl ⟨ctx, rfl⟩))
    rw [if_neg h2]
    by_cases h3 : (!env.copy_chunk_array) = true
    · rw [if_pos h3]; exact Or.inr (Or.inr (Or.inr (Or.inl ⟨ctx, rfl⟩)))
    rw [if_neg h3]
    by_cases h4 : (!env.kmalloc_chunks) = true
    · rw [if_pos h4]
      refine Or.inr (Or.inr (Or.inr (Or.inr (Or.inl ⟨ctx, ?_, rfl⟩))))
      simpa using h4
    rw [if_neg h4]
    refine Or.inr (Or.inr (Or.inr (Or.inr (Or.inr ⟨ctx, ?_, rfl⟩))))
    simpa using h4

/-- C5 (as amended): `gsgpu_cs_parser_init` returns an error for every submission that
contains a FENCE chunk or a BO_HANDLES chunk whose declared length `4 * length_dw` is smaller
than the size of its structure. -/
theorem parser_init_rejects_undersized (c : Consts) (env : InitEnv) (cs : drm_gsgpu_cs_in)
    (p : gsgpu_cs_parser_t) (h : ∃ u ∈ cs.chunks, undersized_checked c u) :
    (gsgpu_cs_parser_init c env cs p).1 ≠ 0 := by
  have hne : cs.chunks.length ≠ 0 := by
    obtain ⟨u, hu, _⟩ := h
    intro h0
    rw [List.length_eq_zero] at h0
    rw [h0] at hu
    cases hu
  rcases parser_init_cases c env cs p hne with e | e | ⟨ctx, e⟩ | ⟨ctx, e⟩ | ⟨ctx, _, e⟩ |
    ⟨ctx, _, e⟩ <;> rw [e]
  · simp [ENOMEM]
  · simp [EINVAL]
  · simp [ECANCELED]
  · simp [EFAULT]
  · simp [ENOMEM]
  · cases hl : parser_init_loop c env cs.chunks 0
        ⟨{ p with ctx := some ctx, nchunks := cs.chunks.length }, [], 0, 0, []⟩ with
    | done s => exact absurd hl (parser_init_loop_undersized c env _ _ _ _ h)
    | fail ret n s => exact parser_init_loop_fail_ret c env _ _ _ _ _ _ hl

/-- C5, witness: a submission with a one-dword FENCE chunk is refused. -/
theorem parser_init_rejects_undersized_witness :
    (∃ u ∈ cs_short_fence.chunks, undersized_checked consts_la64 u) ∧
    (gsgpu_cs_parser_init consts_la64 env_all_ok cs_short_fence {}).1 ≠ 0 :=
  ⟨⟨⟨GSGPU_CHUNK_ID_FENCE, 1, [7]⟩, by simp [cs_short_fence],
      Or.inl ⟨rfl, by decide⟩⟩,
    parser_init_rejects_undersized consts_la64 env_all_ok cs_short_fence {}
      ⟨⟨GSGPU_CHUNK_ID_FENCE, 1, [7]⟩, by simp [cs_short_fence], Or.inl ⟨rfl, by decide⟩⟩⟩

/-- C5, counterexample to the claim as stated: a submission holding a DEPENDENCIES chunk of
4 bytes, fewer than the 24 bytes of one dependency record, is accepted, and so is one holding a
SYNCOBJ_IN chunk or a SYNCOBJ_OUT chunk of 0 bytes, fewer than the 4 bytes of one sync-object
record. -/
theorem parser_init_accepts_short_dependencies :
    ((∃ u ∈ cs_short_dep.chunks, u.chunk_id = GSGPU_CHUNK_ID_DEPENDENCIES ∧
        u.length_dw * 4 < consts_la64.sizeof_chunk_dep) ∧
      (gsgpu_cs_parser_init consts_la64 env_all_ok cs_short_dep {}).1 = 0) ∧
    ((∃ u ∈ cs_short_syncobj_in.chunks, u.chunk_id = GSGPU_CHUNK_ID_SYNCOBJ_IN ∧
        u.length_dw * 4 < consts_la64.sizeof_chunk_sem) ∧
      (gsgpu_cs_parser_init consts_la64 env_all_ok cs_short_syncobj_in {}).1 = 0) ∧
    ((∃ u ∈ cs_short_syncobj_out.chunks, u.chunk_id = GSGPU_CHUNK_ID_SYNCOBJ_OUT ∧
        u.length_dw * 4 < consts_la64.sizeof_chunk_sem) ∧
      (gsgpu_cs_parser_init consts_la64 env_all_ok cs_short_syncobj_out {}).1 = 0) := by
  refine ⟨⟨⟨⟨GSGPU_CHUNK_ID_DEPENDENCIES, 1, [7]⟩, ?_, rfl, by decide⟩, by decide⟩,
    ⟨⟨⟨GSGPU_CHUNK_ID_SYNCOBJ_IN, 0, []⟩, ?_, rfl, by decide⟩, by decide⟩,
    ⟨⟨⟨GSGPU_CHUNK_ID_SYNCOBJ_OUT, 0, []⟩, ?_, rfl, by decide⟩, by decide⟩⟩
  · simp [cs_short_dep]
  · simp [cs_short_syncobj_in]
  · simp [cs_short_syncobj_out]

/-- C6, the failing input: for a submission without chunks `gsgpu_cs_parser_init` returns 0
and the zeroed parser still holds no job. -/
theorem parser_init_zero_chunks_no_job (c : Consts) (env : InitEnv)
    (ctx_id bo_list_handle : Nat) :
    (gsgpu_cs_parser_init c env ⟨ctx_id, [], bo_list_handle⟩ {}).1 = 0 ∧
    (gsgpu_cs_parser_init c env ⟨ctx_id, [], bo_list_handle⟩ {}).2.1.job = none := by
  simp [gsgpu_cs_parser_init]

/-- C4, the failing input: when the allocation of the `p->chunks` array fails,
`gsgpu_cs_parser_init` returns `-ENOMEM` with `nchunks` still equal to the chunk count and
`chunks` equal to `NULL`, and the chunk loop of `gsgpu_cs_parser_fini` then reads `chunks[0]`. -/
theorem parser_init_chunks_alloc_failure_keeps_nchunks :
    (gsgpu_cs_parser_init consts_la64 env_chunks_alloc_fails cs_one_ib {}).1 = -ENOMEM ∧
    (gsgpu_cs_parser_init consts_la64 env_chunks_alloc_fails cs_one_ib {}).2.1.nchunks = 1 ∧
    (gsgpu_cs_parser_init consts_la64 env_chunks_alloc_fails cs_one_ib {}).2.1.chunks = none ∧
    gsgpu_cs_parser_fini_chunks
      (gsgpu_cs_parser_init consts_la64 env_chunks_alloc_fails cs_one_ib {}).2.1 =
      [kdata_event.null_deref 0] := by
  decide

theorem user_fence_chunk_nchunks (c : Consts) (env : InitEnv) (p : gsgpu_cs_parser_t)
    (data : drm_gsgpu_cs_chunk_fence) (offset : Nat) :
    (gsgpu_cs_user_fence_chunk c env p data offset).2.1.nchunks = p.nchunks := by
  unfold gsgpu_cs_user_fence_chunk
  cases env.drm_gem_object_lookup data.handle with
  | none => rfl
  | some gobj => simp only []; split_ifs <;> rfl

theorem bo_handles_chunk_nchunks (env : InitEnv) (p : gsgpu_cs_parser_t) :
    (gsgpu_cs_bo_handles_chunk env p).2.nchunks = p.nchunks := by
  unfold gsgpu_cs_bo_handles_chunk
  split_ifs <;> rfl

theorem parser_init_chunk_done (c : Consts) (env : InitEnv) (u : drm_gsgpu_cs_chunk)
    (i : Nat) (s s' : init_state) (h : parser_init_chunk c env u i s = .done s') :
    s'.log = s.log ++ [kdata_event.kvmalloc i] ∧ s'.p.nchunks = s.p.nchunks ∧
    s'.num_ibs = s.num_ibs + num_ib_chunks [u] := by
  unfold parser_init_chunk at h
  cases hid : u.chunk_id <;> simp only [hid] at h <;> split_ifs at h <;> cases h <;>
    simp [num_ib_chunks, hid, user_fence_chunk_nchunks, bo_handles_chunk_nchunks]

theorem parser_init_chunk_fail_log (c : Consts) (env : InitEnv) (u : drm_gsgpu_cs_chunk)
    (i : Nat) (s s' : init_state) (ret : Int) (n : Nat)
    (h : parser_init_chunk c env u i s = .fail ret n s') :
    (n = i ∧ s'.log = s.log) ∨ (n = i + 1 ∧ s'.log = s.log ++ [kdata_event.kvmalloc i]) := by
  unfold parser_init_chunk at h
  cases hid : u.chunk_id <;> simp only [hid] at h <;> split_ifs at h <;> cases h <;> simp

theorem parser_init_loop_done (c : Consts) (env : InitEnv) :
    ∀ (us : List drm_gsgpu_cs_chunk) (i : Nat) (s s' : init_state),
      parser_init_loop c env us i s = .done s' →
      s'.log = s.log ++ (List.range' i us.length).map kdata_event.kvmalloc ∧
      s'.p.nchunks = s.p.nchunks ∧ s'.num_ibs = s.num_ibs + num_ib_chunks us := by
  intro us
  induction us with
  | nil =>
    intro i s s' h
    simp only [parser_init_loop, loop_exit.done.injEq] at h
    subst h
    simp [num_ib_chunks]
  | cons u us ih =>
    intro i s s' h
    unfold parser_init_loop at h
    cases hb : parser_init_chunk c env u i s with
    | fail r m s1 => rw [hb] at h; cases h
    | done s1 =>
      rw [hb] at h
      obtain ⟨h1, h2, h3⟩ := parser_init_chunk_done c env u i s s1 hb
      obtain ⟨g1, g2, g3⟩ := ih _ _ _ h
      refine ⟨?_, by rw [g2, h2], ?_⟩
      · rw [g1, h1, List.length_cons, List.range'_succ]
        simp
      · rw [g3, h3]
        simp only [num_ib_chunks, List.filter_cons, List.filter_nil]
        split_ifs <;> simp; omega

theorem parser_init_loop_fail_log (c : Consts) (env : InitEnv) :
    ∀ (us : List drm_gsgpu_cs_chunk) (i : Nat) (s s' : init_state) (ret : Int) (n : Nat),
      parser_init_loop c env us i s = .fail ret n s' →
      ∃ k, n = i + k ∧ s'.log = s.log ++ (List.range' i k).map kdata_event.kvmalloc := by
  intro us
  induction us with
  | nil => intro i s s' ret n h; simp [parser_init_loop] at h
  | cons u us ih =>
    intro i s s' ret n h
    unfold parser_init_loop at h
    cases hb : parser_init_chunk c env u i s with
    | fail r m s1 =>
      rw [hb] at h
      cases h
      rcases parser_init_chunk_fail_log c env u i s s' ret n hb with ⟨hn, hl⟩ | ⟨hn, hl⟩
      · exact ⟨0, by omega, by simp [hl]⟩
      · exact ⟨1, by omega, by simp [hl]⟩
    | done s1 =>
      rw [hb] at h
      obtain ⟨h1, _, _⟩ := parser_init_chunk_done c env u i s s1 hb
      obtain ⟨k, hk, hl⟩ := ih _ _ _ _ _ h
      refine ⟨k + 1, by omega, ?_⟩
      rw [hl, h1, List.range'_succ]
      simp

/-- Every failure return of `gsgpu_cs_parser_init` other than the failed allocation of the
`p->chunks` array leaves `nchunks = 0` and `chunks = NULL`, has released every payload buffer it
allocated exactly once, and leaves nothing for the chunk loop of `gsgpu_cs_parser_fini`. -/
theorem parser_init_failure_clean (c : Consts) (env : InitEnv) (cs : drm_gsgpu_cs_in)
    (hk : env.kmalloc_chunks = true)
    (hr : (gsgpu_cs_parser_init c env cs {}).1 ≠ 0) :
    (gsgpu_cs_parser_init c env cs {}).2.1.nchunks = 0 ∧
    (gsgpu_cs_parser_init c env cs {}).2.1.chunks = none ∧
    (∃ n, (gsgpu_cs_parser_init c env cs {}).2.2 = balanced_log n) ∧
    gsgpu_cs_parser_fini_chunks (gsgpu_cs_parser_init c env cs {}).2.1 = [] := by
  by_cases hne : cs.chunks.length = 0
  · simp [gsgpu_cs_parser_init, hne] at hr
  rcases parser_init_cases c env cs {} hne with e | e | ⟨ctx, e⟩ | ⟨ctx, e⟩ | ⟨ctx, hk', e⟩ |
    ⟨ctx, _, e⟩
  · rw [e]; exact ⟨rfl, rfl, ⟨0, rfl⟩, rfl⟩
  · rw [e]; exact ⟨rfl, rfl, ⟨0, rfl⟩, rfl⟩
  · rw [e]; exact ⟨rfl, rfl, ⟨0, rfl⟩, rfl⟩
  · rw [e]; exact ⟨rfl, rfl, ⟨0, rfl⟩, rfl⟩
  · rw [hk] at hk'; cases hk'
  · rw [e] at hr ⊢
    cases hl : parser_init_loop c env cs.chunks 0
        ⟨{ ({} : gsgpu_cs_parser_t) with ctx := some ctx, nchunks := cs.chunks.length },
          [], 0, 0, []⟩ with
    | fail ret n s =>
      obtain ⟨k, hk1, hk2⟩ := parser_init_loop_fail_log c env _ _ _ _ _ _ hl
      refine ⟨rfl, rfl, ⟨n, ?_⟩, rfl⟩
      simp only [parser_init_after_loop, balanced_log]
      rw [hk2]
      simp only [zero_add] at hk1
      subst hk1
      simp [List.range_eq_range']
    | done s =>
      obtain ⟨h1, h2, _⟩ := parser_init_loop_done c env _ _ _ _ hl
      rw [hl] at hr
      simp only [parser_init_after_loop] at hr ⊢
      simp only [] at h2
      split_ifs at hr ⊢ with g1 g2 g3
      · refine ⟨rfl, rfl, ⟨cs.chunks.length, ?_⟩, rfl⟩
        simp only [balanced_log, h1, h2]
        simp [List.range_eq_range']
      · refine ⟨rfl, rfl, ⟨cs.chunks.length, ?_⟩, rfl⟩
        simp only [balanced_log, h1, h2]
        simp [List.range_eq_range']
      · simp at hr
      · simp at hr

/-- For a submission with at least one chunk on which `gsgpu_cs_parser_init` returns 0, the
parser holds a job allocated with as many descriptors as the chunk array has IB chunks. -/
theorem parser_init_job_num_ibs (c : Consts) (env : InitEnv) (cs : drm_gsgpu_cs_in)
    (p : gsgpu_cs_parser_t) (hne : cs.chunks.length ≠ 0)
    (hr : (gsgpu_cs_parser_init c env cs p).1 = 0) :
    ∃ job, (gsgpu_cs_parser_init c env cs p).2.1.job = some job ∧
      job.num_ibs = num_ib_chunks cs.chunks ∧
      env.gsgpu_job_alloc (num_ib_chunks cs.chunks) = 0 := by
  rcases parser_init_cases c env cs p hne with e | e | ⟨ctx, e⟩ | ⟨ctx, e⟩ | ⟨ctx, _, e⟩ |
    ⟨ctx, _, e⟩ <;> rw [e] at hr ⊢
  · simp [ENOMEM] at hr
  · simp [EINVAL] at hr
  · simp [ECANCELED] at hr
  · simp [EFAULT] at hr
  · simp [ENOMEM] at hr
  · cases hl : parser_init_loop c env cs.chunks 0
        ⟨{ p with ctx := some ctx, nchunks := cs.chunks.length }, [], 0, 0, []⟩ with
    | fail ret n s =>
      rw [hl] at hr
      exact absurd hr (parser_init_loop_fail_ret c env _ _ _ _ _ _ hl)
    | done s =>
      obtain ⟨_, _, h3⟩ := parser_init_loop_done c env _ _ _ _ hl
      rw [hl] at hr
      simp only [zero_add] at h3
      simp only [parser_init_after_loop] at hr ⊢
      split_ifs at hr ⊢ with g1 g2 g3
      · exact absurd hr g1
      · simp [ECANCELED] at hr
      · exact ⟨_, rfl, h3, by rw [← h3]; simpa using g1⟩
      · exact ⟨_, rfl, h3, by rw [← h3]; simpa using g1⟩

/-! ### Resource validation -/

theorem bo_validate_retry_allowed {W : Type} (E : PlaceEnv W) (bo m : Nat)
    (p : gsgpu_cs_parser_t) (w : W) (calls : List place_call) :
    gsgpu_cs_bo_validate_retry E bo (E.bo bo).allowed_domains m p w calls =
      ⟨(E.ttm_bo_validate w bo (E.bo bo).allowed_domains m).1,
        bo_validate_account E bo p (E.ttm_bo_validate w bo (E.bo bo).allowed_domains m),
        (E.ttm_bo_validate w bo (E.bo bo).allowed_domains m).2.2,
        calls ++ [⟨bo, (E.bo bo).allowed_domains,
          (E.ttm_bo_validate w bo (E.bo bo).allowed_domains m).1⟩]⟩ := by
  rw [gsgpu_cs_bo_validate_retry]
  simp

theorem bo_validate_retry_once {W : Type} (E : PlaceEnv W) (bo d m : Nat)
    (p : gsgpu_cs_parser_t) (w : W) (calls : List place_call)
    (h : ¬((E.ttm_bo_validate w bo d m).1 = -ENOMEM ∧ d ≠ (E.bo bo).allowed_domains)) :
    gsgpu_cs_bo_validate_retry E bo d m p w calls =
      ⟨(E.ttm_bo_validate w bo d m).1,
        bo_validate_account E bo p (E.ttm_bo_validate w bo d m),
        (E.ttm_bo_validate w bo d m).2.2,
        calls ++ [⟨bo, d, (E.ttm_bo_validate w bo d m).1⟩]⟩ := by
  rw [gsgpu_cs_bo_validate_retry]
  rw [if_neg h]

theorem bo_validate_retry_twice {W : Type} (E : PlaceEnv W) (bo d m : Nat)
    (p : gsgpu_cs_parser_t) (w : W) (calls : List place_call)
    (h : (E.ttm_bo_validate w bo d m).1 = -ENOMEM ∧ d ≠ (E.bo bo).allowed_domains) :
    gsgpu_cs_bo_validate_retry E bo d m p w calls =
      gsgpu_cs_bo_validate_retry E bo (E.bo bo).allowed_domains
        (E.ttm_bo_validate w bo d m).2.1
        (bo_validate_account E bo p (E.ttm_bo_validate w bo d m))
        (E.ttm_bo_validate w bo d m).2.2
        (calls ++ [⟨bo, d, (E.ttm_bo_validate w bo d m).1⟩]) := by
  rw [gsgpu_cs_bo_validate_retry]
  rw [if_pos h]

theorem bo_validate_unpinned_once {W : Type} (E : PlaceEnv W) (p : gsgpu_cs_parser_t) (w : W)
    (bo : Nat) (hpin : (E.bo bo).pin_count = 0)
    (h : ¬((E.ttm_bo_validate w bo (bo_validate_domain E p bo) 0).1 = -ENOMEM ∧
      bo_validate_domain E p bo ≠ (E.bo bo).allowed_domains)) :
    gsgpu_cs_bo_validate E p w bo =
      ⟨(E.ttm_bo_validate w bo (bo_validate_domain E p bo) 0).1,
        bo_validate_account E bo p (E.ttm_bo_validate w bo (bo_validate_domain E p bo) 0),
        (E.ttm_bo_validate w bo (bo_validate_domain E p bo) 0).2.2,
        [⟨bo, bo_validate_domain E p bo,
          (E.ttm_bo_validate w bo (bo_validate_domain E p bo) 0).1⟩]⟩ := by
  unfold gsgpu_cs_bo_validate
  rw [if_neg (by simpa using hpin), bo_validate_retry_once E bo _ 0 p w [] h]
  rfl

theorem bo_validate_unpinned_twice {W : Type} (E : PlaceEnv W) (p : gsgpu_cs_parser_t) (w : W)
    (bo : Nat) (hpin : (E.bo bo).pin_count = 0)
    (h : (E.ttm_bo_validate w bo (bo_validate_domain E p bo) 0).1 = -ENOMEM ∧
      bo_validate_domain E p bo ≠ (E.bo bo).allowed_domains) :
    gsgpu_cs_bo_validate E p w bo =
      ⟨(E.ttm_bo_validate (E.ttm_bo_validate w bo (bo_validate_domain E p bo) 0).2.2 bo
          (E.bo bo).allowed_domains
          (E.ttm_bo_validate w bo (bo_validate_domain E p bo) 0).2.1).1,
        bo_validate_account E bo
          (bo_validate_account E bo p (E.ttm_bo_validate w bo (bo_validate_domain E p bo) 0))
          (E.ttm_bo_validate (E.ttm_bo_validate w bo (bo_validate_domain E p bo) 0).2.2 bo
            (E.bo bo).allowed_domains
            (E.ttm_bo_validate w bo (bo_validate_domain E p bo) 0).2.1),
        (E.ttm_bo_validate (E.ttm_bo_validate w bo (bo_validate_domain E p bo) 0).2.2 bo
          (E.bo bo).allowed_domains
          (E.ttm_bo_validate w bo (bo_validate_domain E p bo) 0).2.1).2.2,
        [⟨bo, bo_validate_domain E p bo,
          (E.ttm_bo_validate w bo (bo_validate_domain E p bo) 0).1⟩,
         ⟨bo, (E.bo bo).allowed_domains,
          (E.ttm_bo_validate (E.ttm_bo_validate w bo (bo_validate_domain E p bo) 0).2.2 bo
            (E.bo bo).allowed_domains
            (E.ttm_bo_validate w bo (bo_validate_domain E p bo) 0).2.1).1⟩]⟩ := by
  unfold gsgpu_cs_bo_validate
  rw [if_neg (by simpa using hpin), bo_validate_retry_twice E bo _ 0 p w [] h,
    bo_validate_retry_allowed]
  rfl

/-- C8: for an unpinned resource the first call of the placement primitive made by
`gsgpu_cs_bo_validate` is for that resource, with `preferred_domains` when
`bytes_moved < bytes_moved_threshold`, except that it is `allowed_domains` when in addition VRAM
is not fully CPU-visible, the resource carries `GSGPU_GEM_CREATE_CPU_ACCESS_REQUIRED` and
`bytes_moved_vis >= bytes_moved_vis_threshold`; and with `allowed_domains` whenever
`bytes_moved >= bytes_moved_threshold`, in particular when the threshold is zero. -/
theorem bo_validate_first_domain {W : Type} (E : PlaceEnv W) (p : gsgpu_cs_parser_t) (w : W)
    (bo : Nat) (hpin : (E.bo bo).pin_count = 0) :
    ∃ first rest, (gsgpu_cs_bo_validate E p w bo).calls = first :: rest ∧ first.bo = bo ∧
      (p.bytes_moved < p.bytes_moved_threshold →
        ¬(E.vram_full_visible = false ∧
          (E.bo bo).flags &&& E.GSGPU_GEM_CREATE_CPU_ACCESS_REQUIRED ≠ 0 ∧
          p.bytes_moved_vis_threshold ≤ p.bytes_moved_vis) →
        first.domain = (E.bo bo).preferred_domains) ∧
      (p.bytes_moved < p.bytes_moved_threshold →
        (E.vram_full_visible = false ∧
          (E.bo bo).flags &&& E.GSGPU_GEM_CREATE_CPU_ACCESS_REQUIRED ≠ 0 ∧
          p.bytes_moved_vis_threshold ≤ p.bytes_moved_vis) →
        first.domain = (E.bo bo).allowed_domains) ∧
      (p.bytes_moved_threshold ≤ p.bytes_moved → first.domain = (E.bo bo).allowed_domains) ∧
      (p.bytes_moved_threshold = 0 → first.domain = (E.bo bo).allowed_domains) := by
  have hdom :
      (p.bytes_moved < p.bytes_moved_threshold →
        ¬(E.vram_full_visible = false ∧
          (E.bo bo).flags &&& E.GSGPU_GEM_CREATE_CPU_ACCESS_REQUIRED ≠ 0 ∧
          p.bytes_moved_vis_threshold ≤ p.bytes_moved_vis) →
        bo_validate_domain E p bo = (E.bo bo).preferred_domains) ∧
      (p.bytes_moved < p.bytes_moved_threshold →
        (E.vram_full_visible = false ∧
          (E.bo bo).flags &&& E.GSGPU_GEM_CREATE_CPU_ACCESS_REQUIRED ≠ 0 ∧
          p.bytes_moved_vis_threshold ≤ p.bytes_moved_vis) →
        bo_validate_domain E p bo = (E.bo bo).allowed_domains) ∧
      (p.bytes_moved_threshold ≤ p.bytes_moved →
        bo_validate_domain E p bo = (E.bo bo).allowed_domains) := by
    unfold bo_validate_domain
    refine ⟨?_, ?_, ?_⟩
    · intro h1 h2
      rw [if_pos h1]
      split_ifs with h3 h4
      · rfl
      · exfalso
        apply h2
        simp only [Bool.and_eq_true, Bool.not_eq_true', bne_iff_ne, ne_eq] at h3
        exact ⟨h3.1, h3.2, Nat.le_of_not_lt h4⟩
      · rfl
    · intro h1 h2
      rw [if_pos h1]
      have h3 : (!E.vram_full_visible &&
          ((E.bo bo).flags &&& E.GSGPU_GEM_CREATE_CPU_ACCESS_REQUIRED != 0)) = true := by
        simp only [Bool.and_eq_true, Bool.not_eq_true', bne_iff_ne, ne_eq]
        exact ⟨h2.1, h2.2.1⟩
      rw [if_pos h3, if_neg (Nat.not_lt.mpr h2.2.2)]
    · intro h1
      rw [if_neg (Nat.not_lt.mpr h1)]
  have hcalls : ∃ rest, (gsgpu_cs_bo_validate E p w bo).calls =
      ⟨bo, bo_validate_domain E p bo,
        (E.ttm_bo_validate w bo (bo_validate_domain E p bo) 0).1⟩ :: rest := by
    by_cases h : (E.ttm_bo_validate w bo (bo_validate_domain E p bo) 0).1 = -ENOMEM ∧
        bo_validate_domain E p bo ≠ (E.bo bo).allowed_domains
    · rw [bo_validate_unpinned_twice E p w bo hpin h]
      exact ⟨_, rfl⟩
    · rw [bo_validate_unpinned_once E p w bo hpin h]
      exact ⟨_, rfl⟩
  obtain ⟨rest, hrest⟩ := hcalls
  refine ⟨_, rest, hrest, rfl, hdom.1, hdom.2.1, hdom.2.2, ?_⟩
  intro h0
  exact hdom.2.2 (by omega)

/-- C8, witness: resource 3 of `env_vram_full` is not pinned. -/
theorem bo_validate_first_domain_witness :
    (env_vram_full.bo 3).pin_count = 0 ∧
    ∃ first rest, (gsgpu_cs_bo_validate env_vram_full parser_three w_vram 3).calls =
        first :: rest ∧ first.bo = 3 ∧
      (parser_three.bytes_moved < parser_three.bytes_moved_threshold →
        ¬(env_vram_full.vram_full_visible = false ∧
          (env_vram_full.bo 3).flags &&& env_vram_full.GSGPU_GEM_CREATE_CPU_ACCESS_REQUIRED ≠ 0 ∧
          parser_three.bytes_moved_vis_threshold ≤ parser_three.bytes_moved_vis) →
        first.domain = (env_vram_full.bo 3).preferred_domains) ∧
      (parser_three.bytes_moved < parser_three.bytes_moved_threshold →
        (env_vram_full.vram_full_visible = false ∧
          (env_vram_full.bo 3).flags &&& env_vram_full.GSGPU_GEM_CREATE_CPU_ACCESS_REQUIRED ≠ 0 ∧
          parser_three.bytes_moved_vis_threshold ≤ parser_three.bytes_moved_vis) →
        first.domain = (env_vram_full.bo 3).allowed_domains) ∧
      (parser_three.bytes_moved_threshold ≤ parser_three.bytes_moved →
        first.domain = (env_vram_full.bo 3).allowed_domains) ∧
      (parser_three.bytes_moved_threshold = 0 →
        first.domain = (env_vram_full.bo 3).allowed_domains) :=
  ⟨by decide, bo_validate_first_domain env_vram_full parser_three w_vram 3 (by decide)⟩

/-- C9: `gsgpu_cs_bo_validate` makes no call of the placement primitive for a pinned resource
and returns 0 with the parser (so `bytes_moved`) and the placement state unchanged; for an
unpinned resource it makes one call or two, the second exactly when the first returned
`-ENOMEM` for a domain set other than `allowed_domains`, the second for `allowed_domains`, and
it returns what its last call returned. -/
theorem bo_validate_calls {W : Type} (E : PlaceEnv W) (p : gsgpu_cs_parser_t) (w : W)
    (bo : Nat) :
    ((E.bo bo).pin_count ≠ 0 →
      (gsgpu_cs_bo_validate E p w bo).calls = [] ∧ (gsgpu_cs_bo_validate E p w bo).r = 0 ∧
      (gsgpu_cs_bo_validate E p w bo).p = p ∧ (gsgpu_cs_bo_validate E p w bo).w = w) ∧
    ((E.bo bo).pin_count = 0 →
      ((gsgpu_cs_bo_validate E p w bo).calls.length = 1 ∨
        (gsgpu_cs_bo_validate E p w bo).calls.length = 2) ∧
      ((gsgpu_cs_bo_validate E p w bo).calls.length = 2 ↔
        ((E.ttm_bo_validate w bo (bo_validate_domain E p bo) 0).1 = -ENOMEM ∧
          bo_validate_domain E p bo ≠ (E.bo bo).allowed_domains)) ∧
      (gsgpu_cs_bo_validate E p w bo).calls.head? =
        some ⟨bo, bo_validate_domain E p bo,
          (E.ttm_bo_validate w bo (bo_validate_domain E p bo) 0).1⟩ ∧
      ((gsgpu_cs_bo_validate E p w bo).calls.length = 2 →
        (gsgpu_cs_bo_validate E p w bo).calls.get? 1 =
          some ⟨bo, (E.bo bo).allowed_domains,
            (E.ttm_bo_validate (E.ttm_bo_validate w bo (bo_validate_domain E p bo) 0).2.2 bo
              (E.bo bo).allowed_domains
              (E.ttm_bo_validate w bo (bo_validate_domain E p bo) 0).2.1).1⟩) ∧
      (gsgpu_cs_bo_validate E p w bo).calls.getLast?.map place_call.r =
        some (gsgpu_cs_bo_validate E p w bo).r) := by
  refine ⟨?_, ?_⟩
  · intro hpin
    unfold gsgpu_cs_bo_validate
    rw [if_pos hpin]
    exact ⟨rfl, rfl, rfl, rfl⟩
  · intro hpin
    by_cases h : (E.ttm_bo_validate w bo (bo_validate_domain E p bo) 0).1 = -ENOMEM ∧
        bo_validate_domain E p bo ≠ (E.bo bo).allowed_domains
    · rw [bo_validate_unpinned_twice E p w bo hpin h]
      simp [h]
    · rw [bo_validate_unpinned_once E p w bo hpin h]
      simp [h]

/-- What one scan of `gsgpu_cs_try_evict` does, for a cursor on the entry of index `n - 1`. -/
theorem try_evict_scan_spec {W : Type} (E : PlaceEnv W) (validated : Nat)
    (p : gsgpu_cs_parser_t) (w : W) :
    ∀ n : Nat,
      ((try_evict_scan E validated (E.bo validated).allowed_domains p w n).1 = true →
        ∃ j candidate, j < n ∧ p.validated.get? j = some candidate ∧
          evict_candidate E w validated candidate ∧
          (∀ k e, j < k → k < n → p.validated.get? k = some e →
            ¬ evict_candidate E w validated e ∧ e ≠ validated) ∧
          (E.ttm_bo_validate w candidate
            (and_not32 (E.bo candidate).allowed_domains (E.bo validated).allowed_domains) 0).1
            = 0 ∧
          (try_evict_scan E validated (E.bo validated).allowed_domains p w n).2.calls =
            [⟨candidate,
              and_not32 (E.bo candidate).allowed_domains (E.bo validated).allowed_domains,
              0⟩] ∧
          (try_evict_scan E validated (E.bo validated).allowed_domains p w n).2.p.validated =
            candidate :: p.validated.eraseIdx j) ∧
      ((∀ k e, k < n → p.validated.get? k = some e → ¬ evict_candidate E w validated e) →
        (try_evict_scan E validated (E.bo validated).allowed_domains p w n).1 = false ∧
        (try_evict_scan E validated (E.bo validated).allowed_domains p w n).2.calls = [] ∧
        (try_evict_scan E validated (E.bo validated).allowed_domains p w n).2.w = w) := by
  intro n
  induction n with
  | zero =>
    refine ⟨?_, ?_⟩
    · intro h; simp [try_evict_scan] at h
    · intro _; simp [try_evict_scan]
  | succ n ih =>
    obtain ⟨ih1, ih2⟩ := ih
    -- an entry that is skipped hands the scan over to the entries before it
    have skip : ∀ e, p.validated.get? n = some e → ¬ evict_candidate E w validated e →
        e ≠ validated →
        try_evict_scan E validated (E.bo validated).allowed_domains p w (n + 1) =
          try_evict_scan E validated (E.bo validated).allowed_domains p w n →
        ((try_evict_scan E validated (E.bo validated).allowed_domains p w (n + 1)).1 = true →
          ∃ j candidate, j < n + 1 ∧ p.validated.get? j = some candidate ∧
            evict_candidate E w validated candidate ∧
            (∀ k e, j < k → k < n + 1 → p.validated.get? k = some e →
              ¬ evict_candidate E w validated e ∧ e ≠ validated) ∧
            (E.ttm_bo_validate w candidate
              (and_not32 (E.bo candidate).allowed_domains (E.bo validated).allowed_domains)
              0).1 = 0 ∧
            (try_evict_scan E validated (E.bo validated).allowed_domains p w (n + 1)).2.calls =
              [⟨candidate,
                and_not32 (E.bo candidate).allowed_domains (E.bo validated).allowed_domains,
                0⟩] ∧
            (try_evict_scan E validated (E.bo validated).allowed_domains p w
              (n + 1)).2.p.validated = candidate :: p.validated.eraseIdx j) ∧
        ((∀ k e, k < n + 1 → p.validated.get? k = some e →
            ¬ evict_candidate E w validated e) →
          (try_evict_scan E validated (E.bo validated).allowed_domains p w (n + 1)).1 = false ∧
          (try_evict_scan E validated (E.bo validated).allowed_domains p w (n + 1)).2.calls
            = [] ∧
          (try_evict_scan E validated (E.bo validated).allowed_domains p w (n + 1)).2.w = w) := by
      intro e he hnc hne heq
      rw [heq]
      refine ⟨?_, ?_⟩
      · intro ht
        obtain ⟨j, cand, hj, hget, hc, hfirst, hr, hcalls, hval⟩ := ih1 ht
        refine ⟨j, cand, by omega, hget, hc, ?_, hr, hcalls, hval⟩
        intro k e' hjk hk hk'
        by_cases hkn : k = n
        · subst hkn
          rw [he] at hk'
          cases hk'
          exact ⟨hnc, hne⟩
        · exact hfirst k e' hjk (by omega) hk'
      · intro hall
        exact ih2 (fun k e' hk hk' => hall k e' (by omega) hk')
    cases hget : p.validated.get? n with
    | none =>
      have heq : try_evict_scan E validated (E.bo validated).allowed_domains p w (n + 1) =
          try_evict_scan E validated (E.bo validated).allowed_domains p w n := by
        rw [try_evict_scan]
        simp only [hget]
      rw [heq]
      refine ⟨?_, ?_⟩
      · intro ht
        obtain ⟨j, cand, hj, hgetj, hc, hfirst, hr, hcalls, hval⟩ := ih1 ht
        refine ⟨j, cand, by omega, hgetj, hc, ?_, hr, hcalls, hval⟩
        intro k e' hjk hk hk'
        by_cases hkn : k = n
        · subst hkn
          rw [hget] at hk'
          cases hk'
        · exact hfirst k e' hjk (by omega) hk'
      · intro hall
        exact ih2 (fun k e' hk hk' => hall k e' (by omega) hk')
    | some cand =>
      by_cases h1 : cand = validated
      · have heq : try_evict_scan E validated (E.bo validated).allowed_domains p w (n + 1) =
            (false, ⟨0, { p with evictable := some (n + 1) }, w, []⟩) := by
          rw [try_evict_scan]
          simp only [hget, if_pos h1]
        rw [heq]
        refine ⟨?_, ?_⟩
        · intro ht; cases ht
        · intro _; exact ⟨rfl, rfl, rfl⟩
      by_cases h2 : (E.bo cand).pin_count ≠ 0
      · refine skip cand hget (fun hc => h2 hc.2.1) h1 ?_
        rw [try_evict_scan]
        simp only [hget, if_neg h1, if_pos h2]
      by_cases h3 : E.mem_type_domain w cand &&& (E.bo validated).allowed_domains = 0
      · refine skip cand hget (fun hc => hc.2.2.1 h3) h1 ?_
        rw [try_evict_scan]
        simp only [hget, if_neg h1, if_neg h2, if_pos h3]
      by_cases h4 : and_not32 (E.bo cand).allowed_domains (E.bo validated).allowed_domains = 0
      · refine skip cand hget (fun hc => hc.2.2.2 h4) h1 ?_
        rw [try_evict_scan]
        simp only [hget, if_neg h1, if_neg h2, if_neg h3, if_pos h4]
      have hcand : evict_candidate E w validated cand :=
        ⟨h1, by simpa using h2, h3, h4⟩
      by_cases h5 : (E.ttm_bo_validate w cand
          (and_not32 (E.bo cand).allowed_domains (E.bo validated).allowed_domains) 0).1 ≠ 0
      · have heq : (try_evict_scan E validated (E.bo validated).allowed_domains p w (n + 1)).1
            = false := by
          rw [try_evict_scan]
          simp only [hget, if_neg h1, if_neg h2, if_neg h3, if_neg h4, if_pos h5]
        refine ⟨?_, ?_⟩
        · intro ht; rw [heq] at ht; cases ht
        · intro hall
          exact absurd hcand (hall n cand (by omega) hget)
      · have h5' : (E.ttm_bo_validate w cand
            (and_not32 (E.bo cand).allowed_domains (E.bo validated).allowed_domains) 0).1 = 0 := by
          simpa using h5
        refine ⟨?_, ?_⟩
        · intro _
          refine ⟨n, cand, by omega, hget, hcand, ?_, h5', ?_, ?_⟩
          · intro k e hk1 hk2 _
            omega
          · rw [try_evict_scan]
            simp only [hget, if_neg h1, if_neg h2, if_neg h3, if_neg h4, if_neg h5]
            rw [h5']
          · rw [try_evict_scan]
            simp only [hget, if_neg h1, if_neg h2, if_neg h3, if_neg h4, if_neg h5]
        · intro hall
          exact absurd hcand (hall n cand (by omega) hget)

/-- C10: `gsgpu_cs_try_evict` returns true only after exactly one call of the placement
primitive, a successful one, for the first entry in scan order (from the cursor towards the
list head) that is not the resource being validated, is not pinned, resides in a domain meeting
the `allowed_domains` of the validated resource and has an allowed domain outside that set; the
entry is relocated to `allowed_domains & ~domain` and moved to the front of the list.  With the
cursor unset, or with no such entry between the cursor and the list head, it returns false
without calling the placement primitive. -/
theorem try_evict_contract {W : Type} (E : PlaceEnv W) (p : gsgpu_cs_parser_t) (w : W)
    (validated : Nat) :
    ((gsgpu_cs_try_evict E p w validated).1 = true →
      ∃ n j candidate, p.evictable = some n ∧ j < n ∧ p.validated.get? j = some candidate ∧
        evict_candidate E w validated candidate ∧
        (∀ k e, j < k → k < n → p.validated.get? k = some e →
          ¬ evict_candidate E w validated e ∧ e ≠ validated) ∧
        (E.ttm_bo_validate w candidate
          (and_not32 (E.bo candidate).allowed_domains (E.bo validated).allowed_domains) 0).1
          = 0 ∧
        (gsgpu_cs_try_evict E p w validated).2.calls =
          [⟨candidate,
            and_not32 (E.bo candidate).allowed_domains (E.bo validated).allowed_domains, 0⟩] ∧
        (gsgpu_cs_try_evict E p w validated).2.p.validated =
          candidate :: p.validated.eraseIdx j) ∧
    (p.evictable = none →
      (gsgpu_cs_try_evict E p w validated).1 = false ∧
      (gsgpu_cs_try_evict E p w validated).2.calls = [] ∧
      (gsgpu_cs_try_evict E p w validated).2.w = w) ∧
    (∀ n, p.evictable = some n →
      (∀ k e, k < n → p.validated.get? k = some e → ¬ evict_candidate E w validated e) →
      (gsgpu_cs_try_evict E p w validated).1 = false ∧
      (gsgpu_cs_try_evict E p w validated).2.calls = [] ∧
      (gsgpu_cs_try_evict E p w validated).2.w = w) := by
  refine ⟨?_, ?_, ?_⟩
  · intro h
    cases hev : p.evictable with
    | none => simp [gsgpu_cs_try_evict, hev] at h
    | some n =>
      have e : gsgpu_cs_try_evict E p w validated =
          try_evict_scan E validated (E.bo validated).allowed_domains p w n := by
        simp [gsgpu_cs_try_evict, hev]
      rw [e] at h ⊢
      obtain ⟨j, cand, h1, h2, h3, h4, h5, h6, h7⟩ :=
        (try_evict_scan_spec E validated p w n).1 h
      exact ⟨n, j, cand, rfl, h1, h2, h3, h4, h5, h6, h7⟩
  · intro hev
    simp [gsgpu_cs_try_evict, hev]
  · intro n hev hall
    have e : gsgpu_cs_try_evict E p w validated =
        try_evict_scan E validated (E.bo validated).allowed_domains p w n := by
      simp [gsgpu_cs_try_evict, hev]
    rw [e]
    exact (try_evict_scan_spec E validated p w n).2 hall

/-- An eviction that succeeds: with the list `[0, 1, 2]`, the cursor on the last entry and
resource 0 under validation, resource 2 is relocated to GTT and moved to the front. -/
theorem try_evict_example :
    (gsgpu_cs_try_evict env_vram_full parser_three w_vram 0).1 = true ∧
    (gsgpu_cs_try_evict env_vram_full parser_three w_vram 0).2.calls = [⟨2, 2, 0⟩] ∧
    (gsgpu_cs_try_evict env_vram_full parser_three w_vram 0).2.p.validated = [2, 0, 1] ∧
    (gsgpu_cs_try_evict env_vram_full parser_three w_vram 0).2.p.evictable = some 3 := by
  decide

/-! ### Commit -/

/-- The result of `gsgpu_cs_submit` once the scheduler job is initialised. -/
theorem submit_cases (env : CsEnv) (p : gsgpu_cs_parser_t) (res : submit_result)
    (h : gsgpu_cs_submit env p = some res) :
    (∃ job, p.job = some job ∧ env.drm_sched_job_init.1 ≠ 0 ∧
      res = ⟨env.drm_sched_job_init.1, { p with job := none }, none,
        [.gsgpu_job_free job]⟩) ∨
    (∃ job bo_list ctx, p.job = some job ∧ p.bo_list = some bo_list ∧ p.ctx = some ctx ∧
      env.drm_sched_job_init.1 = 0 ∧
      res = submit_locked env { p with job := none }
        { job with finished := some env.drm_sched_job_init.2 }
        env.drm_sched_job_init.2 bo_list ctx) := by
  unfold gsgpu_cs_submit at h
  cases hr : p.ring with
  | none => simp [hr] at h
  | some ring =>
    cases hj : p.job with
    | none => simp [hr, hj] at h
    | some job =>
      simp only [hr, hj] at h
      by_cases h1 : env.drm_sched_job_init.1 ≠ 0
      · rw [if_pos h1] at h
        cases h
        exact Or.inl ⟨job, rfl, h1, rfl⟩
      · rw [if_neg h1] at h
        cases hb : p.bo_list with
        | none => simp [hb] at h
        | some bo_list =>
          cases hc : p.ctx with
          | none => simp [hb, hc] at h
          | some ctx =>
            simp only [hb, hc, Option.some.injEq] at h
            exact Or.inr ⟨job, bo_list, ctx, rfl, rfl, rfl, by simpa using h1, h.symm⟩

theorem userptr_checks_all_done (env : CsEnv) (userptr : List Nat)
    (h : userptr.any (fun e => !env.gsgpu_ttm_tt_get_user_pages_done e) = false) :
    ∀ e ∈ submit_userptr_checks env userptr,
      ∃ b, e = cs_event.gsgpu_ttm_tt_get_user_pages_done b true := by
  intro e he
  simp only [submit_userptr_checks, List.mem_map] at he
  obtain ⟨b, hb, rfl⟩ := he
  refine ⟨b, ?_⟩
  have := (List.any_eq_false.mp h) b hb
  simp only [Bool.not_eq_true', Bool.not_eq_false] at this
  rw [this]

/-- C2: whenever `gsgpu_cs_submit` returns 0, the `finished` fence of the scheduler job is
the fence passed to `gsgpu_ctx_add_fence`, the fence installed in each of the first
`num_post_dep_syncobjs` post-dependency sync objects, and the fence passed with the validated
list to `ttm_eu_fence_buffer_objects`; `cs->out.handle` and the `uf_sequence` of the pushed job
are the sequence number that `gsgpu_ctx_add_fence` returned. -/
theorem submit_publishes_one_fence (env : CsEnv) (p : gsgpu_cs_parser_t) (res : submit_result)
    (h : gsgpu_cs_submit env p = some res) (hr : res.r = 0) :
    env.drm_sched_job_init.1 = 0 ∧ env.gsgpu_ctx_add_fence.1 = 0 ∧
    res.p.fence = some env.drm_sched_job_init.2 ∧
    res.out_handle = some env.gsgpu_ctx_add_fence.2 ∧
    ∃ checks job,
      (∀ e ∈ checks, ∃ b, e = cs_event.gsgpu_ttm_tt_get_user_pages_done b true) ∧
      job.finished = some env.drm_sched_job_init.2 ∧
      job.uf_sequence = env.gsgpu_ctx_add_fence.2 ∧
      res.events = checks ++
        [.gsgpu_ctx_add_fence env.drm_sched_job_init.2 0 env.gsgpu_ctx_add_fence.2] ++
        (p.post_dep_syncobjs.take p.num_post_dep_syncobjs).map
          (fun s => cs_event.drm_syncobj_replace_fence s env.drm_sched_job_init.2) ++
        [.drm_sched_entity_push_job job,
         .ttm_eu_fence_buffer_objects p.validated env.drm_sched_job_init.2] := by
  rcases submit_cases env p res h with ⟨job, _, h1, e⟩ | ⟨job, bo_list, ctx, _, _, _, h1, e⟩
  · rw [e] at hr
    exact absurd hr h1
  · rw [e] at hr ⊢
    unfold submit_locked at hr ⊢
    by_cases h2 : (env.userptr_entries bo_list).any
        (fun e => !env.gsgpu_ttm_tt_get_user_pages_done e) = true
    · rw [if_pos h2] at hr
      simp [EAGAIN] at hr
    · rw [if_neg h2] at hr ⊢
      by_cases h3 : env.gsgpu_ctx_add_fence.1 ≠ 0
      · rw [if_pos h3] at hr
        exact absurd hr h3
      · rw [if_neg h3]
        refine ⟨h1, by simpa using h3, rfl, rfl, _, _,
          userptr_checks_all_done env _ (by simpa using h2), ?_, ?_, rfl⟩
        · simp only []
          split_ifs <;> rfl
        · rfl

/-- C2, witness: the submission of `parser_ready` under `cs_env_ok` returns 0. -/
theorem submit_publishes_one_fence_witness :
    ∃ res, gsgpu_cs_submit cs_env_ok parser_ready = some res ∧ res.r = 0 ∧
      (cs_env_ok.drm_sched_job_init.1 = 0 ∧ cs_env_ok.gsgpu_ctx_add_fence.1 = 0 ∧
      res.p.fence = some cs_env_ok.drm_sched_job_init.2 ∧
      res.out_handle = some cs_env_ok.gsgpu_ctx_add_fence.2 ∧
      ∃ checks job,
        (∀ e ∈ checks, ∃ b, e = cs_event.gsgpu_ttm_tt_get_user_pages_done b true) ∧
        job.finished = some cs_env_ok.drm_sched_job_init.2 ∧
        job.uf_sequence = cs_env_ok.gsgpu_ctx_add_fence.2 ∧
        res.events = checks ++
          [.gsgpu_ctx_add_fence cs_env_ok.drm_sched_job_init.2 0
            cs_env_ok.gsgpu_ctx_add_fence.2] ++
          (parser_ready.post_dep_syncobjs.take parser_ready.num_post_dep_syncobjs).map
            (fun s => cs_event.drm_syncobj_replace_fence s cs_env_ok.drm_sched_job_init.2) ++
          [.drm_sched_entity_push_job job,
           .ttm_eu_fence_buffer_objects parser_ready.validated
            cs_env_ok.drm_sched_job_init.2]) :=
  ⟨(gsgpu_cs_submit cs_env_ok parser_ready).get (by decide), by simp, by decide,
    submit_publishes_one_fence cs_env_ok parser_ready _ (by simp) (by decide)⟩

/-- C3: when the scheduler job is set up, so that the page checks are reached, and
`gsgpu_ttm_tt_get_user_pages_done` answers for some user-backed entry of the resource list,
wherever it stands in the list, that its pages were invalidated, `gsgpu_cs_submit` returns
`-EAGAIN`, leaves `cs->out.handle` unwritten and `p->fence` as it was, and its calls are the page
check of every user-backed entry of the list followed by `gsgpu_job_free` alone: no
`gsgpu_ctx_add_fence`, no `drm_syncobj_replace_fence`, no `drm_sched_entity_push_job` and no
`ttm_eu_fence_buffer_objects`.  The same holds of every run whose calls contain a page check
that reported an invalidation. -/
theorem submit_invalidated_userptr (env : CsEnv) (p : gsgpu_cs_parser_t) (res : submit_result)
    (h : gsgpu_cs_submit env p = some res) :
    (∀ bo_list b, p.bo_list = some bo_list → env.drm_sched_job_init.1 = 0 →
      b ∈ env.userptr_entries bo_list → env.gsgpu_ttm_tt_get_user_pages_done b = false →
      res.r = -EAGAIN ∧ res.out_handle = none ∧ res.p.fence = p.fence ∧
      cs_event.gsgpu_ttm_tt_get_user_pages_done b false ∈ res.events ∧
      ∃ job, res.events =
        (env.userptr_entries bo_list).map
          (fun e => cs_event.gsgpu_ttm_tt_get_user_pages_done e
            (env.gsgpu_ttm_tt_get_user_pages_done e)) ++
        [.gsgpu_job_free job]) ∧
    ((∃ b, cs_event.gsgpu_ttm_tt_get_user_pages_done b false ∈ res.events) →
      res.r = -EAGAIN ∧ res.out_handle = none ∧ res.p.fence = p.fence ∧
      (∀ e ∈ res.events,
        (∃ b d, e = cs_event.gsgpu_ttm_tt_get_user_pages_done b d) ∨
        (∃ job, e = cs_event.gsgpu_job_free job))) := by
  refine ⟨?_, ?_⟩
  · intro bo_list b hl hinit hmem hinv
    rcases submit_cases env p res h with ⟨job, _, h1, _⟩ | ⟨job, bl, ctx, _, hbl, _, _, e⟩
    · exact absurd hinit h1
    · rw [hl] at hbl
      cases hbl
      have hany : (env.userptr_entries bo_list).any
          (fun e => !env.gsgpu_ttm_tt_get_user_pages_done e) = true := by
        rw [List.any_eq_true]
        exact ⟨b, hmem, by simp [hinv]⟩
      rw [e]
      unfold submit_locked
      simp only []
      rw [if_pos hany]
      refine ⟨rfl, rfl, rfl, ?_, ⟨_, rfl⟩⟩
      simp only [submit_userptr_checks, List.mem_append, List.mem_map, List.mem_singleton]
      exact Or.inl ⟨b, hmem, by rw [hinv]⟩
  · rintro ⟨b, hb⟩
    rcases submit_cases env p res h with ⟨job, _, h1, e⟩ | ⟨job, bo_list, ctx, _, _, _, h1, e⟩
    · rw [e] at hb
      simp at hb
    · rw [e] at hb ⊢
      unfold submit_locked at hb ⊢
      by_cases h2 : (env.userptr_entries bo_list).any
          (fun e => !env.gsgpu_ttm_tt_get_user_pages_done e) = true
      · rw [if_pos h2]
        refine ⟨rfl, rfl, rfl, ?_⟩
        intro e he
        simp only [List.mem_append, List.mem_singleton] at he
        rcases he with he | he
        · simp only [submit_userptr_checks, List.mem_map] at he
          obtain ⟨x, _, rfl⟩ := he
          exact Or.inl ⟨_, _, rfl⟩
        · exact Or.inr ⟨_, he⟩
      · exfalso
        rw [if_neg h2] at hb
        have hall := userptr_checks_all_done env (env.userptr_entries bo_list)
          (by simpa using h2)
        by_cases h3 : env.gsgpu_ctx_add_fence.1 ≠ 0
        · rw [if_pos h3] at hb
          simp only [List.mem_append, List.mem_cons, List.mem_singleton, List.not_mem_nil,
            or_false] at hb
          rcases hb with hb | hb | hb
          · obtain ⟨x, hx⟩ := hall _ hb
            simp at hx
          · cases hb
          · cases hb
        · rw [if_neg h3] at hb
          simp only [gsgpu_cs_post_dependencies, List.mem_append, List.mem_cons,
            List.mem_singleton, List.mem_map, List.not_mem_nil, or_false] at hb
          rcases hb with ((hb | hb) | hb) | hb | hb
          · obtain ⟨x, hx⟩ := hall _ hb
            simp at hx
          · cases hb
          · obtain ⟨x, _, hx⟩ := hb
            cases hx
          · cases hb
          · cases hb

/-- C3, witness: under `cs_env_invalidated_later` the list has the user-backed entries 10 and
11; the pages of the first are in place and those of the second were invalidated, and both
checks are made before the function gives up with `-EAGAIN`. -/
theorem submit_invalidated_userptr_witness :
    ∃ res, gsgpu_cs_submit cs_env_invalidated_later parser_ready = some res ∧
      (parser_ready.bo_list = some 1 ∧ cs_env_invalidated_later.drm_sched_job_init.1 = 0 ∧
        11 ∈ cs_env_invalidated_later.userptr_entries 1 ∧
        cs_env_invalidated_later.gsgpu_ttm_tt_get_user_pages_done 11 = false) ∧
      (res.r = -EAGAIN ∧ res.out_handle = none ∧ res.p.fence = parser_ready.fence ∧
        cs_event.gsgpu_ttm_tt_get_user_pages_done 11 false ∈ res.events ∧
        ∃ job, res.events =
          (cs_env_invalidated_later.userptr_entries 1).map
            (fun e => cs_event.gsgpu_ttm_tt_get_user_pages_done e
              (cs_env_invalidated_later.gsgpu_ttm_tt_get_user_pages_done e)) ++
          [.gsgpu_job_free job]) :=
  ⟨(gsgpu_cs_submit cs_env_invalidated_later parser_ready).get (by decide), by simp,
    ⟨rfl, rfl, by decide, rfl⟩,
    (submit_invalidated_userptr cs_env_invalidated_later parser_ready _ (by simp)).1 1 11 rfl rfl
      (by decide) rfl⟩

/-- The run of the witness: the check of entry 10 reports its pages in place, the check of entry
11 reports the invalidation, and the job is freed. -/
theorem submit_invalidated_later_example :
    (gsgpu_cs_submit cs_env_invalidated_later parser_ready).map
      (fun res => (res.r, res.out_handle, res.events.take 2)) =
      some (-EAGAIN, none,
        [.gsgpu_ttm_tt_get_user_pages_done 10 true,
          .gsgpu_ttm_tt_get_user_pages_done 11 false]) := by
  decide

/-! ### The ioctl -/

theorem count_backoff_append (a b : List cs_event) :
    count_backoff (a ++ b) = count_backoff a + count_backoff b := by
  simp [count_backoff, List.countP_append]

theorem count_fence_append (a b : List cs_event) :
    count_fence_buffer_objects (a ++ b) =
      count_fence_buffer_objects a + count_fence_buffer_objects b := by
  simp [count_fence_buffer_objects, List.countP_append]

theorem reserve_succeeded_append (a b : List cs_event) :
    reserve_succeeded (a ++ b) ↔ reserve_succeeded a ∨ reserve_succeeded b := by
  simp [reserve_succeeded]

/-- The events of `gsgpu_cs_parser_fini`: one `ttm_eu_backoff_reservation` when called with an
error and `backoff` set, none otherwise, and no other reservation call. -/
theorem parser_fini_events (p : gsgpu_cs_parser_t) (error : Int) (backoff : Bool) :
    count_backoff (gsgpu_cs_parser_fini p error backoff) =
      (if error ≠ 0 ∧ backoff = true then 1 else 0) ∧
    count_fence_buffer_objects (gsgpu_cs_parser_fini p error backoff) = 0 ∧
    ¬ reserve_succeeded (gsgpu_cs_parser_fini p error backoff) := by
  have hput : ∀ l : List Nat,
      count_backoff (l.map cs_event.drm_syncobj_put) = 0 ∧
      count_fence_buffer_objects (l.map cs_event.drm_syncobj_put) = 0 ∧
      ¬ reserve_succeeded (l.map cs_event.drm_syncobj_put) := by
    intro l
    induction l with
    | nil => simp [count_backoff, count_fence_buffer_objects, reserve_succeeded]
    | cons x xs ih =>
      obtain ⟨i1, i2, i3⟩ := ih
      simp only [count_backoff, count_fence_buffer_objects, reserve_succeeded] at i1 i2 i3 ⊢
      simp [List.countP_cons, is_backoff, is_fence_buffer_objects, i1, i2]
  obtain ⟨g1, g2, g3⟩ := hput (p.post_dep_syncobjs.take p.num_post_dep_syncobjs)
  unfold gsgpu_cs_parser_fini
  simp only [count_backoff_append, count_fence_append, reserve_succeeded_append, g1, g2, g3]
  cases p.job <;> split_ifs <;>
    simp [count_backoff, count_fence_buffer_objects, reserve_succeeded, is_backoff,
      is_fence_buffer_objects]

theorem parser_frame_refl (p : gsgpu_cs_parser_t) : parser_frame p p :=
  ⟨rfl, rfl, rfl, rfl, fun h => h⟩

theorem parser_frame_trans {p q r : gsgpu_cs_parser_t} (h1 : parser_frame p q)
    (h2 : parser_frame q r) : parser_frame p r :=
  ⟨h2.1.trans h1.1, h2.2.1.trans h1.2.1, h2.2.2.1.trans h1.2.2.1,
    h2.2.2.2.1.trans h1.2.2.2.1, fun h => h2.2.2.2.2 (h1.2.2.2.2 h)⟩

theorem parser_bos_validate_frame (env : CsEnv) (p2 : gsgpu_cs_parser_t) :
    parser_frame p2 (parser_bos_validate env p2).2 ∧
    (parser_bos_validate env p2).2.bo_list = p2.bo_list ∧
    (parser_bos_validate env p2).2.job = p2.job := by
  unfold parser_bos_validate
  simp only []
  split_ifs <;> simp [parser_frame, validation_update]

theorem parser_bos_user_fence_spec (env : CsEnv) (p3 : gsgpu_cs_parser_t)
    (ev1 : List cs_event) :
    (p3.job.isSome = true → (parser_bos_user_fence env p3 ev1).isSome = true) ∧
    ∀ b, parser_bos_user_fence env p3 ev1 = some b →
      parser_frame p3 b.p ∧ b.p.bo_list = p3.bo_list ∧
      ((b.r = 0 ∧ b.events = ev1) ∨
       (b.r ≠ 0 ∧ b.events = ev1 ++ [.ttm_eu_backoff_reservation])) := by
  unfold parser_bos_user_fence
  cases hu : p3.uf_entry.robj with
  | none =>
    refine ⟨fun _ => rfl, ?_⟩
    intro b hb
    cases hb
    exact ⟨parser_frame_refl _, rfl, Or.inl ⟨rfl, rfl⟩⟩
  | some uf =>
    cases hj : p3.job with
    | none =>
      refine ⟨?_, ?_⟩
      · intro h
        cases h
      · intro b hb
        cases hb
    | some job =>
      simp only []
      refine ⟨?_, ?_⟩
      · intro _
        split_ifs <;> rfl
      intro b hb
      split_ifs at hb with h1
      · cases hb
        exact ⟨⟨rfl, rfl, rfl, rfl, fun _ => rfl⟩, rfl, Or.inr ⟨h1, rfl⟩⟩
      · cases hb
        exact ⟨⟨rfl, rfl, rfl, rfl, fun _ => rfl⟩, rfl, Or.inl ⟨rfl, rfl⟩⟩

/-- What `parser_bos_reserved` returns: it has a result when the parser holds a job, it leaves
the chunks, the ring, the context and the resource list alone, and it calls
`ttm_eu_backoff_reservation` once exactly when it returns an error. -/
theorem parser_bos_reserved_spec (env : CsEnv) (p1 : gsgpu_cs_parser_t) :
    (p1.job.isSome = true → (parser_bos_reserved env p1).isSome = true) ∧
    ∀ b, parser_bos_reserved env p1 = some b →
      parser_frame p1 b.p ∧ b.p.bo_list = p1.bo_list ∧
      reserve_succeeded b.events ∧ count_fence_buffer_objects b.events = 0 ∧
      count_backoff b.events = (if b.r ≠ 0 then 1 else 0) := by
  have hv := parser_bos_validate_frame env
    { p1 with
      bytes_moved_threshold := env.threshold_for_moves.1
      bytes_moved_vis_threshold := env.threshold_for_moves.2
      bytes_moved := 0
      bytes_moved_vis := 0
      evictable := some p1.validated.length }
  obtain ⟨hv1, hv2, hv3⟩ := hv
  have hp2 : parser_frame p1
      { p1 with
        bytes_moved_threshold := env.threshold_for_moves.1
        bytes_moved_vis_threshold := env.threshold_for_moves.2
        bytes_moved := 0
        bytes_moved_vis := 0
        evictable := some p1.validated.length } := ⟨rfl, rfl, rfl, rfl, fun h => h⟩
  unfold parser_bos_reserved
  simp only []
  refine ⟨?_, ?_⟩
  · intro hj
    split_ifs
    · rfl
    · refine (parser_bos_user_fence_spec env _ _).1 ?_
      rw [hv3]
      exact hj
  · intro b hb
    split_ifs at hb with h1
    · cases hb
      refine ⟨parser_frame_trans hp2 hv1, hv2, ?_, ?_, ?_⟩
      · simp [reserve_succeeded]
      · simp [count_fence_buffer_objects, List.countP_cons, is_fence_buffer_objects]
      · simp [count_backoff, List.countP_cons, is_backoff, h1]
    · obtain ⟨g1, g2, g3⟩ := (parser_bos_user_fence_spec env _ _).2 b hb
      refine ⟨parser_frame_trans hp2 (parser_frame_trans hv1 g1), g2.trans hv2, ?_⟩
      rcases g3 with ⟨hr, he⟩ | ⟨hr, he⟩
      · rw [he, hr]
        refine ⟨?_, ?_, ?_⟩
        · simp [reserve_succeeded]
        · simp [count_fence_buffer_objects, List.countP_cons, is_fence_buffer_objects]
        · simp [count_backoff, List.countP_cons, is_backoff]
      · rw [he]
        refine ⟨?_, ?_, ?_⟩
        · simp [reserve_succeeded]
        · simp [count_fence_buffer_objects, List.countP_cons, is_fence_buffer_objects]
        · simp [count_backoff, List.countP_cons, is_backoff, hr]

theorem parser_bos_list_error (env : CsEnv) (cs : drm_gsgpu_cs_in) (p : gsgpu_cs_parser_t)
    (r : Int) (h : parser_bos_list env cs p = .error r) : r ≠ 0 := by
  unfold parser_bos_list at h
  by_cases h1 : cs.bo_list_handle ≠ 0
  · rw [if_pos h1] at h
    by_cases h2 : p.bo_list.isSome = true
    · rw [if_pos h2] at h
      cases h
      simp [EINVAL]
    · rw [if_neg h2] at h
      by_cases h3 : env.gsgpu_bo_list_get.1 ≠ 0
      · rw [if_pos h3] at h
        cases h
        exact h3
      · rw [if_neg h3] at h
        cases h
  · rw [if_neg h1] at h
    cases hb : p.bo_list with
    | none =>
      simp only [hb] at h
      by_cases h3 : env.gsgpu_bo_list_create_empty.1 ≠ 0
      · rw [if_pos h3] at h
        cases h
        exact h3
      · rw [if_neg h3] at h
        cases h
    | some l =>
      simp only [hb] at h
      cases h

theorem parser_bos_spec (env : CsEnv) (cs : drm_gsgpu_cs_in) (p : gsgpu_cs_parser_t) :
    (p.job.isSome = true → (gsgpu_cs_parser_bos env cs p).isSome = true) ∧
    ∀ b, gsgpu_cs_parser_bos env cs p = some b →
      parser_frame p b.p ∧ (b.r = 0 → b.p.bo_list.isSome = true) ∧
      count_fence_buffer_objects b.events = 0 ∧
      (b.r = 0 → reserve_succeeded b.events ∧ count_backoff b.events = 0) ∧
      (b.r ≠ 0 → (reserve_succeeded b.events ∧ count_backoff b.events = 1) ∨
        (¬ reserve_succeeded b.events ∧ count_backoff b.events = 0)) := by
  unfold gsgpu_cs_parser_bos
  simp only []
  cases hl : parser_bos_list env cs { p with validated := [] } with
  | error r =>
    have hr : r ≠ 0 := parser_bos_list_error env cs _ r hl
    refine ⟨fun _ => rfl, ?_⟩
    intro b hb
    cases hb
    refine ⟨⟨rfl, rfl, rfl, rfl, fun h => h⟩, fun h => absurd h hr, rfl, fun h => absurd h hr,
      fun _ => Or.inr ⟨?_, rfl⟩⟩
    simp [reserve_succeeded]
  | ok bo_list =>
    simp only []
    by_cases h1 : parser_bos_userptr env (env.userptr_entries bo_list) ≠ 0
    · rw [if_pos h1]
      refine ⟨fun _ => rfl, ?_⟩
      intro b hb
      cases hb
      refine ⟨⟨rfl, rfl, rfl, rfl, fun h => h⟩, fun h => absurd h h1, rfl,
        fun h => absurd h h1, fun _ => Or.inr ⟨?_, rfl⟩⟩
      simp [reserve_succeeded]
    · rw [if_neg h1]
      by_cases h2 : env.ttm_eu_reserve_buffers ≠ 0
      · rw [if_pos h2]
        refine ⟨fun _ => rfl, ?_⟩
        intro b hb
        cases hb
        refine ⟨⟨rfl, rfl, rfl, rfl, fun h => h⟩, fun h => absurd h h2, rfl,
          fun h => absurd h h2, fun _ => Or.inr ⟨?_, rfl⟩⟩
        simp only [reserve_succeeded, List.mem_singleton, cs_event.ttm_eu_reserve_buffers.injEq]
        exact fun h => h2 h.symm
      · rw [if_neg h2]
        obtain ⟨g1, g2⟩ := parser_bos_reserved_spec env
          { ({ p with validated := [] } : gsgpu_cs_parser_t) with
            bo_list := some bo_list
            validated :=
              match ({ p with validated := [] } : gsgpu_cs_parser_t).uf_entry.robj with
              | some uf =>
                if !env.bo_parent uf then uf :: env.bo_list_get_list bo_list
                else env.bo_list_get_list bo_list
              | none => env.bo_list_get_list bo_list }
        refine ⟨fun hj => g1 hj, ?_⟩
        intro b hb
        obtain ⟨k1, k2, k3, k4, k5⟩ := g2 b hb
        refine ⟨⟨k1.1, k1.2.1, k1.2.2.1, k1.2.2.2.1, fun h => k1.2.2.2.2 h⟩, ?_, k4, ?_, ?_⟩
        · intro _
          rw [k2]
          rfl
        · intro hr
          rw [k5, if_neg (by simpa using hr)]
          exact ⟨k3, rfl⟩
        · intro hr
          rw [k5, if_pos hr]
          exact Or.inl ⟨k3, rfl⟩

theorem map_events_no_release {α : Type} (f : α → cs_event) (l : List α)
    (h : ∀ a, is_backoff (f a) = false ∧ is_fence_buffer_objects (f a) = false ∧
      f a ≠ cs_event.ttm_eu_reserve_buffers 0) :
    count_backoff (l.map f) = 0 ∧ count_fence_buffer_objects (l.map f) = 0 ∧
    ¬ reserve_succeeded (l.map f) := by
  induction l with
  | nil => simp [count_backoff, count_fence_buffer_objects, reserve_succeeded]
  | cons x xs ih =>
    obtain ⟨i1, i2, i3⟩ := ih
    obtain ⟨j1, j2, j3⟩ := h x
    simp only [count_backoff, count_fence_buffer_objects, reserve_succeeded] at i1 i2 i3 ⊢
    simp only [List.map_cons, List.countP_cons, j1, j2, i1, i2, List.mem_cons]
    refine ⟨by simp, by simp, ?_⟩
    rintro (h | h)
    · exact j3 h.symm
    · exact i3 h

theorem submit_locked_cases (env : CsEnv) (p0 : gsgpu_cs_parser_t) (job1 : gsgpu_job)
    (finished bo_list : Nat) (ctx : gsgpu_ctx) :
    (submit_locked env p0 job1 finished bo_list ctx =
      ⟨-EAGAIN, p0, none, submit_userptr_checks env (env.userptr_entries bo_list) ++
        [.gsgpu_job_free { job1 with finished := none }]⟩) ∨
    (env.gsgpu_ctx_add_fence.1 ≠ 0 ∧ submit_locked env p0 job1 finished bo_list ctx =
      ⟨env.gsgpu_ctx_add_fence.1, { p0 with fence := some finished }, none,
        submit_userptr_checks env (env.userptr_entries bo_list) ++
          [.gsgpu_ctx_add_fence finished env.gsgpu_ctx_add_fence.1 env.gsgpu_ctx_add_fence.2,
            .gsgpu_job_free { job1 with owner := true }]⟩) ∨
    (∃ job4 ctx1, submit_locked env p0 job1 finished bo_list ctx =
      ⟨0, { p0 with fence := some finished, ctx := some ctx1 }, some env.gsgpu_ctx_add_fence.2,
        submit_userptr_checks env (env.userptr_entries bo_list) ++
          [.gsgpu_ctx_add_fence finished 0 env.gsgpu_ctx_add_fence.2] ++
          gsgpu_cs_post_dependencies { p0 with fence := some finished } finished ++
          [.drm_sched_entity_push_job job4,
           .ttm_eu_fence_buffer_objects p0.validated finished]⟩) := by
  unfold submit_locked
  by_cases h1 : (env.userptr_entries bo_list).any
      (fun e => !env.gsgpu_ttm_tt_get_user_pages_done e) = true
  · rw [if_pos h1]
    exact Or.inl rfl
  · rw [if_neg h1]
    by_cases h2 : env.gsgpu_ctx_add_fence.1 ≠ 0
    · rw [if_pos h2]
      exact Or.inr (Or.inl ⟨h2, rfl⟩)
    · rw [if_neg h2]
      exact Or.inr (Or.inr ⟨_, _, rfl⟩)

theorem submit_locked_spec (env : CsEnv) (p0 : gsgpu_cs_parser_t) (job1 : gsgpu_job)
    (finished bo_list : Nat) (ctx : gsgpu_ctx) :
    (submit_locked env p0 job1 finished bo_list ctx).p.chunks = p0.chunks ∧
    (submit_locked env p0 job1 finished bo_list ctx).p.nchunks = p0.nchunks ∧
    (submit_locked env p0 job1 finished bo_list ctx).p.job = p0.job ∧
    ¬ reserve_succeeded (submit_locked env p0 job1 finished bo_list ctx).events ∧
    count_backoff (submit_locked env p0 job1 finished bo_list ctx).events = 0 ∧
    count_fence_buffer_objects (submit_locked env p0 job1 finished bo_list ctx).events =
      (if (submit_locked env p0 job1 finished bo_list ctx).r = 0 then 1 else 0) := by
  obtain ⟨c1, c2, c3⟩ := map_events_no_release
    (fun e => cs_event.gsgpu_ttm_tt_get_user_pages_done e
      (env.gsgpu_ttm_tt_get_user_pages_done e)) (env.userptr_entries bo_list)
    (fun a => ⟨rfl, rfl, by simp⟩)
  obtain ⟨d1, d2, d3⟩ := map_events_no_release
    (fun s => cs_event.drm_syncobj_replace_fence s finished)
    (p0.post_dep_syncobjs.take p0.num_post_dep_syncobjs)
    (fun a => ⟨rfl, rfl, by simp⟩)
  rcases submit_locked_cases env p0 job1 finished bo_list ctx with e | ⟨h2, e⟩ | ⟨job4, ctx1, e⟩
  · rw [e]
    simp only [submit_userptr_checks, count_backoff_append, count_fence_append,
      reserve_succeeded_append, c1, c2, c3]
    simp [count_backoff, count_fence_buffer_objects, reserve_succeeded, is_backoff,
      is_fence_buffer_objects, EAGAIN]
  · rw [e]
    simp only [submit_userptr_checks, count_backoff_append, count_fence_append,
      reserve_succeeded_append, c1, c2, c3]
    simp [count_backoff, count_fence_buffer_objects, reserve_succeeded, is_backoff,
      is_fence_buffer_objects, h2]
  · rw [e]
    simp only [submit_userptr_checks, gsgpu_cs_post_dependencies, count_backoff_append,
      count_fence_append, reserve_succeeded_append, c1, c2, c3, d1, d2, d3]
    simp [count_backoff, count_fence_buffer_objects, reserve_succeeded, is_backoff,
      is_fence_buffer_objects]

theorem submit_spec (env : CsEnv) (p : gsgpu_cs_parser_t) :
    (p.ring.isSome = true → p.job.isSome = true → p.bo_list.isSome = true →
      p.ctx.isSome = true → (gsgpu_cs_submit env p).isSome = true) ∧
    ∀ s, gsgpu_cs_submit env p = some s →
      s.p.chunks = p.chunks ∧ s.p.nchunks = p.nchunks ∧
      ¬ reserve_succeeded s.events ∧ count_backoff s.events = 0 ∧
      count_fence_buffer_objects s.events = (if s.r = 0 then 1 else 0) := by
  refine ⟨?_, ?_⟩
  · intro h1 h2 h3 h4
    unfold gsgpu_cs_submit
    obtain ⟨ring, hr⟩ := Option.isSome_iff_exists.mp h1
    obtain ⟨job, hj⟩ := Option.isSome_iff_exists.mp h2
    obtain ⟨bl, hb⟩ := Option.isSome_iff_exists.mp h3
    obtain ⟨ctx, hc⟩ := Option.isSome_iff_exists.mp h4
    simp only [hr, hj, hb, hc]
    by_cases h5 : env.drm_sched_job_init.1 ≠ 0
    · rw [if_pos h5]; rfl
    · rw [if_neg h5]; rfl
  · intro s hs
    rcases submit_cases env p s hs with ⟨job, _, h1, e⟩ | ⟨job, bo_list, ctx, _, _, _, h1, e⟩
    · rw [e]
      refine ⟨rfl, rfl, ?_, ?_, ?_⟩
      · simp [reserve_succeeded]
      · simp [count_backoff, is_backoff]
      · simp [count_fence_buffer_objects, is_fence_buffer_objects, h1]
    · rw [e]
      obtain ⟨k1, k2, _, k4, k5, k6⟩ := submit_locked_spec env { p with job := none }
        { job with finished := some env.drm_sched_job_init.2 } env.drm_sched_job_init.2
        bo_list ctx
      exact ⟨k1, k2, k4, k5, k6⟩

theorem ib_fill_loop_spec (env : CsEnv) (job : gsgpu_job) :
    ∀ (chunks : List gsgpu_cs_chunk) (i j : Nat) (p : gsgpu_cs_parser_t) (jb : gsgpu_job),
      (ib_fill_loop env job chunks i j p jb).2.1.chunks = p.chunks ∧
      (ib_fill_loop env job chunks i j p jb).2.1.nchunks = p.nchunks ∧
      (ib_fill_loop env job chunks i j p jb).2.1.ctx = p.ctx ∧
      ((ib_fill_loop env job chunks i j p jb).2.2.2 = false →
        (ib_fill_loop env job chunks i j p jb).1 ≠ 0) := by
  intro chunks
  induction chunks with
  | nil => intro i j p jb; simp [ib_fill_loop]
  | cons chunk rest ih =>
    intro i j p jb
    unfold ib_fill_loop
    by_cases h1 : ¬ j < job.num_ibs
    · rw [if_pos h1]; simp
    rw [if_neg h1]
    by_cases h2 : chunk.chunk_id ≠ GSGPU_CHUNK_ID_IB
    · rw [if_pos h2]; exact ih _ _ _ _
    rw [if_neg h2]
    by_cases h3 : (env.gsgpu_queue_mgr_map i).1 ≠ 0
    · rw [if_pos h3]; exact ⟨rfl, rfl, rfl, fun _ => h3⟩
    rw [if_neg h3]
    simp only []
    by_cases h4 : p.ring.isSome = true ∧ p.ring ≠ some (env.gsgpu_queue_mgr_map i).2
    · rw [if_pos h4]; exact ⟨rfl, rfl, rfl, fun _ => by simp [EINVAL]⟩
    rw [if_neg h4]
    by_cases h5 : env.gsgpu_ib_get i ≠ 0
    · rw [if_pos h5]; exact ⟨rfl, rfl, rfl, fun _ => h5⟩
    rw [if_neg h5]
    exact ih _ _ _ _

/-- A result of `gsgpu_cs_ib_fill` for a parser whose ring is not yet set: the chunk array, the
job and the context are there, and the ring is set when the function returns 0. -/
theorem ib_fill_spec (env : CsEnv) (p : gsgpu_cs_parser_t) (f : phase_result)
    (hring : p.ring = none) (h : gsgpu_cs_ib_fill env p = some f) :
    f.p.chunks.isSome = true ∧ f.p.job.isSome = true ∧ f.p.ctx.isSome = true ∧
    (f.r = 0 → f.p.ring.isSome = true) ∧ f.events = [] := by
  unfold gsgpu_cs_ib_fill at h
  by_cases h0 : p.nchunks = 0
  · rw [if_pos h0] at h
    simp [hring] at h
  rw [if_neg h0] at h
  cases hj : p.job with
  | none => simp [hj] at h
  | some job =>
    cases hc : p.chunks with
    | none => simp [hj, hc] at h
    | some chunks =>
      cases hx : p.ctx with
      | none => simp [hj, hc, hx] at h
      | some ctx =>
        simp only [hj, hc, hx] at h
        obtain ⟨k1, k2, k3, k4⟩ := ib_fill_loop_spec env job (chunks.take p.nchunks) 0 0 p job
        by_cases h1 : (!(ib_fill_loop env job (chunks.take p.nchunks) 0 0 p job).2.2.2) = true
        · rw [if_pos h1] at h
          cases h
          refine ⟨?_, rfl, ?_, ?_, rfl⟩
          · simp only [k1, hc]; rfl
          · simp only [k3, hx]; rfl
          · intro hr
            exact absurd hr (k4 (by simpa using h1))
        · rw [if_neg h1] at h
          cases hr : (ib_fill_loop env job (chunks.take p.nchunks) 0 0 p job).2.1.ring with
          | none => simp [hr] at h
          | some ring =>
            simp only [hr, Option.some.injEq] at h
            subst h
            refine ⟨?_, rfl, ?_, ?_, rfl⟩
            · simp only [k1, hc]; rfl
            · simp only [k3, hx]; rfl
            · intro _
              simp only [hr]; rfl

theorem user_fence_chunk_ring (c : Consts) (env : InitEnv) (p : gsgpu_cs_parser_t)
    (data : drm_gsgpu_cs_chunk_fence) (offset : Nat) :
    (gsgpu_cs_user_fence_chunk c env p data offset).2.1.ring = p.ring := by
  unfold gsgpu_cs_user_fence_chunk
  cases env.drm_gem_object_lookup data.handle with
  | none => rfl
  | some gobj => simp only []; split_ifs <;> rfl

theorem bo_handles_chunk_ring (env : InitEnv) (p : gsgpu_cs_parser_t) :
    (gsgpu_cs_bo_handles_chunk env p).2.ring = p.ring := by
  unfold gsgpu_cs_bo_handles_chunk
  split_ifs <;> rfl

theorem parser_init_chunk_ring (c : Consts) (env : InitEnv) (u : drm_gsgpu_cs_chunk)
    (i : Nat) (s s' : init_state) (h : parser_init_chunk c env u i s = .done s') :
    s'.p.ring = s.p.ring := by
  unfold parser_init_chunk at h
  cases hid : u.chunk_id <;> simp only [hid] at h <;> split_ifs at h <;> cases h <;>
    simp [user_fence_chunk_ring, bo_handles_chunk_ring]

theorem parser_init_loop_ring (c : Consts) (env : InitEnv) :
    ∀ (us : List drm_gsgpu_cs_chunk) (i : Nat) (s s' : init_state),
      parser_init_loop c env us i s = .done s' → s'.p.ring = s.p.ring := by
  intro us
  induction us with
  | nil =>
    intro i s s' h
    simp only [parser_init_loop, loop_exit.done.injEq] at h
    rw [h]
  | cons u us ih =>
    intro i s s' h
    unfold parser_init_loop at h
    cases hb : parser_init_chunk c env u i s with
    | fail r m s1 => rw [hb] at h; cases h
    | done s1 =>
      rw [hb] at h
      rw [ih _ _ _ h, parser_init_chunk_ring c env u i s s1 hb]

/-- A successful `gsgpu_cs_parser_init` does not set `p->ring`. -/
theorem parser_init_ring (c : Consts) (env : InitEnv) (cs : drm_gsgpu_cs_in)
    (p : gsgpu_cs_parser_t) (hr : (gsgpu_cs_parser_init c env cs p).1 = 0) :
    (gsgpu_cs_parser_init c env cs p).2.1.ring = p.ring := by
  by_cases hne : cs.chunks.length = 0
  · simp [gsgpu_cs_parser_init, hne]
  rcases parser_init_cases c env cs p hne with e | e | ⟨ctx, e⟩ | ⟨ctx, e⟩ | ⟨ctx, _, e⟩ |
    ⟨ctx, _, e⟩
  · rw [e] at hr; simp [ENOMEM] at hr
  · rw [e] at hr; simp [EINVAL] at hr
  · rw [e] at hr; simp [ECANCELED] at hr
  · rw [e] at hr; simp [EFAULT] at hr
  · rw [e] at hr; simp [ENOMEM] at hr
  · rw [e] at hr ⊢
    cases hl : parser_init_loop c env cs.chunks 0
        ⟨{ p with ctx := some ctx, nchunks := cs.chunks.length }, [], 0, 0, []⟩ with
    | fail ret n s =>
      rw [hl] at hr
      exact absurd hr (parser_init_loop_fail_ret c env _ _ _ _ _ _ hl)
    | done s =>
      have h3 := parser_init_loop_ring c env _ _ _ _ hl
      rw [hl] at hr
      simp only [parser_init_after_loop] at hr ⊢
      simp only [] at h3
      split_ifs at hr ⊢ with g1 g2 g3
      · exact absurd hr g1
      · simp [ECANCELED] at hr
      · exact h3
      · exact h3

theorem ioctl_out_some (parser : gsgpu_cs_parser_t) (r : Int) (reserved_buffers : Bool)
    (out_handle : Option Nat) (events : List cs_event) (res : ioctl_result)
    (h : ioctl_out parser r reserved_buffers out_handle events = some res) :
    res = ⟨r, out_handle, events ++ gsgpu_cs_parser_fini parser r reserved_buffers⟩ := by
  unfold ioctl_out at h
  split_ifs at h
  cases h
  rfl

theorem ioctl_out_isSome (parser : gsgpu_cs_parser_t) (r : Int) (reserved_buffers : Bool)
    (out_handle : Option Nat) (events : List cs_event) (h : parser.chunks.isSome = true) :
    ioctl_out parser r reserved_buffers out_handle events ≠ none := by
  unfold ioctl_out
  rw [if_neg]
  · exact Option.some_ne_none _
  · rintro ⟨h1, _⟩
    rw [Option.isNone_iff_eq_none] at h1
    rw [h1] at h
    cases h

theorem ioctl_out_events (parser : gsgpu_cs_parser_t) (r : Int) (reserved_buffers : Bool)
    (out_handle : Option Nat) (events : List cs_event) (res : ioctl_result)
    (h : ioctl_out parser r reserved_buffers out_handle events = some res) :
    res.r = r ∧
    count_fence_buffer_objects res.events = count_fence_buffer_objects events ∧
    count_backoff res.events =
      count_backoff events + (if r ≠ 0 ∧ reserved_buffers = true then 1 else 0) ∧
    (reserve_succeeded res.events ↔ reserve_succeeded events) := by
  rw [ioctl_out_some _ _ _ _ _ _ h]
  obtain ⟨k1, k2, k3⟩ := parser_fini_events parser r reserved_buffers
  simp only [count_backoff_append, count_fence_append, reserve_succeeded_append, k1, k2, k3]
  simp

/-- C1: in every run of `gsgpu_cs_ioctl` that returns, if `ttm_eu_reserve_buffers` succeeded
the reservation is released exactly once, by `ttm_eu_fence_buffer_objects` when the ioctl
returns 0 and by one `ttm_eu_backoff_reservation` when it returns an error; if the reservation
failed or was not attempted, neither release is performed.  A run that does not return stops
before `gsgpu_cs_parser_bos`: either `gsgpu_cs_parser_init` failed, or `gsgpu_cs_ib_fill` read
through a `NULL` pointer. -/
theorem ioctl_releases_reservation_once (c : Consts) (env : CsEnv) (cs : drm_gsgpu_cs_in) :
    (∀ res, gsgpu_cs_ioctl c env cs = some res →
      (reserve_succeeded res.events →
        (res.r = 0 →
          count_fence_buffer_objects res.events = 1 ∧ count_backoff res.events = 0) ∧
        (res.r ≠ 0 →
          count_backoff res.events = 1 ∧ count_fence_buffer_objects res.events = 0)) ∧
      (¬ reserve_succeeded res.events →
        count_backoff res.events = 0 ∧ count_fence_buffer_objects res.events = 0)) ∧
    (gsgpu_cs_ioctl c env cs = none →
      (gsgpu_cs_parser_init c env.init cs {}).1 ≠ 0 ∨
      gsgpu_cs_ib_fill env (gsgpu_cs_parser_init c env.init cs {}).2.1 = none) := by
  have hnil : count_backoff [] = 0 ∧ count_fence_buffer_objects [] = 0 ∧
      ¬ reserve_succeeded [] := by
    simp [count_backoff, count_fence_buffer_objects, reserve_succeeded]
  unfold gsgpu_cs_ioctl
  by_cases ha : (!env.accel_working) = true
  · rw [if_pos ha]
    refine ⟨?_, fun h => by cases h⟩
    intro res h
    cases h
    exact ⟨fun h => absurd h hnil.2.2, fun _ => ⟨hnil.1, hnil.2.1⟩⟩
  rw [if_neg ha]
  simp only []
  by_cases hi : (gsgpu_cs_parser_init c env.init cs {}).1 ≠ 0
  · rw [if_pos hi]
    refine ⟨?_, fun _ => Or.inl hi⟩
    intro res h
    obtain ⟨_, k2, k3, k4⟩ := ioctl_out_events _ _ _ _ _ _ h
    rw [k4, k2, k3, hnil.1, hnil.2.1]
    exact ⟨fun h => absurd h hnil.2.2, fun _ => ⟨by simp, rfl⟩⟩
  rw [if_neg hi]
  have hi0 : (gsgpu_cs_parser_init c env.init cs {}).1 = 0 := by simpa using hi
  cases hf : gsgpu_cs_ib_fill env (gsgpu_cs_parser_init c env.init cs {}).2.1 with
  | none =>
    refine ⟨fun res h => (by cases h), fun _ => Or.inr rfl⟩
  | some f =>
    have hring : (gsgpu_cs_parser_init c env.init cs {}).2.1.ring = none :=
      parser_init_ring c env.init cs {} hi0
    obtain ⟨f1, f2, f3, f4, _⟩ := ib_fill_spec env _ f hring hf
    simp only []
    by_cases hfr : f.r ≠ 0
    · rw [if_pos hfr]
      refine ⟨?_, fun h => absurd h (ioctl_out_isSome _ _ _ _ _ f1)⟩
      intro res h
      obtain ⟨_, k2, k3, k4⟩ := ioctl_out_events _ _ _ _ _ _ h
      rw [k4, k2, k3, hnil.1, hnil.2.1]
      exact ⟨fun h => absurd h hnil.2.2, fun _ => ⟨by simp, rfl⟩⟩
    rw [if_neg hfr]
    have hfr0 : f.r = 0 := by simpa using hfr
    obtain ⟨b1, b2⟩ := parser_bos_spec env cs f.p
    cases hb : gsgpu_cs_parser_bos env cs f.p with
    | none =>
      have := b1 f2
      rw [hb] at this
      cases this
    | some b =>
      obtain ⟨bf, bl, bfence, bok, berr⟩ := b2 b hb
      have bchunks : b.p.chunks.isSome = true := by rw [bf.1]; exact f1
      simp only []
      by_cases hbr : b.r ≠ 0
      · rw [if_pos hbr]
        refine ⟨?_, fun h => absurd h (ioctl_out_isSome _ _ _ _ _ bchunks)⟩
        intro res h
        obtain ⟨k1, k2, k3, k4⟩ := ioctl_out_events _ _ _ _ _ _ h
        rw [k4, k2, k3, k1, bfence]
        rcases berr hbr with ⟨g1, g2⟩ | ⟨g1, g2⟩
        · rw [g2]
          exact ⟨fun _ => ⟨fun h0 => absurd h0 hbr, fun _ => ⟨by simp, rfl⟩⟩,
            fun h => absurd g1 h⟩
        · rw [g2]
          exact ⟨fun h => absurd h g1, fun _ => ⟨by simp, rfl⟩⟩
      rw [if_neg hbr]
      have hbr0 : b.r = 0 := by simpa using hbr
      obtain ⟨bres, bback⟩ := bok hbr0
      have pdchunks : (dependencies_update b.p (env.gsgpu_cs_dependencies b.p).2).chunks.isSome
          = true := bchunks
      by_cases hd : (env.gsgpu_cs_dependencies b.p).1 ≠ 0
      · rw [if_pos hd]
        refine ⟨?_, fun h => absurd h (ioctl_out_isSome _ _ _ _ _ pdchunks)⟩
        intro res h
        obtain ⟨k1, k2, k3, k4⟩ := ioctl_out_events _ _ _ _ _ _ h
        rw [k4, k2, k3, k1, bfence, bback]
        exact ⟨fun _ => ⟨fun h0 => absurd h0 hd, fun _ => ⟨by simp [hd], rfl⟩⟩,
          fun h => absurd bres h⟩
      rw [if_neg hd]
      by_cases hv : env.gsgpu_cs_ib_vm_chunk ≠ 0
      · rw [if_pos hv]
        refine ⟨?_, fun h => absurd h (ioctl_out_isSome _ _ _ _ _ pdchunks)⟩
        intro res h
        obtain ⟨k1, k2, k3, k4⟩ := ioctl_out_events _ _ _ _ _ _ h
        rw [k4, k2, k3, k1, bfence, bback]
        exact ⟨fun _ => ⟨fun h0 => absurd h0 hv, fun _ => ⟨by simp [hv], rfl⟩⟩,
          fun h => absurd bres h⟩
      rw [if_neg hv]
      obtain ⟨s1, s2⟩ := submit_spec env (dependencies_update b.p (env.gsgpu_cs_dependencies b.p).2)
      cases hs : gsgpu_cs_submit env (dependencies_update b.p (env.gsgpu_cs_dependencies b.p).2)
        with
      | none =>
        have hsome := s1 (by rw [show (dependencies_update b.p
              (env.gsgpu_cs_dependencies b.p).2).ring = b.p.ring from rfl, bf.2.2.1]; exact f4 hfr0)
          (bf.2.2.2.2 f2) (bl hbr0)
          (by rw [show (dependencies_update b.p
              (env.gsgpu_cs_dependencies b.p).2).ctx = b.p.ctx from rfl, bf.2.2.2.1]; exact f3)
        rw [hs] at hsome
        cases hsome
      | some s =>
        obtain ⟨sc, _, sres, sback, sfence⟩ := s2 s hs
        have schunks : s.p.chunks.isSome = true := by rw [sc]; exact pdchunks
        simp only []
        refine ⟨?_, fun h => absurd h (ioctl_out_isSome _ _ _ _ _ schunks)⟩
        intro res h
        obtain ⟨k1, k2, k3, k4⟩ := ioctl_out_events _ _ _ _ _ _ h
        rw [k4, k2, k3, k1, count_fence_append, count_backoff_append, bfence, bback, sback,
          sfence]
        refine ⟨fun _ => ⟨fun h0 => ?_, fun h0 => ?_⟩, fun h => ?_⟩
        · simp [h0]
        · simp [h0]
        · exact absurd ((reserve_succeeded_append _ _).mpr (Or.inl bres)) h


/-- A run that commits: under `cs_env_ok` the ioctl returns 0 with sequence number 5, after one
successful reservation, one `ttm_eu_fence_buffer_objects` and no
`ttm_eu_backoff_reservation`. -/
theorem ioctl_example_commit :
    ∃ res, gsgpu_cs_ioctl consts_la64 cs_env_ok cs_one_ib = some res ∧ res.r = 0 ∧
      res.out_handle = some 5 ∧ reserve_succeeded res.events ∧
      count_fence_buffer_objects res.events = 1 ∧ count_backoff res.events = 0 :=
  ⟨(gsgpu_cs_ioctl consts_la64 cs_env_ok cs_one_ib).get (by decide), by simp, by decide,
    by decide, by unfold reserve_succeeded; decide, by decide, by decide⟩

/-- A run that fails after the reservation: under `cs_env_dep_fails` the ioctl returns
`-EINVAL` after one successful reservation and one `ttm_eu_backoff_reservation`. -/
theorem ioctl_example_backoff :
    ∃ res, gsgpu_cs_ioctl consts_la64 cs_env_dep_fails cs_one_ib = some res ∧
      res.r = -EINVAL ∧ reserve_succeeded res.events ∧
      count_fence_buffer_objects res.events = 0 ∧ count_backoff res.events = 1 :=
  ⟨(gsgpu_cs_ioctl consts_la64 cs_env_dep_fails cs_one_ib).get (by decide), by simp, by decide,
    by unfold reserve_succeeded; decide, by decide, by decide⟩

/-- When the allocation of the `p->chunks` array fails, the ioctl does not return: the chunk
loop of `gsgpu_cs_parser_fini` runs over `nchunks = 1` slots of a `NULL` array. -/
theorem ioctl_example_chunks_alloc_failure :
    gsgpu_cs_ioctl consts_la64 { cs_env_ok with init := env_chunks_alloc_fails } cs_one_ib
      = none := by
  decide

/-- A submission without chunks passes `gsgpu_cs_parser_init` and then makes
`gsgpu_cs_ib_fill` read `parser->ring->idx` through the `NULL` ring. -/
theorem ioctl_example_zero_chunks :
    gsgpu_cs_ib_fill cs_env_ok (gsgpu_cs_parser_init consts_la64 cs_env_ok.init {} {}).2.1
      = none ∧
    gsgpu_cs_ioctl consts_la64 cs_env_ok {} = none := by
  decide

/-! ### The eviction scenario -/

/-- C11 (as amended): with the validated list made of `A` (under validation), a pinned `B` and
`C`, and the cursor on the last entry: if `C` is unpinned, resides in a domain `A` allows, has
an allowed domain outside them and the placement primitive succeeds for it,
`gsgpu_cs_try_evict` relocates `C` and returns true in the three orders in which `C` stands
behind `A`, and returns false without a placement call in the three orders in which `C`
stands before `A`; if `C` is pinned or has no allowed domain outside those of `A`, it returns
false in every order. -/
theorem try_evict_scenario {W : Type} (E : PlaceEnv W) (w : W) (p : gsgpu_cs_parser_t)
    (A B C : Nat) (hAB : A ≠ B) (hB : (E.bo B).pin_count ≠ 0)
    (hcur : p.evictable = some 3) :
    (evict_candidate E w A C →
      (E.ttm_bo_validate w C
        (and_not32 (E.bo C).allowed_domains (E.bo A).allowed_domains) 0).1 = 0 →
      ((p.validated = [A, B, C] ∨ p.validated = [A, C, B] ∨ p.validated = [B, A, C]) →
        (gsgpu_cs_try_evict E p w A).1 = true ∧
        (gsgpu_cs_try_evict E p w A).2.calls =
          [⟨C, and_not32 (E.bo C).allowed_domains (E.bo A).allowed_domains, 0⟩]) ∧
      ((p.validated = [C, A, B] ∨ p.validated = [C, B, A] ∨ p.validated = [B, C, A]) →
        (gsgpu_cs_try_evict E p w A).1 = false ∧
        (gsgpu_cs_try_evict E p w A).2.calls = [])) ∧
    (((E.bo C).pin_count ≠ 0 ∨
        and_not32 (E.bo C).allowed_domains (E.bo A).allowed_domains = 0) →
      p.validated.Perm [A, B, C] →
      (gsgpu_cs_try_evict E p w A).1 = false ∧
      (gsgpu_cs_try_evict E p w A).2.calls = []) := by
  have hBA : B ≠ A := fun h => hAB h.symm
  refine ⟨?_, ?_⟩
  · intro hC hok
    obtain ⟨hCA, hCpin, hCdom, hCalt⟩ := hC
    refine ⟨?_, ?_⟩
    · rintro (hl | hl | hl) <;>
        simp [gsgpu_cs_try_evict, try_evict_scan, hcur, hl, hCA, hCpin, hCdom, hCalt, hok, hB,
          hBA]
    · rintro (hl | hl | hl) <;>
        simp [gsgpu_cs_try_evict, try_evict_scan, hcur, hl, hCA, hCpin, hCdom, hCalt, hok, hB,
          hBA]
  · intro hC hperm
    have e : gsgpu_cs_try_evict E p w A =
        try_evict_scan E A (E.bo A).allowed_domains p w 3 := by
      simp [gsgpu_cs_try_evict, hcur]
    rw [e]
    have hnone := (try_evict_scan_spec E A p w 3).2 (by
      intro k x _ hx hcand
      have hmem : x ∈ [A, B, C] := hperm.mem_iff.mp (List.get?_mem hx)
      simp only [List.mem_cons, List.mem_singleton, List.not_mem_nil, or_false] at hmem
      rcases hmem with rfl | rfl | rfl
      · exact hcand.1 rfl
      · exact hB hcand.2.1
      · rcases hC with h | h
        · exact h hcand.2.1
        · exact hcand.2.2.2 h)
    exact ⟨hnone.1, hnone.2.1⟩

/-- C11, witness: in `env_vram_full` resource 0 is under validation, resource 1 is pinned and
the list `[0, 1, 2]` has its cursor on the last entry. -/
theorem try_evict_scenario_witness :
    (0 : Nat) ≠ 1 ∧ (env_vram_full.bo 1).pin_count ≠ 0 ∧ parser_three.evictable = some 3 ∧
    ((evict_candidate env_vram_full w_vram 0 2 →
      (env_vram_full.ttm_bo_validate w_vram 2
        (and_not32 (env_vram_full.bo 2).allowed_domains (env_vram_full.bo 0).allowed_domains)
        0).1 = 0 →
      ((parser_three.validated = [0, 1, 2] ∨ parser_three.validated = [0, 2, 1] ∨
          parser_three.validated = [1, 0, 2]) →
        (gsgpu_cs_try_evict env_vram_full parser_three w_vram 0).1 = true ∧
        (gsgpu_cs_try_evict env_vram_full parser_three w_vram 0).2.calls =
          [⟨2, and_not32 (env_vram_full.bo 2).allowed_domains
            (env_vram_full.bo 0).allowed_domains, 0⟩]) ∧
      ((parser_three.validated = [2, 0, 1] ∨ parser_three.validated = [2, 1, 0] ∨
          parser_three.validated = [1, 2, 0]) →
        (gsgpu_cs_try_evict env_vram_full parser_three w_vram 0).1 = false ∧
        (gsgpu_cs_try_evict env_vram_full parser_three w_vram 0).2.calls = [])) ∧
    (((env_vram_full.bo 2).pin_count ≠ 0 ∨
        and_not32 (env_vram_full.bo 2).allowed_domains
          (env_vram_full.bo 0).allowed_domains = 0) →
      parser_three.validated.Perm [0, 1, 2] →
      (gsgpu_cs_try_evict env_vram_full parser_three w_vram 0).1 = false ∧
      (gsgpu_cs_try_evict env_vram_full parser_three w_vram 0).2.calls = [])) :=
  ⟨by decide, by decide, by decide,
    try_evict_scenario env_vram_full w_vram parser_three 0 1 2 (by decide) (by decide)
      (by decide)⟩

/-- C11, counterexample to the claim as stated: in the list `[2, 0, 1]` resource 0 is under
validation, resource 1 is pinned and resides in VRAM, resource 2 is unpinned, resides in VRAM
and may move to GTT, and the placement primitive would succeed for it; the scan from the last
entry meets resource 0 first and `gsgpu_cs_try_evict` returns false without a placement
call. -/
theorem try_evict_order_matters :
    parser_three_c_first.validated = [2, 0, 1] ∧ parser_three_c_first.evictable = some 3 ∧
    (env_vram_full.bo 1).pin_count ≠ 0 ∧
    env_vram_full.mem_type_domain w_vram 1 &&& (env_vram_full.bo 0).allowed_domains ≠ 0 ∧
    evict_candidate env_vram_full w_vram 0 2 ∧
    (env_vram_full.ttm_bo_validate w_vram 2
      (and_not32 (env_vram_full.bo 2).allowed_domains (env_vram_full.bo 0).allowed_domains)
      0).1 = 0 ∧
    (gsgpu_cs_try_evict env_vram_full parser_three_c_first w_vram 0).1 = false ∧
    (gsgpu_cs_try_evict env_vram_full parser_three_c_first w_vram 0).2.calls = [] := by
  refine ⟨rfl, rfl, by decide, by decide, ?_, by decide, by decide, by decide⟩
  unfold evict_candidate
  decide

/-! ### The user-fence offset -/

/-- A user-fence chunk that is accepted and whose offset plus 8 does not wrap in 32 bits has
its 8-byte slot inside the page. -/
theorem user_fence_chunk_offset_in_page (c : Consts) (env : InitEnv) (p : gsgpu_cs_parser_t)
    (data : drm_gsgpu_cs_chunk_fence) (offset : Nat)
    (h : (gsgpu_cs_user_fence_chunk c env p data offset).1 = 0)
    (hw : data.offset + 8 < 2 ^ 32) : data.offset + 8 ≤ c.PAGE_SIZE := by
  unfold gsgpu_cs_user_fence_chunk at h
  cases hl : env.drm_gem_object_lookup data.handle with
  | none => simp [hl, EINVAL] at h
  | some gobj =>
    simp only [hl] at h
    by_cases hs : (env.bo gobj).size ≠ c.PAGE_SIZE ∨
        (data.offset + 8) % 2 ^ 32 > (env.bo gobj).size
    · rw [if_pos hs] at h
      simp [EINVAL] at h
    · rw [not_or] at hs
      obtain ⟨h1, h2⟩ := hs
      rw [Nat.mod_eq_of_lt hw] at h2
      have h1' : (env.bo gobj).size = c.PAGE_SIZE := by simpa using h1
      omega

/-- C20, the failing input: a user-fence chunk whose offset is `2^32 - 4`, for a one-page
resource that is not user-backed, is accepted, because `data->offset + 8` wraps to 4 in 32
bits; its 8-byte slot starts far behind the end of the page, and `gsgpu_cs_parser_init` stores
this offset in the `uf_addr` of the job. -/
theorem user_fence_chunk_offset_wraps :
    (gsgpu_cs_user_fence_chunk consts_la64 env_user_fence {} fence_near_wrap 0).1 = 0 ∧
    (gsgpu_cs_user_fence_chunk consts_la64 env_user_fence {} fence_near_wrap 0).2.2
      = 4294967292 ∧
    ¬ (fence_near_wrap.offset + 8 ≤ consts_la64.PAGE_SIZE) ∧
    (gsgpu_cs_parser_init consts_la64 env_user_fence cs_fence_near_wrap {}).1 = 0 ∧
    ((gsgpu_cs_parser_init consts_la64 env_user_fence cs_fence_near_wrap {}).2.1.job.map
      gsgpu_job.uf_addr) = some 4294967292 := by
  decide

/-! ### Migration throttle -/

theorem s64_of_range (x : Int) (h1 : -2 ^ 63 ≤ x) (h2 : x < 2 ^ 63) : s64 x = x := by
  unfold s64; omega

theorem s64_range (x : Int) : -2 ^ 63 ≤ s64 x ∧ s64 x < 2 ^ 63 := by
  unfold s64; omega

theorem bytes_to_us_range (adev : gsgpu_device) (bytes : Nat) :
    -2 ^ 63 ≤ bytes_to_us adev bytes ∧ bytes_to_us adev bytes < 2 ^ 63 := by
  unfold bytes_to_us
  split_ifs
  · omega
  · exact s64_range _

/-- The credit computed from the credit a call has just stored, with no time elapsed, is that
credit again. -/
theorem threshold_accum_us_again (adev adev1 : gsgpu_device) (rd : threshold_reading)
    (increment_us : Int)
    (h1 : adev1.mm_stats.log2_max_MBps = adev.mm_stats.log2_max_MBps)
    (h2 : adev1.is_apu = adev.is_apu) (h3 : adev1.real_vram_size = adev.real_vram_size)
    (h4 : adev1.mm_stats.accum_us = threshold_accum_us adev rd increment_us) :
    threshold_accum_us adev1 rd 0 = threshold_accum_us adev rd increment_us := by
  have hb : ∀ b, bytes_to_us adev1 b = bytes_to_us adev b := by
    intro b; simp [bytes_to_us, h1]
  have ht : threshold_total_vram adev1 rd = threshold_total_vram adev rd := by
    simp [threshold_total_vram, h3]
  have hf : threshold_free_vram adev1 rd = threshold_free_vram adev rd := by
    simp [threshold_free_vram, ht]
  obtain ⟨b1, b2⟩ := bytes_to_us_range adev (threshold_free_vram adev rd / 4)
  unfold threshold_accum_us at h4 ⊢
  simp only [hb, ht, hf, h2, h4, us_upper_bound]
  generalize bytes_to_us adev (threshold_free_vram adev rd / 4) = m at b1 b2 ⊢
  generalize adev.mm_stats.accum_us + increment_us = x
  have hx := s64_range x
  generalize s64 x = y at hx ⊢
  split_ifs <;> simp only [s64] <;> omega

theorem threshold_accum_us_vis_again (adev adev1 : gsgpu_device) (rd : threshold_reading)
    (increment_us : Int)
    (h1 : adev1.mm_stats.log2_max_MBps = adev.mm_stats.log2_max_MBps)
    (h3 : adev1.visible_vram_size = adev.visible_vram_size)
    (h4 : adev1.mm_stats.accum_us_vis = threshold_accum_us_vis adev rd increment_us) :
    threshold_accum_us_vis adev1 rd 0 = threshold_accum_us_vis adev rd increment_us := by
  have hb : ∀ b, bytes_to_us adev1 b = bytes_to_us adev b := by
    intro b; simp [bytes_to_us, h1]
  obtain ⟨b1, b2⟩ := bytes_to_us_range adev
    ((adev.visible_vram_size % 2 ^ 64 - rd.vis_usage % 2 ^ 64) / 2)
  unfold threshold_accum_us_vis at h4 ⊢
  simp only [hb, h3, h4, us_upper_bound]
  generalize bytes_to_us adev
    ((adev.visible_vram_size % 2 ^ 64 - rd.vis_usage % 2 ^ 64) / 2) = m at b1 b2 ⊢
  generalize adev.mm_stats.accum_us_vis + increment_us = x
  have hx := s64_range x
  generalize s64 x = y at hx ⊢
  split_ifs <;> simp only [s64] <;> omega

/-- C12: a second call of `gsgpu_cs_get_threshold_for_moves` with the same clock reading, the
same pin and usage figures and no `gsgpu_cs_report_moved_bytes` in between returns the same
`(max_bytes, max_vis_bytes)` pair and leaves the device, so `accum_us` and `accum_us_vis`, as
the first call left it. -/
theorem threshold_idempotent (adev : gsgpu_device) (rd : threshold_reading) :
    gsgpu_cs_get_threshold_for_moves (gsgpu_cs_get_threshold_for_moves adev rd).1 rd =
      gsgpu_cs_get_threshold_for_moves adev rd := by
  have hz : ∀ t : Int, s64 (s64 t - s64 t) = 0 := by
    intro t; simp [s64]
  by_cases h0 : adev.mm_stats.log2_max_MBps = 0
  · simp [gsgpu_cs_get_threshold_for_moves, h0]
  · by_cases hv : (!adev.vram_full_visible) = true
    · have e1 : gsgpu_cs_get_threshold_for_moves adev rd =
          ({ adev with mm_stats := { adev.mm_stats with
              last_update_us := s64 rd.time_us
              accum_us := threshold_accum_us adev rd
                (s64 (s64 rd.time_us - adev.mm_stats.last_update_us))
              accum_us_vis := threshold_accum_us_vis adev rd
                (s64 (s64 rd.time_us - adev.mm_stats.last_update_us)) } },
            us_to_bytes adev (threshold_accum_us adev rd
              (s64 (s64 rd.time_us - adev.mm_stats.last_update_us))),
            us_to_bytes adev (threshold_accum_us_vis adev rd
              (s64 (s64 rd.time_us - adev.mm_stats.last_update_us)))) := by
        simp only [gsgpu_cs_get_threshold_for_moves, if_neg h0, if_pos hv]
      rw [e1]
      simp only [gsgpu_cs_get_threshold_for_moves, if_neg h0, if_pos hv, hz]
      rw [threshold_accum_us_again adev _ rd, threshold_accum_us_vis_again adev _ rd]
      all_goals rfl
    · have e1 : gsgpu_cs_get_threshold_for_moves adev rd =
          ({ adev with mm_stats := { adev.mm_stats with
              last_update_us := s64 rd.time_us
              accum_us := threshold_accum_us adev rd
                (s64 (s64 rd.time_us - adev.mm_stats.last_update_us)) } },
            us_to_bytes adev (threshold_accum_us adev rd
              (s64 (s64 rd.time_us - adev.mm_stats.last_update_us))), 0) := by
        simp only [gsgpu_cs_get_threshold_for_moves, if_neg h0, if_neg hv]
      rw [e1]
      simp only [gsgpu_cs_get_threshold_for_moves, if_neg h0, if_neg hv, hz]
      rw [threshold_accum_us_again adev _ rd]
      all_goals rfl

theorem threshold_free_vram_lt (adev : gsgpu_device) (rd : threshold_reading) :
    threshold_free_vram adev rd < 2 ^ 64 := by
  have ht : threshold_total_vram adev rd < 2 ^ 64 := by
    unfold threshold_total_vram
    exact Nat.mod_lt _ (by norm_num)
  unfold threshold_free_vram
  split_ifs <;> omega

/-- The top-up value of a device with a rate: `(bytes >> log2_max_MBps)` as it stands, for
`bytes` below `2^64`. -/
theorem bytes_to_us_eq (adev : gsgpu_device) (bytes : Nat)
    (h0 : adev.mm_stats.log2_max_MBps ≠ 0) (hb : bytes < 2 ^ 64) :
    bytes_to_us adev bytes = ((bytes / 2 ^ adev.mm_stats.log2_max_MBps : Nat) : Int) := by
  have hP : 2 ≤ 2 ^ adev.mm_stats.log2_max_MBps := by
    calc 2 = 2 ^ 1 := by norm_num
      _ ≤ 2 ^ adev.mm_stats.log2_max_MBps :=
        Nat.pow_le_pow_right (by norm_num) (Nat.one_le_iff_ne_zero.mpr h0)
  have hd : bytes / 2 ^ adev.mm_stats.log2_max_MBps < 2 ^ 63 := by
    apply Nat.div_lt_of_lt_mul
    calc bytes < 2 ^ 64 := hb
      _ = 2 * 2 ^ 63 := by norm_num
      _ ≤ 2 ^ adev.mm_stats.log2_max_MBps * 2 ^ 63 := Nat.mul_le_mul_right _ hP
  unfold bytes_to_us
  rw [if_neg h0, Nat.mod_eq_of_lt hb]
  generalize bytes / 2 ^ adev.mm_stats.log2_max_MBps = k at hd
  apply s64_of_range <;> omega

/-- The credit `gsgpu_cs_get_threshold_for_moves` stores is at most the cap, or the top-up
value when that is larger. -/
theorem threshold_accum_us_le (adev : gsgpu_device) (rd : threshold_reading)
    (increment_us : Int) (h0 : adev.mm_stats.log2_max_MBps ≠ 0) :
    threshold_accum_us adev rd increment_us ≤
      max 200000
        ((threshold_free_vram adev rd / 4 / 2 ^ adev.mm_stats.log2_max_MBps : Nat) : Int) ∧
    ((¬ threshold_top_up adev rd ∨ adev.is_apu = true) →
      threshold_accum_us adev rd increment_us ≤ 200000) := by
  have hf := threshold_free_vram_lt adev rd
  have hb := bytes_to_us_eq adev (threshold_free_vram adev rd / 4) h0 (by omega)
  unfold threshold_accum_us threshold_top_up
  simp only [us_upper_bound, hb]
  generalize ((threshold_free_vram adev rd / 4 / 2 ^ adev.mm_stats.log2_max_MBps : Nat) : Int)
    = m
  generalize s64 (adev.mm_stats.accum_us + increment_us) = y
  refine ⟨?_, ?_⟩
  · split_ifs
    · simp
      omega
    · simp
    · simp
  · rintro (h | h)
    · rw [if_neg h]
      omega
    · simp only [h, Bool.not_true, Bool.false_eq_true, if_false]
      split_ifs <;> simp

/-- The byte value of the stored credit, before it is cut to 64 bits. -/
theorem threshold_accum_bytes_le (adev : gsgpu_device) (rd : threshold_reading)
    (increment_us : Int) (h0 : adev.mm_stats.log2_max_MBps ≠ 0) :
    (threshold_accum_us adev rd increment_us).toNat * 2 ^ adev.mm_stats.log2_max_MBps ≤
      max (200000 * 2 ^ adev.mm_stats.log2_max_MBps) (threshold_free_vram adev rd / 4) := by
  have h := (threshold_accum_us_le adev rd increment_us h0).1
  rcases le_max_iff.mp h with h1 | h1
  · apply le_max_of_le_left
    apply Nat.mul_le_mul_right
    omega
  · apply le_max_of_le_right
    calc (threshold_accum_us adev rd increment_us).toNat * 2 ^ adev.mm_stats.log2_max_MBps
        ≤ (threshold_free_vram adev rd / 4 / 2 ^ adev.mm_stats.log2_max_MBps) *
            2 ^ adev.mm_stats.log2_max_MBps := by
          apply Nat.mul_le_mul_right
          exact Int.toNat_le.mpr h1
      _ ≤ threshold_free_vram adev rd / 4 := Nat.div_mul_le_self _ _

theorem threshold_result (adev : gsgpu_device) (rd : threshold_reading)
    (h0 : adev.mm_stats.log2_max_MBps ≠ 0) :
    (gsgpu_cs_get_threshold_for_moves adev rd).1.mm_stats.accum_us =
      threshold_accum_us adev rd (s64 (s64 rd.time_us - adev.mm_stats.last_update_us)) ∧
    (gsgpu_cs_get_threshold_for_moves adev rd).2.1 =
      us_to_bytes adev
        (threshold_accum_us adev rd (s64 (s64 rd.time_us - adev.mm_stats.last_update_us))) := by
  unfold gsgpu_cs_get_threshold_for_moves
  rw [if_neg h0]
  simp only []
  split_ifs <;> exact ⟨rfl, rfl⟩

/-- C13 (as amended): after a call of `gsgpu_cs_get_threshold_for_moves` with a non-zero rate,
`accum_us` is at most 200000 when the device is an APU or when less than 128 MB and less than
1/8th of VRAM is free, and at most the larger of 200000 and
`(free_vram / 4) >> log2_max_MBps` in general; the returned `max_bytes` is at most the larger of
`200000 << log2_max_MBps` and `free_vram / 4`. -/
theorem threshold_accum_us_bound (adev : gsgpu_device) (rd : threshold_reading)
    (h0 : adev.mm_stats.log2_max_MBps ≠ 0) :
    ((¬ threshold_top_up adev rd ∨ adev.is_apu = true) →
      (gsgpu_cs_get_threshold_for_moves adev rd).1.mm_stats.accum_us ≤ 200000 ∧
      (gsgpu_cs_get_threshold_for_moves adev rd).2.1 ≤
        200000 * 2 ^ adev.mm_stats.log2_max_MBps) ∧
    (gsgpu_cs_get_threshold_for_moves adev rd).1.mm_stats.accum_us ≤
      max 200000
        ((threshold_free_vram adev rd / 4 / 2 ^ adev.mm_stats.log2_max_MBps : Nat) : Int) ∧
    (gsgpu_cs_get_threshold_for_moves adev rd).2.1 ≤
      max (200000 * 2 ^ adev.mm_stats.log2_max_MBps) (threshold_free_vram adev rd / 4) := by
  obtain ⟨e1, e2⟩ := threshold_result adev rd h0
  rw [e1, e2]
  have hle := threshold_accum_us_le adev rd
    (s64 (s64 rd.time_us - adev.mm_stats.last_update_us)) h0
  have hbytes := threshold_accum_bytes_le adev rd
    (s64 (s64 rd.time_us - adev.mm_stats.last_update_us)) h0
  have hus : ∀ us : Int, us_to_bytes adev us ≤ us.toNat * 2 ^ adev.mm_stats.log2_max_MBps := by
    intro us
    unfold us_to_bytes
    split_ifs
    · exact Nat.zero_le _
    · exact Nat.mod_le _ _
  refine ⟨?_, hle.1, le_trans (hus _) hbytes⟩
  intro h
  have h2 := hle.2 h
  refine ⟨h2, le_trans (hus _) ?_⟩
  apply Nat.mul_le_mul_right
  omega

/-- C13, witness: `adev_dgpu` has the rate `log2_max_MBps = 3`. -/
theorem threshold_accum_us_bound_witness :
    adev_dgpu.mm_stats.log2_max_MBps ≠ 0 ∧
    (((¬ threshold_top_up adev_dgpu (reading_full 5) ∨ adev_dgpu.is_apu = true) →
      (gsgpu_cs_get_threshold_for_moves adev_dgpu (reading_full 5)).1.mm_stats.accum_us
        ≤ 200000 ∧
      (gsgpu_cs_get_threshold_for_moves adev_dgpu (reading_full 5)).2.1 ≤
        200000 * 2 ^ adev_dgpu.mm_stats.log2_max_MBps) ∧
    (gsgpu_cs_get_threshold_for_moves adev_dgpu (reading_full 5)).1.mm_stats.accum_us ≤
      max 200000
        ((threshold_free_vram adev_dgpu (reading_full 5) / 4 /
          2 ^ adev_dgpu.mm_stats.log2_max_MBps : Nat) : Int) ∧
    (gsgpu_cs_get_threshold_for_moves adev_dgpu (reading_full 5)).2.1 ≤
      max (200000 * 2 ^ adev_dgpu.mm_stats.log2_max_MBps)
        (threshold_free_vram adev_dgpu (reading_full 5) / 4)) :=
  ⟨by decide, threshold_accum_us_bound adev_dgpu (reading_full 5) (by decide)⟩

/-- C13, counterexample to the claim as stated: on a discrete GPU with a rate of 8 MB/s and
8 GiB of empty VRAM the call stores `accum_us = (2 GiB) >> 3`, above 200000, and returns
`max_bytes = 2 GiB`, above `200000 << 3`. -/
theorem threshold_top_up_exceeds_cap :
    adev_dgpu.mm_stats.log2_max_MBps ≠ 0 ∧
    (gsgpu_cs_get_threshold_for_moves adev_dgpu reading_empty).1.mm_stats.accum_us
      = 268435456 ∧
    ¬ ((gsgpu_cs_get_threshold_for_moves adev_dgpu reading_empty).1.mm_stats.accum_us
      ≤ 200000) ∧
    (gsgpu_cs_get_threshold_for_moves adev_dgpu reading_empty).2.1 = 2147483648 ∧
    ¬ ((gsgpu_cs_get_threshold_for_moves adev_dgpu reading_empty).2.1 ≤
      200000 * 2 ^ adev_dgpu.mm_stats.log2_max_MBps) := by
  decide

theorem threshold_accum_us_ge (adev : gsgpu_device) (rd : threshold_reading)
    (increment_us : Int) :
    min (s64 (adev.mm_stats.accum_us + increment_us)) 200000 ≤
      threshold_accum_us adev rd increment_us := by
  unfold threshold_accum_us
  simp only [us_upper_bound]
  split_ifs
  · exact le_max_right _ _
  · exact le_max_right _ _
  · exact Int.le_refl _

theorem threshold_accum_us_no_top_up (adev : gsgpu_device) (rd : threshold_reading)
    (increment_us : Int) (h : ¬ threshold_top_up adev rd) :
    threshold_accum_us adev rd increment_us =
      min (s64 (adev.mm_stats.accum_us + increment_us)) 200000 := by
  unfold threshold_top_up at h
  unfold threshold_accum_us
  simp only [us_upper_bound]
  rw [if_neg h]

/-- C14 (as amended): on a device with a non-zero rate for which `200000 << log2_max_MBps`
fits in 64 bits, with `accum_us` negative (debt) and the counters and the clock within the
signed 64-bit range, a single call of `gsgpu_cs_get_threshold_for_moves` whose elapsed time is
strictly greater than the debt returns `max_bytes > 0`, for every VRAM usage; a call whose
elapsed time does not exceed the debt, with no free-VRAM top-up, returns `max_bytes = 0`. -/
theorem threshold_debt_recovery (adev : gsgpu_device) (rd : threshold_reading)
    (h0 : adev.mm_stats.log2_max_MBps ≠ 0)
    (hcap : 200000 * 2 ^ adev.mm_stats.log2_max_MBps < 2 ^ 64)
    (hdebt : adev.mm_stats.accum_us < 0) (hlow : -2 ^ 63 ≤ adev.mm_stats.accum_us)
    (ht : -2 ^ 63 ≤ rd.time_us ∧ rd.time_us < 2 ^ 63)
    (he : 0 ≤ rd.time_us - adev.mm_stats.last_update_us ∧
      rd.time_us - adev.mm_stats.last_update_us < 2 ^ 63) :
    (rd.time_us - adev.mm_stats.last_update_us > - adev.mm_stats.accum_us →
      0 < (gsgpu_cs_get_threshold_for_moves adev rd).2.1) ∧
    (rd.time_us - adev.mm_stats.last_update_us ≤ - adev.mm_stats.accum_us →
      ¬ threshold_top_up adev rd →
      (gsgpu_cs_get_threshold_for_moves adev rd).2.1 = 0) := by
  rw [(threshold_result adev rd h0).2, s64_of_range _ ht.1 ht.2, s64_of_range _ (by omega) he.2]
  refine ⟨?_, ?_⟩
  · intro hgt
    have hge := threshold_accum_us_ge adev rd (rd.time_us - adev.mm_stats.last_update_us)
    have hb := threshold_accum_bytes_le adev rd
      (rd.time_us - adev.mm_stats.last_update_us) h0
    have hf := threshold_free_vram_lt adev rd
    rw [s64_of_range _ (by omega) (by omega)] at hge
    have hpos : 0 < threshold_accum_us adev rd (rd.time_us - adev.mm_stats.last_update_us) :=
      lt_of_lt_of_le (lt_min (by omega) (by norm_num)) hge
    generalize threshold_accum_us adev rd (rd.time_us - adev.mm_stats.last_update_us) = a
      at hpos hb
    have hlt : a.toNat * 2 ^ adev.mm_stats.log2_max_MBps < 2 ^ 64 :=
      lt_of_le_of_lt hb (max_lt hcap (by omega))
    unfold us_to_bytes
    rw [if_neg (by omega), Nat.mod_eq_of_lt hlt]
    apply Nat.mul_pos
    · omega
    · exact Nat.pos_of_ne_zero (by positivity)
  · intro hle hno
    rw [threshold_accum_us_no_top_up adev rd _ hno, s64_of_range _ (by omega) (by omega)]
    unfold us_to_bytes
    rw [if_pos]
    left
    exact le_trans (min_le_left _ _) (by omega)

/-- C14, witness: `adev_debt` owes 1000 microseconds; with VRAM full a call after 1001
microseconds returns a positive `max_bytes`, a call after 1000 microseconds returns 0. -/
theorem threshold_debt_recovery_witness :
    adev_debt.mm_stats.log2_max_MBps ≠ 0 ∧ adev_debt.mm_stats.accum_us < 0 ∧
    0 < (gsgpu_cs_get_threshold_for_moves adev_debt (reading_full 1001)).2.1 ∧
    (gsgpu_cs_get_threshold_for_moves adev_debt (reading_full 1000)).2.1 = 0 :=
  ⟨by decide, by decide,
    (threshold_debt_recovery adev_debt (reading_full 1001) (by decide) (by decide) (by decide)
      (by decide) (by decide) (by decide)).1 (by decide),
    (threshold_debt_recovery adev_debt (reading_full 1000) (by decide) (by decide) (by decide)
      (by decide) (by decide) (by decide)).2 (by decide) (by unfold threshold_top_up; decide)⟩

/-- C14, counterexample to the claim as stated: with the rate `log2_max_MBps = 47`, a debt of
one microsecond and VRAM full, a call after 131073 microseconds stores the credit 131072, whose
byte value `131072 << 47` is `2^64`, and returns `max_bytes = 0`. -/
theorem threshold_rate_overflow :
    adev_fast.mm_stats.log2_max_MBps ≠ 0 ∧ adev_fast.mm_stats.accum_us = -1 ∧
    (reading_full 131073).time_us - adev_fast.mm_stats.last_update_us >
      - adev_fast.mm_stats.accum_us ∧
    (gsgpu_cs_get_threshold_for_moves adev_fast (reading_full 131073)).1.mm_stats.accum_us
      = 131072 ∧
    (gsgpu_cs_get_threshold_for_moves adev_fast (reading_full 131073)).2.1 = 0 := by
  decide

theorem bytes_to_us_val (adev : gsgpu_device) (bytes : Nat) :
    bytes_to_us adev bytes =
      if adev.mm_stats.log2_max_MBps = 0 then 0
      else ((bytes % 2 ^ 64 / 2 ^ adev.mm_stats.log2_max_MBps : Nat) : Int) := by
  by_cases h0 : adev.mm_stats.log2_max_MBps = 0
  · unfold bytes_to_us
    rw [if_pos h0, if_pos h0]
  · rw [if_neg h0, ← bytes_to_us_eq adev (bytes % 2 ^ 64) h0 (Nat.mod_lt _ (by norm_num))]
    unfold bytes_to_us
    rw [Nat.mod_mod]

theorem threshold_keeps_rate (adev : gsgpu_device) (rd : threshold_reading) :
    (gsgpu_cs_get_threshold_for_moves adev rd).1.mm_stats.log2_max_MBps =
      adev.mm_stats.log2_max_MBps := by
  unfold gsgpu_cs_get_threshold_for_moves
  split_ifs <;> rfl

/-- What `gsgpu_cs_report_moved_bytes` leaves in the two counters. -/
theorem report_moved_bytes_counters (adev : gsgpu_device) (num_bytes num_vis_bytes : Nat) :
    (gsgpu_cs_report_moved_bytes adev num_bytes num_vis_bytes).mm_stats.accum_us =
      s64 (adev.mm_stats.accum_us -
        (if adev.mm_stats.log2_max_MBps = 0 then 0
         else ((num_bytes % 2 ^ 64 / 2 ^ adev.mm_stats.log2_max_MBps : Nat) : Int))) ∧
    (gsgpu_cs_report_moved_bytes adev num_bytes num_vis_bytes).mm_stats.accum_us_vis =
      s64 (adev.mm_stats.accum_us_vis -
        (if adev.mm_stats.log2_max_MBps = 0 then 0
         else ((num_vis_bytes % 2 ^ 64 / 2 ^ adev.mm_stats.log2_max_MBps : Nat) : Int))) := by
  rw [← bytes_to_us_val, ← bytes_to_us_val]
  exact ⟨rfl, rfl⟩

/-- The throttle calls of the part of `gsgpu_cs_parser_bos` that follows the reservation. -/
theorem parser_bos_reserved_moves (env : CsEnv) (p1 : gsgpu_cs_parser_t)
    (rd : threshold_reading) (adev : gsgpu_device) (b : phase_result)
    (hb : parser_bos_reserved env p1 = some b) :
    ((parser_bos_validate env (parser_bos_thresholds env p1)).1 = 0 →
      reported_moves b.events =
        [((parser_bos_validate env (parser_bos_thresholds env p1)).2.bytes_moved,
          (parser_bos_validate env (parser_bos_thresholds env p1)).2.bytes_moved_vis)] ∧
      budget_after rd adev b.events =
        gsgpu_cs_report_moved_bytes (gsgpu_cs_get_threshold_for_moves adev rd).1
          (parser_bos_validate env (parser_bos_thresholds env p1)).2.bytes_moved
          (parser_bos_validate env (parser_bos_thresholds env p1)).2.bytes_moved_vis) ∧
    ((parser_bos_validate env (parser_bos_thresholds env p1)).1 ≠ 0 →
      reported_moves b.events = [] ∧
      budget_after rd adev b.events = (gsgpu_cs_get_threshold_for_moves adev rd).1) := by
  unfold parser_bos_reserved at hb
  simp only [] at hb
  change (if (parser_bos_validate env (parser_bos_thresholds env p1)).1 ≠ 0 then _ else _) = _
    at hb
  by_cases hv : (parser_bos_validate env (parser_bos_thresholds env p1)).1 ≠ 0
  · rw [if_pos hv] at hb
    cases hb
    refine ⟨fun h => absurd h hv, fun _ => ⟨?_, ?_⟩⟩
    · simp [reported_moves]
    · simp [budget_after]
  · rw [if_neg hv] at hb
    refine ⟨fun _ => ?_, fun h => absurd h hv⟩
    rcases (parser_bos_user_fence_spec env _ _).2 b hb with ⟨_, _, ⟨_, he⟩ | ⟨_, he⟩⟩
    · rw [he]
      refine ⟨?_, ?_⟩
      · simp [reported_moves]
        exact ⟨rfl, rfl⟩
      · simp [budget_after]
        rfl
    · rw [he]
      refine ⟨?_, ?_⟩
      · simp [reported_moves]
        exact ⟨rfl, rfl⟩
      · simp [budget_after]
        rfl

/-- The ways `gsgpu_cs_parser_bos` ends: before the reservation, with a failed reservation, or
in the part after a successful reservation. -/
theorem parser_bos_cases (env : CsEnv) (cs : drm_gsgpu_cs_in) (p : gsgpu_cs_parser_t)
    (b : phase_result) (hb : gsgpu_cs_parser_bos env cs p = some b) :
    b.events = [] ∨ (∃ r, r ≠ 0 ∧ b.events = [.ttm_eu_reserve_buffers r]) ∨
    ∃ bo_list, parser_bos_list env cs { p with validated := [] } = .ok bo_list ∧
      parser_bos_reserved env (parser_bos_entry env p bo_list) = some b := by
  unfold gsgpu_cs_parser_bos at hb
  simp only [] at hb
  cases hl : parser_bos_list env cs { p with validated := [] } with
  | error r =>
    rw [hl] at hb
    cases hb
    exact Or.inl rfl
  | ok bo_list =>
    rw [hl] at hb
    simp only [] at hb
    by_cases h1 : parser_bos_userptr env (env.userptr_entries bo_list) ≠ 0
    · rw [if_pos h1] at hb
      cases hb
      exact Or.inl rfl
    · rw [if_neg h1] at hb
      by_cases h2 : env.ttm_eu_reserve_buffers ≠ 0
      · rw [if_pos h2] at hb
        cases hb
        exact Or.inr (Or.inl ⟨_, h2, rfl⟩)
      · rw [if_neg h2] at hb
        exact Or.inr (Or.inr ⟨bo_list, rfl, hb⟩)

/-- The result of the three validation passes of `gsgpu_cs_parser_bos` in terms of the passes:
the error of the first pass that fails, the later passes not being run, or the result of the
third. -/
theorem parser_bos_validate_passes (env : CsEnv) (p2 : gsgpu_cs_parser_t) :
    ((env.gsgpu_vm_validate_pt_bos p2).1 ≠ 0 →
      parser_bos_validate env p2 =
        ((env.gsgpu_vm_validate_pt_bos p2).1,
          validation_update p2 (env.gsgpu_vm_validate_pt_bos p2).2)) ∧
    ((env.gsgpu_vm_validate_pt_bos p2).1 = 0 →
      (env.list_validate_duplicates
        (validation_update p2 (env.gsgpu_vm_validate_pt_bos p2).2)).1 ≠ 0 →
      parser_bos_validate env p2 =
        ((env.list_validate_duplicates
            (validation_update p2 (env.gsgpu_vm_validate_pt_bos p2).2)).1,
          validation_update (validation_update p2 (env.gsgpu_vm_validate_pt_bos p2).2)
            (env.list_validate_duplicates
              (validation_update p2 (env.gsgpu_vm_validate_pt_bos p2).2)).2)) ∧
    ((env.gsgpu_vm_validate_pt_bos p2).1 = 0 →
      (env.list_validate_duplicates
        (validation_update p2 (env.gsgpu_vm_validate_pt_bos p2).2)).1 = 0 →
      parser_bos_validate env p2 =
        ((env.list_validate_validated
            (validation_update (validation_update p2 (env.gsgpu_vm_validate_pt_bos p2).2)
              (env.list_validate_duplicates
                (validation_update p2 (env.gsgpu_vm_validate_pt_bos p2).2)).2)).1,
          validation_update
            (validation_update (validation_update p2 (env.gsgpu_vm_validate_pt_bos p2).2)
              (env.list_validate_duplicates
                (validation_update p2 (env.gsgpu_vm_validate_pt_bos p2).2)).2)
            (env.list_validate_validated
              (validation_update (validation_update p2 (env.gsgpu_vm_validate_pt_bos p2).2)
                (env.list_validate_duplicates
                  (validation_update p2 (env.gsgpu_vm_validate_pt_bos p2).2)).2)).2)) := by
  refine ⟨?_, ?_, ?_⟩
  · intro h1
    unfold parser_bos_validate
    simp only []
    rw [if_pos h1]
  · intro h1 h2
    unfold parser_bos_validate
    simp only []
    rw [if_neg (by simp [h1]), if_pos h2]
  · intro h1 h2
    unfold parser_bos_validate
    simp only []
    rw [if_neg (by simp [h1]), if_neg (by simp [h2])]

/-- The return value of the part of `gsgpu_cs_parser_bos` that follows the reservation, when
the validation fails. -/
theorem parser_bos_reserved_ret (env : CsEnv) (p1 : gsgpu_cs_parser_t) (b : phase_result)
    (hb : parser_bos_reserved env p1 = some b)
    (hv : (parser_bos_validate env (parser_bos_thresholds env p1)).1 ≠ 0) :
    b.r = (parser_bos_validate env (parser_bos_thresholds env p1)).1 := by
  unfold parser_bos_reserved at hb
  simp only [] at hb
  change (if (parser_bos_validate env (parser_bos_thresholds env p1)).1 ≠ 0 then _ else _) = _
    at hb
  rw [if_pos hv] at hb
  cases hb
  rfl

/-- With the resource list found, the user pages obtained and the buffers reserved,
`gsgpu_cs_parser_bos` goes on with the part after the reservation. -/
theorem parser_bos_reaches_reserved (env : CsEnv) (cs : drm_gsgpu_cs_in)
    (p : gsgpu_cs_parser_t) (bo_list : Nat)
    (hl : parser_bos_list env cs { p with validated := [] } = .ok bo_list)
    (hu : parser_bos_userptr env (env.userptr_entries bo_list) = 0)
    (hr : env.ttm_eu_reserve_buffers = 0) :
    gsgpu_cs_parser_bos env cs p = parser_bos_reserved env (parser_bos_entry env p bo_list) := by
  unfold gsgpu_cs_parser_bos
  simp only []
  rw [hl]
  simp only []
  rw [if_neg (by simp [hu]), if_neg (by simp [hr])]
  rfl

/-- C15 (as amended): `gsgpu_cs_parser_bos` calls `gsgpu_cs_report_moved_bytes` exactly once,
with the parser's `bytes_moved` and `bytes_moved_vis`, when the buffers are reserved and
`gsgpu_vm_validate_pt_bos`, the validation of the duplicates and the validation of the
validated list all return 0; the call lowers `accum_us` by `bytes_moved >> log2_max_MBps` and
`accum_us_vis` by `bytes_moved_vis >> log2_max_MBps` (in wrapping signed 64-bit arithmetic)
when `log2_max_MBps` is not 0, and by nothing when it is 0.  When the first of the three passes
fails, or the second after the first succeeded, or the third after the first two succeeded,
the function returns the error of that pass, makes no call of `gsgpu_cs_report_moved_bytes`
whatever the passes moved, and the Budget State is what the threshold computation left.  The
buffers are reserved when the resource list is found, the user pages are obtained and
`ttm_eu_reserve_buffers` returns 0; when the reservation is not reached or fails the Budget
State is untouched. -/
theorem parser_bos_debits_once (env : CsEnv) (cs : drm_gsgpu_cs_in) (p : gsgpu_cs_parser_t)
    (rd : threshold_reading) (adev : gsgpu_device) (b : phase_result)
    (hb : gsgpu_cs_parser_bos env cs p = some b) :
    (¬ reserve_succeeded b.events →
      reported_moves b.events = [] ∧ budget_after rd adev b.events = adev) ∧
    (∀ bo_list, parser_bos_list env cs { p with validated := [] } = .ok bo_list →
      parser_bos_userptr env (env.userptr_entries bo_list) = 0 →
      env.ttm_eu_reserve_buffers = 0 → reserve_succeeded b.events) ∧
    (reserve_succeeded b.events → ∀ bo_list,
      parser_bos_list env cs { p with validated := [] } = .ok bo_list →
      let p2 := parser_bos_thresholds env (parser_bos_entry env p bo_list)
      let v1 := env.gsgpu_vm_validate_pt_bos p2
      let q1 := validation_update p2 v1.2
      let v2 := env.list_validate_duplicates q1
      let q2 := validation_update q1 v2.2
      let v3 := env.list_validate_validated q2
      let left := (gsgpu_cs_get_threshold_for_moves adev rd).1
      (v1.1 ≠ 0 →
        b.r = v1.1 ∧ reported_moves b.events = [] ∧ budget_after rd adev b.events = left) ∧
      (v1.1 = 0 → v2.1 ≠ 0 →
        b.r = v2.1 ∧ reported_moves b.events = [] ∧ budget_after rd adev b.events = left) ∧
      (v1.1 = 0 → v2.1 = 0 → v3.1 ≠ 0 →
        b.r = v3.1 ∧ reported_moves b.events = [] ∧ budget_after rd adev b.events = left) ∧
      (v1.1 = 0 → v2.1 = 0 → v3.1 = 0 →
        reported_moves b.events = [(v3.2.bytes_moved, v3.2.bytes_moved_vis)] ∧
        budget_after rd adev b.events =
          gsgpu_cs_report_moved_bytes left v3.2.bytes_moved v3.2.bytes_moved_vis ∧
        (budget_after rd adev b.events).mm_stats.accum_us =
          s64 (left.mm_stats.accum_us -
            (if adev.mm_stats.log2_max_MBps = 0 then 0
             else ((v3.2.bytes_moved % 2 ^ 64 / 2 ^ adev.mm_stats.log2_max_MBps : Nat) : Int))) ∧
        (budget_after rd adev b.events).mm_stats.accum_us_vis =
          s64 (left.mm_stats.accum_us_vis -
            (if adev.mm_stats.log2_max_MBps = 0 then 0
             else ((v3.2.bytes_moved_vis % 2 ^ 64 / 2 ^ adev.mm_stats.log2_max_MBps : Nat)
               : Int))))) := by
  refine ⟨?_, ?_, ?_⟩
  · rcases parser_bos_cases env cs p b hb with he | ⟨r, hr, he⟩ | ⟨l, hl, h1⟩
    · intro _
      rw [he]
      exact ⟨rfl, rfl⟩
    · intro _
      rw [he]
      exact ⟨rfl, rfl⟩
    · intro h
      exact absurd ((parser_bos_reserved_spec env _).2 b h1).2.2.1 h
  · intro bo_list hl hu hr
    rw [parser_bos_reaches_reserved env cs p bo_list hl hu hr] at hb
    exact ((parser_bos_reserved_spec env _).2 b hb).2.2.1
  · intro hres bo_list hbl
    rcases parser_bos_cases env cs p b hb with he | ⟨r, hr, he⟩ | ⟨l, hl, h1⟩
    · rw [he] at hres
      simp [reserve_succeeded] at hres
    · rw [he] at hres
      simp [reserve_succeeded] at hres
      exact absurd hres.symm hr
    · rw [hl] at hbl
      cases hbl
      intro p2 v1 q1 v2 q2 v3 left
      obtain ⟨m1, m2⟩ := parser_bos_reserved_moves env _ rd adev b h1
      obtain ⟨c1, c2, c3⟩ := parser_bos_validate_passes env p2
      refine ⟨?_, ?_, ?_, ?_⟩
      · intro h1'
        have e := c1 h1'
        have hv : (parser_bos_validate env p2).1 ≠ 0 := by rw [e]; exact h1'
        refine ⟨?_, m2 hv⟩
        rw [parser_bos_reserved_ret env _ b h1 hv, e]
      · intro h1' h2'
        have e := c2 h1' h2'
        have hv : (parser_bos_validate env p2).1 ≠ 0 := by rw [e]; exact h2'
        refine ⟨?_, m2 hv⟩
        rw [parser_bos_reserved_ret env _ b h1 hv, e]
      · intro h1' h2' h3'
        have e := c3 h1' h2'
        have hv : (parser_bos_validate env p2).1 ≠ 0 := by rw [e]; exact h3'
        refine ⟨?_, m2 hv⟩
        rw [parser_bos_reserved_ret env _ b h1 hv, e]
      · intro h1' h2' h3'
        have e := c3 h1' h2'
        have hv : (parser_bos_validate env p2).1 = 0 := by rw [e]; exact h3'
        obtain ⟨e1, e2⟩ := m1 hv
        rw [e] at e1 e2
        refine ⟨e1, e2, ?_, ?_⟩
        · rw [e2, (report_moved_bytes_counters _ _ _).1, threshold_keeps_rate]
          rfl
        · rw [e2, (report_moved_bytes_counters _ _ _).2, threshold_keeps_rate]
          rfl

set_option maxRecDepth 10000 in
/-- C15, witness: under `cs_env_moved` the three passes succeed and the validated list moves
4096 bytes; with a rate of 8 MB/s the one report lowers `accum_us` from 5 to
`5 - (4096 >> 3)`.  Under `cs_env_dup_fails` the validation of the duplicates moves 4096 bytes
and fails: the function returns its error, reports nothing, and the Budget State is what the
threshold computation left. -/
theorem parser_bos_debits_once_witness :
    gsgpu_cs_parser_bos cs_env_moved cs_one_ib parser_ready = some bos_moved_result ∧
    reported_moves bos_moved_result.events = [(4096, 0)] ∧
    (budget_after (reading_full 5) adev_dgpu bos_moved_result.events).mm_stats.accum_us
      = -507 ∧
    gsgpu_cs_parser_bos cs_env_dup_fails cs_one_ib parser_ready = some bos_dup_fails_result ∧
    bos_dup_fails_result.r = -EINVAL ∧
    reported_moves bos_dup_fails_result.events = [] ∧
    budget_after (reading_full 5) adev_dgpu bos_dup_fails_result.events =
      (gsgpu_cs_get_threshold_for_moves adev_dgpu (reading_full 5)).1 :=
  ⟨by decide,
    ((((parser_bos_debits_once cs_env_moved cs_one_ib parser_ready (reading_full 5) adev_dgpu
      bos_moved_result (by decide)).2.2 (by unfold reserve_succeeded; decide)) 1 rfl).2.2.2
        (by decide) (by decide) (by decide)).1,
    (((((parser_bos_debits_once cs_env_moved cs_one_ib parser_ready (reading_full 5) adev_dgpu
      bos_moved_result (by decide)).2.2 (by unfold reserve_succeeded; decide)) 1 rfl).2.2.2
        (by decide) (by decide) (by decide)).2.2.1).trans (by decide),
    by decide,
    ((((parser_bos_debits_once cs_env_dup_fails cs_one_ib parser_ready (reading_full 5) adev_dgpu
      bos_dup_fails_result (by decide)).2.2 (by unfold reserve_succeeded; decide)) 1 rfl).2.1
        (by decide) (by decide)).1,
    ((((parser_bos_debits_once cs_env_dup_fails cs_one_ib parser_ready (reading_full 5) adev_dgpu
      bos_dup_fails_result (by decide)).2.2 (by unfold reserve_succeeded; decide)) 1 rfl).2.1
        (by decide) (by decide)).2.1,
    ((((parser_bos_debits_once cs_env_dup_fails cs_one_ib parser_ready (reading_full 5) adev_dgpu
      bos_dup_fails_result (by decide)).2.2 (by unfold reserve_succeeded; decide)) 1 rfl).2.1
        (by decide) (by decide)).2.2⟩

/-- C15, counterexample to the claim as stated: on a device with `log2_max_MBps = 0` the
submission reports 4096 moved bytes and `accum_us` stays what the threshold computation left,
not lowered by `4096 >> 0`. -/
theorem parser_bos_debit_without_rate :
    gsgpu_cs_parser_bos cs_env_moved cs_one_ib parser_ready = some bos_moved_result ∧
    bos_moved_result.r = 0 ∧
    reported_moves bos_moved_result.events = [(4096, 0)] ∧
    adev_no_rate.mm_stats.log2_max_MBps = 0 ∧
    (budget_after reading_empty adev_no_rate bos_moved_result.events).mm_stats.accum_us =
      (gsgpu_cs_get_threshold_for_moves adev_no_rate reading_empty).1.mm_stats.accum_us ∧
    ¬ ((budget_after reading_empty adev_no_rate bos_moved_result.events).mm_stats.accum_us =
      (gsgpu_cs_get_threshold_for_moves adev_no_rate reading_empty).1.mm_stats.accum_us -
        ((4096 / 2 ^ adev_no_rate.mm_stats.log2_max_MBps : Nat) : Int)) := by
  decide

/-- C16, the failing run: with two SYNCOBJ_OUT chunks of one handle each, both resolving,
`gsgpu_cs_dependencies` returns 0 with `post_dep_syncobjs` holding only the object of the second
chunk, so `gsgpu_cs_post_dependencies` signals object 141 and not object 140, and
`gsgpu_cs_parser_fini` puts only object 141. -/
theorem dependencies_two_out_chunks :
    gsgpu_cs_dependencies consts_la64 dep_env_ok parser_two_out =
      some ⟨0, { parser_two_out with post_dep_syncobjs := [141], num_post_dep_syncobjs := 1 },
        [.drm_syncobj_find 40 (some 140), .drm_syncobj_find 41 (some 141)]⟩ ∧
    requested_out_syncobjs consts_la64 dep_env_ok parser_two_out = [some 140, some 141] ∧
    gsgpu_cs_post_dependencies
      { parser_two_out with post_dep_syncobjs := [141], num_post_dep_syncobjs := 1 } 77 =
      [.drm_syncobj_replace_fence 141 77] ∧
    gsgpu_cs_parser_fini
      { parser_two_out with post_dep_syncobjs := [141], num_post_dep_syncobjs := 1 } 0 true =
      [.drm_syncobj_put 141, .gsgpu_job_free { num_ibs := 1 }] := by
  decide
/-- A record whose context and queue resolve and whose fence is absent does not end the loop. -/
theorem fence_dep_entry_absent (env : DepEnv) (d : drm_gsgpu_cs_chunk_dep) (ctx : Nat)
    (hc : env.gsgpu_ctx_get d.ctx_id = some ctx)
    (hm : (env.gsgpu_queue_mgr_map ctx d.ip_type d.ip_instance d.ring).1 = 0)
    (hf : env.gsgpu_ctx_get_fence ctx
      (env.gsgpu_queue_mgr_map ctx d.ip_type d.ip_instance d.ring).2 d.handle = .null) :
    fence_dep_entry env d = (none, [.gsgpu_ctx_get d.ctx_id (some ctx)]) := by
  unfold fence_dep_entry
  rw [hc]
  simp only []
  rw [if_neg (by simp [hm]), hf]

/-- A record whose context and queue resolve and whose fence is present hands that fence to
`gsgpu_sync_fence`. -/
theorem fence_dep_entry_token (env : DepEnv) (d : drm_gsgpu_cs_chunk_dep) (ctx f : Nat)
    (hc : env.gsgpu_ctx_get d.ctx_id = some ctx)
    (hm : (env.gsgpu_queue_mgr_map ctx d.ip_type d.ip_instance d.ring).1 = 0)
    (hf : env.gsgpu_ctx_get_fence ctx
      (env.gsgpu_queue_mgr_map ctx d.ip_type d.ip_instance d.ring).2 d.handle = .fence f) :
    fence_dep_entry env d =
      (if env.gsgpu_sync_fence f ≠ 0 then some (env.gsgpu_sync_fence f) else none,
        [.gsgpu_ctx_get d.ctx_id (some ctx), .gsgpu_sync_fence f (env.gsgpu_sync_fence f),
          .dma_fence_put f, .gsgpu_ctx_put ctx]) := by
  unfold fence_dep_entry
  rw [hc]
  simp only []
  rw [if_neg (by simp [hm]), hf]

/-- A list of records that all resolve without a fence runs to the end without a call of
`gsgpu_sync_fence`. -/
theorem fence_dep_loop_absent (env : DepEnv) (ds : List drm_gsgpu_cs_chunk_dep)
    (h : ∀ d ∈ ds, ∃ ctx, env.gsgpu_ctx_get d.ctx_id = some ctx ∧
      (env.gsgpu_queue_mgr_map ctx d.ip_type d.ip_instance d.ring).1 = 0 ∧
      env.gsgpu_ctx_get_fence ctx
        (env.gsgpu_queue_mgr_map ctx d.ip_type d.ip_instance d.ring).2 d.handle = .null) :
    (fence_dep_loop env ds).1 = 0 ∧ synced (fence_dep_loop env ds).2 = [] := by
  induction ds with
  | nil => exact ⟨rfl, rfl⟩
  | cons d ds ih =>
    obtain ⟨ctx, hc, hm, hf⟩ := h d (List.mem_cons_self _ _)
    have ih1 := ih (fun e he => h e (List.mem_cons_of_mem _ he))
    unfold fence_dep_loop
    rw [fence_dep_entry_absent env d ctx hc hm hf]
    simp only []
    refine ⟨ih1.1, ?_⟩
    simp only [List.singleton_append, synced]
    exact ih1.2

theorem synced_append (a b : List dep_event) : synced (a ++ b) = synced a ++ synced b := by
  induction a with
  | nil => rfl
  | cons e es ih => cases e <;> simp [synced, ih]

/-- Records that resolve their context and queue and either have no fence or have a fence that
`gsgpu_sync_fence` accepts are passed: the loop goes on with the records after them, having
handed over the fences of these records, in order. -/
theorem fence_dep_loop_tokens (env : DepEnv) (dep : Nat → drm_gsgpu_cs_chunk_dep)
    (tok : Nat → Option Nat) :
    ∀ (idx : List Nat) (rest : List drm_gsgpu_cs_chunk_dep),
      (∀ i ∈ idx, ∃ ctx, env.gsgpu_ctx_get (dep i).ctx_id = some ctx ∧
        (env.gsgpu_queue_mgr_map ctx (dep i).ip_type (dep i).ip_instance (dep i).ring).1 = 0 ∧
        ((tok i = none ∧
            env.gsgpu_ctx_get_fence ctx
              (env.gsgpu_queue_mgr_map ctx (dep i).ip_type (dep i).ip_instance
                (dep i).ring).2 (dep i).handle = .null) ∨
          ∃ f, tok i = some f ∧
            env.gsgpu_ctx_get_fence ctx
              (env.gsgpu_queue_mgr_map ctx (dep i).ip_type (dep i).ip_instance
                (dep i).ring).2 (dep i).handle = .fence f ∧
            env.gsgpu_sync_fence f = 0)) →
      ∃ evp, synced evp = idx.filterMap tok ∧
        fence_dep_loop env (idx.map dep ++ rest) =
          ((fence_dep_loop env rest).1, evp ++ (fence_dep_loop env rest).2) := by
  intro idx
  induction idx with
  | nil =>
    intro rest _
    exact ⟨[], rfl, rfl⟩
  | cons i idx ih =>
    intro rest h
    obtain ⟨evp, h1, h2⟩ := ih rest (fun j hj => h j (List.mem_cons_of_mem _ hj))
    obtain ⟨ctx, hc, hm, hk⟩ := h i (List.mem_cons_self _ _)
    rcases hk with ⟨ht, hf⟩ | ⟨f, ht, hf, hs⟩
    · refine ⟨.gsgpu_ctx_get (dep i).ctx_id (some ctx) :: evp, ?_, ?_⟩
      · rw [List.filterMap_cons_none ht]
        exact h1
      · rw [List.map_cons, List.cons_append, fence_dep_loop,
          fence_dep_entry_absent env (dep i) ctx hc hm hf, h2]
        rfl
    · refine ⟨[.gsgpu_ctx_get (dep i).ctx_id (some ctx),
          .gsgpu_sync_fence f (env.gsgpu_sync_fence f), .dma_fence_put f,
          .gsgpu_ctx_put ctx] ++ evp, ?_, ?_⟩
      · rw [List.filterMap_cons_some ht, synced_append, h1]
        rfl
      · rw [List.map_cons, List.cons_append, fence_dep_loop,
          fence_dep_entry_token env (dep i) ctx f hc hm hf, if_neg (by simp [hs]), h2]
        simp

/-- C17: in `gsgpu_cs_process_fence_dep`, a record whose context and queue resolve and for which
`gsgpu_ctx_get_fence` yields no fence makes no call of `gsgpu_sync_fence` and is no error, and
a record that yields a fence hands exactly that fence to `gsgpu_sync_fence`, once.  For a chunk
whose first `k` records resolve, each with no fence or with a fence that `gsgpu_sync_fence`
accepts, the function hands over the fences of these records in order, skipping the records
without one, before anything else; if these are all the records it returns 0 and has handed
over nothing else, so nothing at all for a chunk whose records all have no fence; if the next
record has a fence that `gsgpu_sync_fence` refuses, it returns that error having handed over
this fence last.  The same is stated of the loop, turn by turn. -/
theorem fence_dep_absent_token (c : Consts) (env : DepEnv) :
    (∀ chunk kdata (tok : Nat → Option Nat) k m, chunk.kdata = some kdata →
      chunk_num_deps chunk c.sizeof_chunk_dep = k + m →
      (∀ i, i < k →
        ∃ ctx, env.gsgpu_ctx_get (env.chunk_dep kdata i).ctx_id = some ctx ∧
          (env.gsgpu_queue_mgr_map ctx (env.chunk_dep kdata i).ip_type
            (env.chunk_dep kdata i).ip_instance (env.chunk_dep kdata i).ring).1 = 0 ∧
          ((tok i = none ∧
              env.gsgpu_ctx_get_fence ctx
                (env.gsgpu_queue_mgr_map ctx (env.chunk_dep kdata i).ip_type
                  (env.chunk_dep kdata i).ip_instance (env.chunk_dep kdata i).ring).2
                (env.chunk_dep kdata i).handle = .null) ∨
            ∃ f, tok i = some f ∧
              env.gsgpu_ctx_get_fence ctx
                (env.gsgpu_queue_mgr_map ctx (env.chunk_dep kdata i).ip_type
                  (env.chunk_dep kdata i).ip_instance (env.chunk_dep kdata i).ring).2
                (env.chunk_dep kdata i).handle = .fence f ∧
              env.gsgpu_sync_fence f = 0)) →
      ∃ r ev, gsgpu_cs_process_fence_dep c env chunk = some (r, ev) ∧
        (List.range k).filterMap tok <+: synced ev ∧
        (m = 0 → r = 0 ∧ synced ev = (List.range k).filterMap tok)) ∧
    (∀ chunk kdata (tok : Nat → Option Nat) k m ctx f, chunk.kdata = some kdata →
      chunk_num_deps chunk c.sizeof_chunk_dep = k + (m + 1) →
      (∀ i, i < k →
        ∃ ctx, env.gsgpu_ctx_get (env.chunk_dep kdata i).ctx_id = some ctx ∧
          (env.gsgpu_queue_mgr_map ctx (env.chunk_dep kdata i).ip_type
            (env.chunk_dep kdata i).ip_instance (env.chunk_dep kdata i).ring).1 = 0 ∧
          ((tok i = none ∧
              env.gsgpu_ctx_get_fence ctx
                (env.gsgpu_queue_mgr_map ctx (env.chunk_dep kdata i).ip_type
                  (env.chunk_dep kdata i).ip_instance (env.chunk_dep kdata i).ring).2
                (env.chunk_dep kdata i).handle = .null) ∨
            ∃ f, tok i = some f ∧
              env.gsgpu_ctx_get_fence ctx
                (env.gsgpu_queue_mgr_map ctx (env.chunk_dep kdata i).ip_type
                  (env.chunk_dep kdata i).ip_instance (env.chunk_dep kdata i).ring).2
                (env.chunk_dep kdata i).handle = .fence f ∧
              env.gsgpu_sync_fence f = 0)) →
      env.gsgpu_ctx_get (env.chunk_dep kdata k).ctx_id = some ctx →
      (env.gsgpu_queue_mgr_map ctx (env.chunk_dep kdata k).ip_type
        (env.chunk_dep kdata k).ip_instance (env.chunk_dep kdata k).ring).1 = 0 →
      env.gsgpu_ctx_get_fence ctx
        (env.gsgpu_queue_mgr_map ctx (env.chunk_dep kdata k).ip_type
          (env.chunk_dep kdata k).ip_instance (env.chunk_dep kdata k).ring).2
        (env.chunk_dep kdata k).handle = .fence f →
      env.gsgpu_sync_fence f ≠ 0 →
      ∃ ev, gsgpu_cs_process_fence_dep c env chunk = some (env.gsgpu_sync_fence f, ev) ∧
        synced ev = (List.range k).filterMap tok ++ [f]) ∧
    (∀ d ds ctx, env.gsgpu_ctx_get d.ctx_id = some ctx →
      (env.gsgpu_queue_mgr_map ctx d.ip_type d.ip_instance d.ring).1 = 0 →
      env.gsgpu_ctx_get_fence ctx
        (env.gsgpu_queue_mgr_map ctx d.ip_type d.ip_instance d.ring).2 d.handle = .null →
      fence_dep_loop env (d :: ds) =
        ((fence_dep_loop env ds).1,
          .gsgpu_ctx_get d.ctx_id (some ctx) :: (fence_dep_loop env ds).2) ∧
      synced (fence_dep_loop env (d :: ds)).2 = synced (fence_dep_loop env ds).2) ∧
    (∀ chunk kdata, chunk.kdata = some kdata →
      (∀ i, i < chunk_num_deps chunk c.sizeof_chunk_dep →
        ∃ ctx, env.gsgpu_ctx_get (env.chunk_dep kdata i).ctx_id = some ctx ∧
          (env.gsgpu_queue_mgr_map ctx (env.chunk_dep kdata i).ip_type
            (env.chunk_dep kdata i).ip_instance (env.chunk_dep kdata i).ring).1 = 0 ∧
          env.gsgpu_ctx_get_fence ctx
            (env.gsgpu_queue_mgr_map ctx (env.chunk_dep kdata i).ip_type
              (env.chunk_dep kdata i).ip_instance (env.chunk_dep kdata i).ring).2
            (env.chunk_dep kdata i).handle = .null) →
      ∃ ev, gsgpu_cs_process_fence_dep c env chunk = some (0, ev) ∧ synced ev = []) ∧
    (∀ d ds ctx f, env.gsgpu_ctx_get d.ctx_id = some ctx →
      (env.gsgpu_queue_mgr_map ctx d.ip_type d.ip_instance d.ring).1 = 0 →
      env.gsgpu_ctx_get_fence ctx
        (env.gsgpu_queue_mgr_map ctx d.ip_type d.ip_instance d.ring).2 d.handle = .fence f →
      synced (fence_dep_entry env d).2 = [f] ∧
      (env.gsgpu_sync_fence f = 0 →
        (fence_dep_loop env (d :: ds)).1 = (fence_dep_loop env ds).1 ∧
        synced (fence_dep_loop env (d :: ds)).2 = f :: synced (fence_dep_loop env ds).2) ∧
      (env.gsgpu_sync_fence f ≠ 0 →
        (fence_dep_loop env (d :: ds)).1 = env.gsgpu_sync_fence f ∧
        synced (fence_dep_loop env (d :: ds)).2 = [f])) := by
  refine ⟨?_, ?_, ?_, ?_, ?_⟩
  · intro chunk kdata tok k m hk hn h
    obtain ⟨evp, h1, h2⟩ := fence_dep_loop_tokens env (env.chunk_dep kdata) tok (List.range k)
      (((List.range m).map (fun x => k + x)).map (env.chunk_dep kdata))
      (fun i hi => h i (List.mem_range.mp hi))
    refine ⟨(fence_dep_loop env
        (((List.range m).map (fun x => k + x)).map (env.chunk_dep kdata))).1,
      evp ++ (fence_dep_loop env
        (((List.range m).map (fun x => k + x)).map (env.chunk_dep kdata))).2, ?_, ?_, ?_⟩
    · unfold gsgpu_cs_process_fence_dep
      rw [hk]
      simp only []
      rw [hn, List.range_add, List.map_append, h2]
    · rw [synced_append, h1]
      exact List.prefix_append _ _
    · intro hm
      subst hm
      refine ⟨rfl, ?_⟩
      rw [synced_append, h1]
      simp [fence_dep_loop, synced]
  · intro chunk kdata tok k m ctx f hk hn h hc hm hf hs
    obtain ⟨evp, h1, h2⟩ := fence_dep_loop_tokens env (env.chunk_dep kdata) tok (List.range k)
      (((List.range (m + 1)).map (fun x => k + x)).map (env.chunk_dep kdata))
      (fun i hi => h i (List.mem_range.mp hi))
    have e := fence_dep_entry_token env (env.chunk_dep kdata k) ctx f hc hm hf
    have hrest : fence_dep_loop env
        (((List.range (m + 1)).map (fun x => k + x)).map (env.chunk_dep kdata)) =
        (env.gsgpu_sync_fence f,
          [.gsgpu_ctx_get (env.chunk_dep kdata k).ctx_id (some ctx),
            .gsgpu_sync_fence f (env.gsgpu_sync_fence f), .dma_fence_put f,
            .gsgpu_ctx_put ctx]) := by
      rw [List.range_succ_eq_map, List.map_cons, List.map_cons, Nat.add_zero, fence_dep_loop,
        e, if_pos hs]
    refine ⟨evp ++ [.gsgpu_ctx_get (env.chunk_dep kdata k).ctx_id (some ctx),
        .gsgpu_sync_fence f (env.gsgpu_sync_fence f), .dma_fence_put f,
        .gsgpu_ctx_put ctx], ?_, ?_⟩
    · unfold gsgpu_cs_process_fence_dep
      rw [hk]
      simp only []
      rw [hn, List.range_add, List.map_append, h2, hrest]
    · rw [synced_append, h1]
      rfl
  · intro d ds ctx hc hm hf
    have e : fence_dep_loop env (d :: ds) =
        ((fence_dep_loop env ds).1,
          .gsgpu_ctx_get d.ctx_id (some ctx) :: (fence_dep_loop env ds).2) := by
      rw [fence_dep_loop, fence_dep_entry_absent env d ctx hc hm hf]
      rfl
    refine ⟨e, ?_⟩
    rw [e]
    rfl
  · intro chunk kdata hk h
    refine ⟨(fence_dep_loop env
      ((List.range (chunk_num_deps chunk c.sizeof_chunk_dep)).map (env.chunk_dep kdata))).2,
      ?_, ?_⟩
    · unfold gsgpu_cs_process_fence_dep
      rw [hk]
      simp only []
      rw [← (fence_dep_loop_absent env _ _).1]
      intro d hd
      obtain ⟨i, hi, rfl⟩ := List.mem_map.mp hd
      exact h i (List.mem_range.mp hi)
    · refine (fence_dep_loop_absent env _ ?_).2
      intro d hd
      obtain ⟨i, hi, rfl⟩ := List.mem_map.mp hd
      exact h i (List.mem_range.mp hi)
  · intro d ds ctx f hc hm hf
    have e := fence_dep_entry_token env d ctx f hc hm hf
    refine ⟨?_, ?_, ?_⟩
    · rw [e]
      rfl
    · intro h0
      rw [fence_dep_loop, e, if_neg (by simp [h0])]
      exact ⟨rfl, rfl⟩
    · intro h0
      rw [fence_dep_loop, e, if_pos h0]
      exact ⟨rfl, rfl⟩

/-- C17, example: of the two records of `chunk_two_deps` the first has no fence and the second
has fence 70, which alone is handed to `gsgpu_sync_fence`; both records of
`chunk_retired_deps` have no fence and the chunk returns 0 without a call. -/
theorem fence_dep_example :
    (gsgpu_cs_process_fence_dep consts_la64 dep_env_ok chunk_two_deps).map
      (fun res => (res.1, synced res.2)) = some (0, [70]) ∧
    (gsgpu_cs_process_fence_dep consts_la64 dep_env_ok chunk_retired_deps).map
      (fun res => (res.1, synced res.2)) = some (0, []) := by
  decide

/-- C17, witness: both records of `chunk_two_deps` resolve their context and queue; the first has
no fence and the second has fence 70, which `gsgpu_sync_fence` accepts: the function returns 0
and has handed over fence 70 and nothing else.  Both records of `chunk_retired_deps` have no
fence: the function returns 0 and has handed over nothing. -/
theorem fence_dep_absent_token_witness :
    chunk_two_deps.kdata = some [0, 0, 0, 1, 100, 0, 0, 0, 0, 1, 10, 0] ∧
    chunk_num_deps chunk_two_deps consts_la64.sizeof_chunk_dep = 2 + 0 ∧
    (gsgpu_cs_process_fence_dep consts_la64 dep_env_ok chunk_two_deps).map
      (fun res => (res.1, synced res.2)) = some (0, [70]) ∧
    (gsgpu_cs_process_fence_dep consts_la64 dep_env_ok chunk_retired_deps).map
      (fun res => (res.1, synced res.2)) = some (0, []) := by
  refine ⟨rfl, rfl, ?_, ?_⟩
  · obtain ⟨r, ev, h1, _, h3⟩ := (fence_dep_absent_token consts_la64 dep_env_ok).1
      chunk_two_deps [0, 0, 0, 1, 100, 0, 0, 0, 0, 1, 10, 0]
      (fun i => if i = 1 then some 70 else none) 2 0 rfl rfl (by
        intro i hi
        interval_cases i
        · exact ⟨201, rfl, rfl, Or.inl ⟨rfl, rfl⟩⟩
        · exact ⟨201, rfl, rfl, Or.inr ⟨70, rfl, rfl, rfl⟩⟩)
    obtain ⟨h4, h5⟩ := h3 rfl
    rw [h1, Option.map_some', h4, h5]
    rfl
  · obtain ⟨ev, h1, h2⟩ := (fence_dep_absent_token consts_la64 dep_env_ok).2.2.2.1
      chunk_retired_deps [0, 0, 0, 1, 100, 0, 0, 0, 0, 1, 101, 0] rfl (by
        intro i hi
        have hi2 : i < 2 := hi
        refine ⟨_, rfl, rfl, ?_⟩
        interval_cases i <;> rfl)
    rw [h1, Option.map_some', h2]

theorem syncobj_out_loop_spec (env : DepEnv) (hs : List Nat) (p : gsgpu_cs_parser_t)
    (h : (syncobj_out_loop env hs p).r = 0) :
    (syncobj_out_loop env hs p).p.post_dep_syncobjs.map some =
      p.post_dep_syncobjs.map some ++ hs.map env.drm_syncobj_find ∧
    (syncobj_out_loop env hs p).p.num_post_dep_syncobjs =
      p.num_post_dep_syncobjs + hs.length := by
  induction hs generalizing p with
  | nil => simp [syncobj_out_loop]
  | cons x xs ih =>
    unfold syncobj_out_loop at h ⊢
    cases hf : env.drm_syncobj_find x with
    | none =>
      rw [hf] at h
      simp [EINVAL] at h
    | some s =>
      rw [hf] at h
      simp only [] at h ⊢
      obtain ⟨i1, i2⟩ := ih _ h
      refine ⟨?_, ?_⟩
      · rw [i1]
        simp [hf]
      · rw [i2]
        simp only [List.length_cons]
        omega

/-- One SYNCOBJ_OUT chunk: when `gsgpu_cs_process_syncobj_out_dep` returns 0, the post-dependency
list holds the sync object of every record of this chunk, in order, and nothing else, whatever
it held before. -/
theorem syncobj_out_dep_records (c : Consts) (env : DepEnv) (p : gsgpu_cs_parser_t)
    (chunk : gsgpu_cs_chunk) (res : dep_result)
    (h : gsgpu_cs_process_syncobj_out_dep c env p chunk = some res) (hr : res.r = 0) :
    res.p.post_dep_syncobjs.map some =
      (List.range (chunk_num_deps chunk c.sizeof_chunk_sem)).map
        (fun i => env.drm_syncobj_find (env.chunk_sem (chunk.kdata.getD []) i)) ∧
    res.p.num_post_dep_syncobjs = chunk_num_deps chunk c.sizeof_chunk_sem := by
  unfold gsgpu_cs_process_syncobj_out_dep at h
  simp only [] at h
  by_cases hk : (!env.kmalloc_post_dep_syncobjs (chunk_num_deps chunk c.sizeof_chunk_sem)) = true
  · rw [if_pos hk] at h
    cases h
    simp [ENOMEM] at hr
  · rw [if_neg hk] at h
    cases hd : chunk.kdata with
    | none =>
      rw [hd] at h
      simp only [] at h
      by_cases hn : chunk_num_deps chunk c.sizeof_chunk_sem = 0
      · rw [if_pos hn] at h
        cases h
        rw [hn]
        exact ⟨rfl, rfl⟩
      · rw [if_neg hn] at h
        cases h
    | some kdata =>
      rw [hd] at h
      simp only [Option.some.injEq] at h
      subst h
      obtain ⟨i1, i2⟩ := syncobj_out_loop_spec env _ _ hr
      refine ⟨?_, ?_⟩
      · rw [i1]
        simp [List.map_map, Function.comp]
      · rw [i2]
        simp

theorem wait_any_prepare_live (env : WaitEnv) (fences : List drm_gsgpu_fence) :
    ∀ (fs : List Nat) (i : Nat) (array : List (Option Nat)),
      fences.map (gsgpu_cs_get_fence env.dep) = fs.map fence_ptr.fence →
      wait_any_prepare env fences i array = .filled (array ++ fs.map some) := by
  induction fences with
  | nil =>
    intro fs i array h
    cases fs with
    | nil => simp [wait_any_prepare]
    | cons f fs => simp at h
  | cons u us ih =>
    intro fs i array h
    cases fs with
    | nil => simp at h
    | cons f fs =>
      simp only [List.map_cons, List.cons.injEq] at h
      rw [wait_any_prepare, h.1]
      simp only []
      rw [ih fs (i + 1) (array ++ [some f]) h.2]
      simp

theorem wait_any_prepare_retired (env : WaitEnv) (pre : List drm_gsgpu_fence) :
    ∀ (fs : List Nat) (u : drm_gsgpu_fence) (post : List drm_gsgpu_fence) (i : Nat)
      (array : List (Option Nat)),
      pre.map (gsgpu_cs_get_fence env.dep) = fs.map fence_ptr.fence →
      gsgpu_cs_get_fence env.dep u = .null →
      wait_any_prepare env (pre ++ u :: post) i array =
        .retired (i + pre.length)
          (array ++ fs.map some ++ List.replicate (post.length + 1) none) := by
  induction pre with
  | nil =>
    intro fs u post i array h hu
    cases fs with
    | nil =>
      rw [List.nil_append, wait_any_prepare, hu]
      simp
    | cons f fs => simp at h
  | cons v vs ih =>
    intro fs u post i array h hu
    cases fs with
    | nil => simp at h
    | cons f fs =>
      simp only [List.map_cons, List.cons.injEq] at h
      rw [List.cons_append, wait_any_prepare, h.1]
      simp only []
      rw [ih fs u post (i + 1) (array ++ [some f]) h.2 hu]
      simp only [List.length_cons, List.map_cons, List.append_assoc, List.singleton_append]
      congr 1
      omega

theorem wait_any_prepare_err (env : WaitEnv) (pre : List drm_gsgpu_fence) :
    ∀ (fs : List Nat) (u : drm_gsgpu_fence) (post : List drm_gsgpu_fence) (i : Nat)
      (array : List (Option Nat)) (e : Int),
      pre.map (gsgpu_cs_get_fence env.dep) = fs.map fence_ptr.fence →
      gsgpu_cs_get_fence env.dep u = .err e →
      wait_any_prepare env (pre ++ u :: post) i array =
        .err e (array ++ fs.map some ++ List.replicate (post.length + 1) none) := by
  induction pre with
  | nil =>
    intro fs u post i array e h hu
    cases fs with
    | nil =>
      rw [List.nil_append, wait_any_prepare, hu]
      simp
    | cons f fs => simp at h
  | cons v vs ih =>
    intro fs u post i array e h hu
    cases fs with
    | nil => simp at h
    | cons f fs =>
      simp only [List.map_cons, List.cons.injEq] at h
      rw [List.cons_append, wait_any_prepare, h.1]
      simp only []
      rw [ih fs u post (i + 1) (array ++ [some f]) e h.2 hu]
      simp only [List.map_cons, List.append_assoc, List.singleton_append]

theorem waited_any_puts (array : List (Option Nat)) :
    waited_any (array.map wait_event.dma_fence_put) = false := by
  induction array with
  | nil => rfl
  | cons a as ih => simpa [waited_any] using ih

theorem getD_map_some (fs : List Nat) :
    ∀ n, n < fs.length → (fs.map some).getD n none = some (fs.getD n 0) := by
  induction fs with
  | nil =>
    intro n h
    simp at h
  | cons f fs ih =>
    intro n h
    cases n with
    | zero => rfl
    | succ n =>
      simp only [List.map_cons, List.getD_cons_succ]
      exact ih n (by simpa using h)

theorem getD_live_retired (fs : List Nat) (n : Nat) :
    (fs.map some ++ List.replicate (n + 1) none).getD fs.length none = none := by
  induction fs with
  | nil => rfl
  | cons f fs ih => simpa using ih

/-- C18 (as amended): provided the fence array is allocated, for every fence list in which the
entry with index `k` has no fence (already retired) and every entry before it resolves to a
fence, `gsgpu_cs_wait_any_fence` returns 0 with `status = 1` and `first_signaled = k` without
calling `dma_fence_wait_any_timeout`; if instead that entry fails to resolve, its error is
returned, nothing is written and nothing is waited for.  When every entry resolves to a fence
and `dma_fence_wait_any_timeout` returns `r ≥ 0`, `status` is `r > 0`, `first_signaled` is the
index the primitive stored (`~0` when it stored none) and the return value is the error
carried by the fence at that index, or 0 when that index lies outside the list; when the
primitive returns `r < 0`, that value is returned and nothing is written.  When the array is
not allocated the function returns `-ENOMEM` and writes nothing. -/
theorem wait_any_contract (env : WaitEnv) (pre post : List drm_gsgpu_fence)
    (u : drm_gsgpu_fence) (fs : List Nat)
    (hlive : pre.map (gsgpu_cs_get_fence env.dep) = fs.map fence_ptr.fence) :
    (env.kcalloc_array = false →
      gsgpu_cs_wait_any_fence env (pre ++ u :: post) = ⟨-ENOMEM, none, []⟩ ∧
      gsgpu_cs_wait_any_fence env pre = ⟨-ENOMEM, none, []⟩) ∧
    (env.kcalloc_array = true →
      (gsgpu_cs_get_fence env.dep u = .null →
        (gsgpu_cs_wait_any_fence env (pre ++ u :: post)).r = 0 ∧
        (gsgpu_cs_wait_any_fence env (pre ++ u :: post)).out = some ⟨1, pre.length⟩ ∧
        waited_any (gsgpu_cs_wait_any_fence env (pre ++ u :: post)).events = false) ∧
      (∀ e, gsgpu_cs_get_fence env.dep u = .err e →
        (gsgpu_cs_wait_any_fence env (pre ++ u :: post)).r = s32 e ∧
        (gsgpu_cs_wait_any_fence env (pre ++ u :: post)).out = none ∧
        waited_any (gsgpu_cs_wait_any_fence env (pre ++ u :: post)).events = false) ∧
      (0 ≤ (env.dma_fence_wait_any_timeout (fs.map some)).1 →
        (gsgpu_cs_wait_any_fence env pre).out =
          some ⟨if (env.dma_fence_wait_any_timeout (fs.map some)).1 > 0 then 1 else 0,
            (env.dma_fence_wait_any_timeout (fs.map some)).2.getD (2 ^ 32 - 1) % 2 ^ 32⟩ ∧
        (gsgpu_cs_wait_any_fence env pre).r =
          (if (env.dma_fence_wait_any_timeout (fs.map some)).2.getD (2 ^ 32 - 1) % 2 ^ 32
              < pre.length then
            env.fence_error
              (fs.getD
                ((env.dma_fence_wait_any_timeout (fs.map some)).2.getD (2 ^ 32 - 1) % 2 ^ 32) 0)
          else 0)) ∧
      ((env.dma_fence_wait_any_timeout (fs.map some)).1 < 0 →
        (gsgpu_cs_wait_any_fence env pre).r =
          s32 (env.dma_fence_wait_any_timeout (fs.map some)).1 ∧
        (gsgpu_cs_wait_any_fence env pre).out = none)) := by
  have hlen : pre.length = fs.length := by
    have := congrArg List.length hlive
    simpa using this
  refine ⟨?_, ?_⟩
  · intro hk
    simp [gsgpu_cs_wait_any_fence, hk]
  · intro hk
    have hk2 : ¬ ((!env.kcalloc_array) = true) := by simp [hk]
    refine ⟨?_, ?_, ?_, ?_⟩
    · intro hu
      unfold gsgpu_cs_wait_any_fence
      rw [if_neg hk2, wait_any_prepare_retired env pre fs u post 0 [] hlive hu]
      simp only [wait_any_out, List.nil_append, Nat.zero_add]
      refine ⟨?_, ?_, waited_any_puts _⟩
      · rw [hlen, getD_live_retired]
        simp
      · simp
    · intro e hu
      unfold gsgpu_cs_wait_any_fence
      rw [if_neg hk2, wait_any_prepare_err env pre fs u post 0 [] e hlive hu]
      exact ⟨rfl, rfl, waited_any_puts _⟩
    · intro hw
      unfold gsgpu_cs_wait_any_fence
      rw [if_neg hk2, wait_any_prepare_live env pre fs 0 [] hlive]
      simp only [List.nil_append]
      rw [if_neg (by omega)]
      simp only [wait_any_out]
      refine ⟨trivial, ?_⟩
      by_cases hf : (env.dma_fence_wait_any_timeout (fs.map some)).2.getD (2 ^ 32 - 1) % 2 ^ 32
          < pre.length
      · rw [if_pos hf, if_pos hf, getD_map_some fs _ (by omega)]
      · rw [if_neg hf, if_neg hf]
    · intro hw
      unfold gsgpu_cs_wait_any_fence
      rw [if_neg hk2, wait_any_prepare_live env pre fs 0 [] hlive]
      simp only [List.nil_append]
      rw [if_pos hw]
      exact ⟨rfl, rfl⟩

/-- C18, witness: the entries for the sequence numbers 10 and 11 resolve to the fences 70 and
71; with entry 100, retired, after them the function returns 0 with `status = 1` and
`first_signaled = 2`; on the two of them alone, the primitive reporting index 1 signalled, it
returns the error of fence 71. -/
theorem wait_any_contract_witness :
    [fence_entry 10, fence_entry 11].map (gsgpu_cs_get_fence wait_env_signaled.dep) =
      [70, 71].map fence_ptr.fence ∧
    (gsgpu_cs_wait_any_fence wait_env_signaled
      ([fence_entry 10, fence_entry 11] ++ fence_entry 100 :: [fence_entry 12])).out =
        some ⟨1, 2⟩ ∧
    (gsgpu_cs_wait_any_fence wait_env_signaled [fence_entry 10, fence_entry 11]).out =
      some ⟨1, 1⟩ ∧
    (gsgpu_cs_wait_any_fence wait_env_signaled [fence_entry 10, fence_entry 11]).r =
      -ECANCELED :=
  ⟨by decide,
    (((wait_any_contract wait_env_signaled [fence_entry 10, fence_entry 11] [fence_entry 12]
      (fence_entry 100) [70, 71] (by decide)).2 rfl).1 (by decide)).2.1,
    ((((wait_any_contract wait_env_signaled [fence_entry 10, fence_entry 11] [fence_entry 12]
      (fence_entry 100) [70, 71] (by decide)).2 rfl).2.2.1) (by decide)).1,
    ((((wait_any_contract wait_env_signaled [fence_entry 10, fence_entry 11] [fence_entry 12]
      (fence_entry 100) [70, 71] (by decide)).2 rfl).2.2.1) (by decide)).2⟩

/-- C18, counterexample to the claim as stated: no entry is retired, the one entry resolves to
fence 70, and `dma_fence_wait_any_timeout` is interrupted; the function returns
`-ERESTARTSYS`, not the error of a fence (fence 70 carries none), and writes neither `status`
nor `first_signaled`.  And with the entry with index 0 retired but the array not allocated it
returns `-ENOMEM` without writing. -/
theorem wait_any_interrupted :
    gsgpu_cs_get_fence wait_env_interrupted.dep (fence_entry 10) = .fence 70 ∧
    wait_env_interrupted.fence_error 70 = 0 ∧
    gsgpu_cs_wait_any_fence wait_env_interrupted [fence_entry 10] =
      ⟨-ERESTARTSYS, none,
        [.dma_fence_wait_any_timeout [some 70], .dma_fence_put (some 70)]⟩ ∧
    gsgpu_cs_get_fence wait_env_no_array.dep (fence_entry 100) = .null ∧
    gsgpu_cs_wait_any_fence wait_env_no_array [fence_entry 100] = ⟨-ENOMEM, none, []⟩ := by
  decide

theorem wait_all_loop_cons (env : WaitEnv) (u : drm_gsgpu_fence) (us : List drm_gsgpu_fence)
    (i : Nat) (r : Int) :
    (∀ e, gsgpu_cs_get_fence env.dep u = .err e →
      wait_all_loop env (u :: us) i r = ⟨s32 e, none, []⟩) ∧
    (gsgpu_cs_get_fence env.dep u = .null →
      wait_all_loop env (u :: us) i r = wait_all_loop env us (i + 1) r) ∧
    (∀ f, gsgpu_cs_get_fence env.dep u = .fence f →
      (env.dma_fence_wait_timeout i f < 0 →
        wait_all_loop env (u :: us) i r =
          ⟨s32 (env.dma_fence_wait_timeout i f), none,
            [.dma_fence_wait_timeout i f, .dma_fence_put (some f)]⟩) ∧
      (env.dma_fence_wait_timeout i f = 0 →
        wait_all_loop env (u :: us) i r =
          ⟨0, some ⟨0, 0⟩, [.dma_fence_wait_timeout i f, .dma_fence_put (some f)]⟩) ∧
      (0 < env.dma_fence_wait_timeout i f → env.fence_error f ≠ 0 →
        wait_all_loop env (u :: us) i r =
          ⟨env.fence_error f, none,
            [.dma_fence_wait_timeout i f, .dma_fence_put (some f)]⟩) ∧
      (0 < env.dma_fence_wait_timeout i f → env.fence_error f = 0 →
        wait_all_loop env (u :: us) i r =
          ⟨(wait_all_loop env us (i + 1) (env.dma_fence_wait_timeout i f)).r,
            (wait_all_loop env us (i + 1) (env.dma_fence_wait_timeout i f)).out,
            [.dma_fence_wait_timeout i f, .dma_fence_put (some f)] ++
              (wait_all_loop env us (i + 1) (env.dma_fence_wait_timeout i f)).events⟩)) := by
  refine ⟨?_, ?_, ?_⟩
  · intro e h
    rw [wait_all_loop, h]
  · intro h
    rw [wait_all_loop, h]
  · intro f h
    refine ⟨?_, ?_, ?_, ?_⟩
    · intro h1
      rw [wait_all_loop, h]
      simp only []
      rw [if_pos h1]
    · intro h1
      rw [wait_all_loop, h]
      simp only []
      rw [if_neg (by omega), if_pos h1]
    · intro h1 h2
      rw [wait_all_loop, h]
      simp only []
      rw [if_neg (by omega), if_neg (by omega), if_pos h2]
    · intro h1 h2
      rw [wait_all_loop, h]
      simp only []
      rw [if_neg (by omega), if_neg (by omega), if_neg (by simp [h2])]

theorem wait_all_loop_status (env : WaitEnv) (us : List drm_gsgpu_fence) :
    ∀ (i : Nat) (r : Int), 0 < r →
      (((wait_all_loop env us i r).r = 0 ∧ (wait_all_loop env us i r).out = some ⟨1, 0⟩) ↔
        wait_all_signaled env us i = true) := by
  induction us with
  | nil =>
    intro i r hr
    simp [wait_all_loop, wait_all_signaled, hr]
  | cons u us ih =>
    intro i r hr
    obtain ⟨c1, c2, c3⟩ := wait_all_loop_cons env u us i r
    cases hg : gsgpu_cs_get_fence env.dep u with
    | err e =>
      rw [c1 e hg]
      simp [wait_all_signaled, wait_entry_signaled, hg]
    | null =>
      rw [c2 hg, ih (i + 1) r hr]
      simp [wait_all_signaled, wait_entry_signaled, hg]
    | fence f =>
      obtain ⟨d1, d2, d3, d4⟩ := c3 f hg
      rcases lt_trichotomy (env.dma_fence_wait_timeout i f) 0 with h1 | h1 | h1
      · rw [d1 h1]
        simp [wait_all_signaled, wait_entry_signaled, hg]
        intro h
        omega
      · rw [d2 h1]
        simp [wait_all_signaled, wait_entry_signaled, hg, h1]
      · by_cases h2 : env.fence_error f = 0
        · rw [d4 h1 h2]
          simp only []
          rw [ih (i + 1) _ h1]
          simp [wait_all_signaled, wait_entry_signaled, hg, h1, h2]
        · rw [d3 h1 h2]
          simp [wait_all_signaled, wait_entry_signaled, hg, h2]

theorem wait_indices_append (a b : List wait_event) :
    wait_indices (a ++ b) = wait_indices a ++ wait_indices b := by
  induction a with
  | nil => rfl
  | cons e es ih => cases e <;> simp [wait_indices, ih]

/-- The waits of `wait_all_loop` are made in list order, each entry at most once. -/
theorem wait_all_loop_order (env : WaitEnv) (us : List drm_gsgpu_fence) :
    ∀ (i : Nat) (r : Int),
      (∀ j ∈ wait_indices (wait_all_loop env us i r).events, i ≤ j ∧ j < i + us.length) ∧
      (wait_indices (wait_all_loop env us i r).events).Pairwise (fun a b => a < b) := by
  induction us with
  | nil =>
    intro i r
    simp [wait_all_loop, wait_indices]
  | cons u us ih =>
    intro i r
    obtain ⟨c1, c2, c3⟩ := wait_all_loop_cons env u us i r
    cases hg : gsgpu_cs_get_fence env.dep u with
    | err e =>
      rw [c1 e hg]
      simp [wait_indices]
    | null =>
      rw [c2 hg]
      obtain ⟨i1, i2⟩ := ih (i + 1) r
      refine ⟨?_, i2⟩
      intro j hj
      have := i1 j hj
      simp only [List.length_cons]
      omega
    | fence f =>
      obtain ⟨d1, d2, d3, d4⟩ := c3 f hg
      rcases lt_trichotomy (env.dma_fence_wait_timeout i f) 0 with h1 | h1 | h1
      · rw [d1 h1]
        simp [wait_indices]
      · rw [d2 h1]
        simp [wait_indices]
      · by_cases h2 : env.fence_error f = 0
        · rw [d4 h1 h2]
          obtain ⟨i1, i2⟩ := ih (i + 1) (env.dma_fence_wait_timeout i f)
          simp only [wait_indices_append, wait_indices, List.nil_append, List.cons_append,
            List.mem_cons, List.pairwise_cons, List.length_cons]
          refine ⟨?_, ?_, i2⟩
          · rintro j (rfl | hj)
            · omega
            · have := i1 j hj
              omega
          · intro j hj
            have := i1 j hj
            omega
        · rw [d3 h1 h2]
          simp [wait_indices]

/-- A prefix of signalled entries is passed: the loop goes on with the entries after it, having
waited only for entries of the prefix. -/
theorem wait_all_loop_prefix (env : WaitEnv) (pre : List drm_gsgpu_fence) :
    ∀ (rest : List drm_gsgpu_fence) (i : Nat) (r : Int), 0 < r →
      wait_all_signaled env pre i = true →
      ∃ ev r1, 0 < r1 ∧ (∀ j ∈ wait_indices ev, j < i + pre.length) ∧
        wait_all_loop env (pre ++ rest) i r =
          ⟨(wait_all_loop env rest (i + pre.length) r1).r,
            (wait_all_loop env rest (i + pre.length) r1).out,
            ev ++ (wait_all_loop env rest (i + pre.length) r1).events⟩ := by
  induction pre with
  | nil =>
    intro rest i r hr _
    exact ⟨[], r, hr, by simp [wait_indices], by simp⟩
  | cons u us ih =>
    intro rest i r hr hs
    obtain ⟨c1, c2, c3⟩ := wait_all_loop_cons env u (us ++ rest) i r
    simp only [wait_all_signaled, Bool.and_eq_true] at hs
    obtain ⟨hs1, hs2⟩ := hs
    unfold wait_entry_signaled at hs1
    cases hg : gsgpu_cs_get_fence env.dep u with
    | err e =>
      rw [hg] at hs1
      simp at hs1
    | null =>
      obtain ⟨ev, r1, h1, h2, h3⟩ := ih rest (i + 1) r hr hs2
      refine ⟨ev, r1, h1, ?_, ?_⟩
      · intro j hj
        have := h2 j hj
        simp only [List.length_cons]
        omega
      · rw [List.cons_append, c2 hg, h3]
        simp only [List.length_cons]
        rw [show i + 1 + us.length = i + (us.length + 1) by omega]
    | fence f =>
      rw [hg] at hs1
      simp only [Bool.and_eq_true, decide_eq_true_eq] at hs1
      obtain ⟨ev, r1, h1, h2, h3⟩ := ih rest (i + 1) (env.dma_fence_wait_timeout i f) hs1.1 hs2
      refine ⟨[.dma_fence_wait_timeout i f, .dma_fence_put (some f)] ++ ev, r1, h1, ?_, ?_⟩
      · intro j hj
        simp only [wait_indices_append, wait_indices, List.nil_append, List.cons_append,
          List.mem_cons] at hj
        simp only [List.length_cons]
        rcases hj with rfl | hj
        · omega
        · have := h2 j hj
          omega
      · rw [List.cons_append, (c3 f hg).2.2.2 hs1.1 hs1.2, h3]
        simp only [List.length_cons]
        rw [show i + 1 + us.length = i + (us.length + 1) by omega]
        simp

/-- C19: `gsgpu_cs_wait_all_fences` waits in list order, each entry at most once.  It returns 0
with `status = 1` exactly when every entry either was already retired or signalled within the
timeout without error (so for the empty list).  When the entries before one entry are of that
kind and the wait for that entry times out, it returns 0 with `status = 0` and has waited for no
later entry.  When instead that entry fails to resolve, or its wait is interrupted, or its
fence signalled and carries an error, that error is returned and `wait` is left unwritten. -/
theorem wait_all_contract (env : WaitEnv) (fences : List drm_gsgpu_fence) :
    (wait_indices (gsgpu_cs_wait_all_fences env fences).events).Pairwise (fun a b => a < b) ∧
    (((gsgpu_cs_wait_all_fences env fences).r = 0 ∧
        (gsgpu_cs_wait_all_fences env fences).out = some ⟨1, 0⟩) ↔
      wait_all_signaled env fences 0 = true) ∧
    gsgpu_cs_wait_all_fences env [] = ⟨0, some ⟨1, 0⟩, []⟩ ∧
    (∀ pre u post, fences = pre ++ u :: post → wait_all_signaled env pre 0 = true →
      (∀ f, gsgpu_cs_get_fence env.dep u = .fence f →
        env.dma_fence_wait_timeout pre.length f = 0 →
        (gsgpu_cs_wait_all_fences env fences).r = 0 ∧
        (gsgpu_cs_wait_all_fences env fences).out = some ⟨0, 0⟩ ∧
        ∀ j ∈ wait_indices (gsgpu_cs_wait_all_fences env fences).events, j ≤ pre.length) ∧
      (∀ e, gsgpu_cs_get_fence env.dep u = .err e →
        (gsgpu_cs_wait_all_fences env fences).r = s32 e ∧
        (gsgpu_cs_wait_all_fences env fences).out = none) ∧
      (∀ f, gsgpu_cs_get_fence env.dep u = .fence f →
        env.dma_fence_wait_timeout pre.length f < 0 →
        (gsgpu_cs_wait_all_fences env fences).r = s32 (env.dma_fence_wait_timeout pre.length f) ∧
        (gsgpu_cs_wait_all_fences env fences).out = none) ∧
      (∀ f, gsgpu_cs_get_fence env.dep u = .fence f →
        0 < env.dma_fence_wait_timeout pre.length f → env.fence_error f ≠ 0 →
        (gsgpu_cs_wait_all_fences env fences).r = env.fence_error f ∧
        (gsgpu_cs_wait_all_fences env fences).out = none)) := by
  refine ⟨(wait_all_loop_order env fences 0 1).2,
    wait_all_loop_status env fences 0 1 (by norm_num), rfl, ?_⟩
  intro pre u post hf hs
  subst hf
  obtain ⟨ev, r1, h1, h2, h3⟩ := wait_all_loop_prefix env pre (u :: post) 0 1 (by norm_num) hs
  rw [Nat.zero_add] at h2 h3
  obtain ⟨c1, c2, c3⟩ := wait_all_loop_cons env u post pre.length r1
  unfold gsgpu_cs_wait_all_fences
  rw [h3]
  refine ⟨?_, ?_, ?_, ?_⟩
  · intro f hg hw
    rw [(c3 f hg).2.1 hw]
    refine ⟨rfl, rfl, ?_⟩
    intro j hj
    simp only [wait_indices_append, wait_indices, List.mem_append, List.mem_cons,
      List.mem_singleton] at hj
    rcases hj with hj | hj
    · exact le_of_lt (h2 j hj)
    · simp at hj
      omega
  · intro e hg
    rw [c1 e hg]
    exact ⟨rfl, rfl⟩
  · intro f hg hw
    rw [(c3 f hg).1 hw]
    exact ⟨rfl, rfl⟩
  · intro f hg hw he
    rw [(c3 f hg).2.2.1 hw he]
    exact ⟨rfl, rfl⟩

/-- C19, example: of the entries for the sequence numbers 100 (retired), 10 (fence 70, which
signals) and 11 (fence 71, whose wait times out), the first two give `status = 1`; with the
third the function returns 0 with `status = 0` and has not waited for the fourth entry. -/
theorem wait_all_example :
    gsgpu_cs_wait_all_fences wait_env_interrupted [fence_entry 100, fence_entry 10] =
      ⟨0, some ⟨1, 0⟩, [.dma_fence_wait_timeout 1 70, .dma_fence_put (some 70)]⟩ ∧
    gsgpu_cs_wait_all_fences wait_env_interrupted
      [fence_entry 100, fence_entry 10, fence_entry 11, fence_entry 12] =
      ⟨0, some ⟨0, 0⟩, [.dma_fence_wait_timeout 1 70, .dma_fence_put (some 70),
        .dma_fence_wait_timeout 2 71, .dma_fence_put (some 71)]⟩ := by
  decide

/-- C19, witness: the list of `wait_all_example`, split after its second entry. -/
theorem wait_all_contract_witness :
    wait_all_signaled wait_env_interrupted [fence_entry 100, fence_entry 10] 0 = true ∧
    gsgpu_cs_get_fence wait_env_interrupted.dep (fence_entry 11) = .fence 71 ∧
    (gsgpu_cs_wait_all_fences wait_env_interrupted
      [fence_entry 100, fence_entry 10, fence_entry 11, fence_entry 12]).out = some ⟨0, 0⟩ :=
  ⟨by decide, by decide,
    ((((wait_all_contract wait_env_interrupted
      [fence_entry 100, fence_entry 10, fence_entry 11, fence_entry 12]).2.2.2
        [fence_entry 100, fence_entry 10] (fence_entry 11) [fence_entry 12] rfl
        (by decide)).1 71 (by decide) (by decide)).2.1)⟩

/-! ### The eviction retry loop -/

/-- A residence within `a & ~d` shares no domain with `d`. -/
theorem land_and_not32 (m a d : Nat) (h : m &&& and_not32 a d = m) : m &&& d = 0 := by
  apply Nat.eq_of_testBit_eq
  intro i
  have hi := congrArg (fun x => x.testBit i) h
  simp only [and_not32, Nat.testBit_and, Nat.testBit_xor, Nat.testBit_mod_two_pow,
    Nat.testBit_two_pow_sub_one] at hi
  simp only [Nat.testBit_and, Nat.zero_testBit]
  cases hm : m.testBit i <;> cases hd : d.testBit i <;> simp_all

theorem perm_cons_eraseIdx (l : List Nat) :
    ∀ (n : Nat) (c : Nat), l.get? n = some c → (c :: l.eraseIdx n).Perm l := by
  induction l with
  | nil =>
    intro n c h
    simp at h
  | cons x xs ih =>
    intro n c h
    cases n with
    | zero =>
      simp at h
      subst h
      simp
    | succ n =>
      simp only [List.get?_cons_succ] at h
      simp only [List.eraseIdx_cons_succ]
      exact (List.Perm.swap x c _).trans ((ih n c h).cons x)

theorem countP_lt_countP (l : List Nat) (P Q : Nat → Bool)
    (h : ∀ x ∈ l, P x = true → Q x = true) (c : Nat) (hc : c ∈ l) (hQ : Q c = true)
    (hP : P c = false) : l.countP P < l.countP Q := by
  induction l with
  | nil => simp at hc
  | cons x xs ih =>
    have hle : xs.countP P ≤ xs.countP Q :=
      List.countP_mono_left (fun y hy => h y (List.mem_cons_of_mem _ hy))
    rcases List.mem_cons.mp hc with rfl | hc1
    · rw [List.countP_cons_of_neg _ _ (by simp [hP]), List.countP_cons_of_pos _ _ hQ]
      omega
    · have := ih (fun y hy => h y (List.mem_cons_of_mem _ hy)) hc1
      by_cases hx : P x = true
      · rw [List.countP_cons_of_pos _ _ hx,
          List.countP_cons_of_pos _ _ (h x (List.mem_cons_self _ _) hx)]
        omega
      · rw [List.countP_cons_of_neg _ _ hx]
        by_cases hq : Q x = true
        · rw [List.countP_cons_of_pos _ _ hq]
          omega
        · rw [List.countP_cons_of_neg _ _ hq]
          exact this

theorem bo_validate_account_frame {W : Type} (E : PlaceEnv W) (bo : Nat)
    (p : gsgpu_cs_parser_t) (res : Int × Nat × W) :
    (bo_validate_account E bo p res).validated = p.validated ∧
    (bo_validate_account E bo p res).evictable = p.evictable := by
  unfold bo_validate_account
  simp only []
  split_ifs <;> exact ⟨rfl, rfl⟩

/-- `gsgpu_cs_bo_validate` leaves the validated list and the cursor alone, and under
`placement_local` the residence of every other resource. -/
theorem bo_validate_keeps {W : Type} (E : PlaceEnv W) (hl : placement_local E)
    (p : gsgpu_cs_parser_t) (w : W) (bo : Nat) :
    (gsgpu_cs_bo_validate E p w bo).p.validated = p.validated ∧
    (gsgpu_cs_bo_validate E p w bo).p.evictable = p.evictable ∧
    ∀ x, x ≠ bo →
      E.mem_type_domain (gsgpu_cs_bo_validate E p w bo).w x = E.mem_type_domain w x := by
  by_cases hpin : (E.bo bo).pin_count ≠ 0
  · unfold gsgpu_cs_bo_validate
    rw [if_pos hpin]
    exact ⟨rfl, rfl, fun _ _ => rfl⟩
  · have hpin0 : (E.bo bo).pin_count = 0 := by simpa using hpin
    by_cases h : (E.ttm_bo_validate w bo (bo_validate_domain E p bo) 0).1 = -ENOMEM ∧
        bo_validate_domain E p bo ≠ (E.bo bo).allowed_domains
    · rw [bo_validate_unpinned_twice E p w bo hpin0 h]
      simp only []
      refine ⟨?_, ?_, ?_⟩
      · rw [(bo_validate_account_frame E bo _ _).1, (bo_validate_account_frame E bo _ _).1]
      · rw [(bo_validate_account_frame E bo _ _).2, (bo_validate_account_frame E bo _ _).2]
      · intro x hx
        rw [hl _ bo _ _ x hx, hl _ bo _ _ x hx]
    · rw [bo_validate_unpinned_once E p w bo hpin0 h]
      simp only []
      refine ⟨(bo_validate_account_frame E bo _ _).1, (bo_validate_account_frame E bo _ _).2, ?_⟩
      intro x hx
      rw [hl _ bo _ _ x hx]

/-- A scan of `gsgpu_cs_try_evict` that returns true permutes the validated list and, under
`placement_settles` and `placement_local`, leaves fewer entries resident in the domains
needed. -/
theorem try_evict_scan_evicts {W : Type} (E : PlaceEnv W) (hs : placement_settles E)
    (hl : placement_local E) (bo : Nat) (p : gsgpu_cs_parser_t) (w : W) :
    ∀ n : Nat, (try_evict_scan E bo (E.bo bo).allowed_domains p w n).1 = true →
      (try_evict_scan E bo (E.bo bo).allowed_domains p w n).2.p.validated.Perm p.validated ∧
      resident_entries E (try_evict_scan E bo (E.bo bo).allowed_domains p w n).2.w bo
          (E.bo bo).allowed_domains
          (try_evict_scan E bo (E.bo bo).allowed_domains p w n).2.p.validated <
        resident_entries E w bo (E.bo bo).allowed_domains p.validated := by
  intro n
  induction n with
  | zero =>
    intro h
    simp [try_evict_scan] at h
  | succ n ih =>
    cases hget : p.validated.get? n with
    | none =>
      have heq : try_evict_scan E bo (E.bo bo).allowed_domains p w (n + 1) =
          try_evict_scan E bo (E.bo bo).allowed_domains p w n := by
        rw [try_evict_scan]
        simp only [hget]
      rw [heq]
      exact ih
    | some cand =>
      by_cases h1 : cand = bo
      · intro h
        rw [try_evict_scan] at h
        simp only [hget, if_pos h1] at h
        cases h
      by_cases h2 : (E.bo cand).pin_count ≠ 0
      · have heq : try_evict_scan E bo (E.bo bo).allowed_domains p w (n + 1) =
            try_evict_scan E bo (E.bo bo).allowed_domains p w n := by
          rw [try_evict_scan]
          simp only [hget, if_neg h1, if_pos h2]
        rw [heq]
        exact ih
      by_cases h3 : E.mem_type_domain w cand &&& (E.bo bo).allowed_domains = 0
      · have heq : try_evict_scan E bo (E.bo bo).allowed_domains p w (n + 1) =
            try_evict_scan E bo (E.bo bo).allowed_domains p w n := by
          rw [try_evict_scan]
          simp only [hget, if_neg h1, if_neg h2, if_pos h3]
        rw [heq]
        exact ih
      by_cases h4 : and_not32 (E.bo cand).allowed_domains (E.bo bo).allowed_domains = 0
      · have heq : try_evict_scan E bo (E.bo bo).allowed_domains p w (n + 1) =
            try_evict_scan E bo (E.bo bo).allowed_domains p w n := by
          rw [try_evict_scan]
          simp only [hget, if_neg h1, if_neg h2, if_neg h3, if_pos h4]
        rw [heq]
        exact ih
      by_cases h5 : (E.ttm_bo_validate w cand
          (and_not32 (E.bo cand).allowed_domains (E.bo bo).allowed_domains) 0).1 ≠ 0
      · intro h
        rw [try_evict_scan] at h
        simp only [hget, if_neg h1, if_neg h2, if_neg h3, if_neg h4, if_pos h5] at h
        cases h
      · have h5' : (E.ttm_bo_validate w cand
            (and_not32 (E.bo cand).allowed_domains (E.bo bo).allowed_domains) 0).1 = 0 := by
          simpa using h5
        intro _
        have hv : (try_evict_scan E bo (E.bo bo).allowed_domains p w (n + 1)).2.p.validated =
            cand :: p.validated.eraseIdx n := by
          rw [try_evict_scan]
          simp only [hget, if_neg h1, if_neg h2, if_neg h3, if_neg h4, if_neg h5]
        have hw : (try_evict_scan E bo (E.bo bo).allowed_domains p w (n + 1)).2.w =
            (E.ttm_bo_validate w cand
              (and_not32 (E.bo cand).allowed_domains (E.bo bo).allowed_domains) 0).2.2 := by
          rw [try_evict_scan]
          simp only [hget, if_neg h1, if_neg h2, if_neg h3, if_neg h4, if_neg h5]
        have hperm := perm_cons_eraseIdx p.validated n cand hget
        rw [hv, hw]
        refine ⟨hperm, ?_⟩
        unfold resident_entries
        rw [hperm.countP_eq]
        have hmem : cand ∈ p.validated := List.get?_mem hget
        have hout := land_and_not32 _ _ _ (hs w cand _ 0 h5')
        refine countP_lt_countP p.validated _ _ ?_ cand hmem ?_ ?_
        · intro x _ hx
          simp only [Bool.and_eq_true, decide_eq_true_eq] at hx ⊢
          refine ⟨hx.1, ?_⟩
          by_cases hxc : x = cand
          · subst hxc
            exact absurd hout hx.2
          · rw [← hl w cand _ 0 x hxc]
            exact hx.2
        · simp only [Bool.and_eq_true, decide_eq_true_eq]
          exact ⟨h1, h3⟩
        · simp [hout]

theorem resident_entries_le {W : Type} (E : PlaceEnv W) (w : W) (bo domain : Nat)
    (l : List Nat) : resident_entries E w bo domain l ≤ l.length := by
  unfold resident_entries
  exact List.countP_le_length _

/-- The loop is left within as many turns as there are entries resident in the domains needed,
plus one, and counts at most that many evictions. -/
theorem validate_loop_bound {W : Type} (E : PlaceEnv W) (hs : placement_settles E)
    (hl : placement_local E) (bo : Nat) :
    ∀ (fuel : Nat) (p : gsgpu_cs_parser_t) (w : W) (calls : List place_call) (ev : Nat),
      resident_entries E w bo (E.bo bo).allowed_domains p.validated < fuel →
      (validate_loop E bo fuel p w calls ev).returned = true ∧
      (validate_loop E bo fuel p w calls ev).evictions ≤
        ev + resident_entries E w bo (E.bo bo).allowed_domains p.validated := by
  intro fuel
  induction fuel with
  | zero =>
    intro p w calls ev h
    omega
  | succ fuel ih =>
    intro p w calls ev h
    obtain ⟨k1, k2, k3⟩ := bo_validate_keeps E hl p w bo
    rw [validate_loop]
    simp only []
    by_cases hr : (gsgpu_cs_bo_validate E p w bo).r = -ENOMEM
    · rw [if_pos hr]
      by_cases ht : (gsgpu_cs_try_evict E (gsgpu_cs_bo_validate E p w bo).p
          (gsgpu_cs_bo_validate E p w bo).w bo).1 = true
      · rw [if_pos ht]
        have hm : resident_entries E (gsgpu_cs_bo_validate E p w bo).w bo
            (E.bo bo).allowed_domains (gsgpu_cs_bo_validate E p w bo).p.validated =
            resident_entries E w bo (E.bo bo).allowed_domains p.validated := by
          rw [k1]
          unfold resident_entries
          apply List.countP_congr
          intro x _
          by_cases hx : x = bo
          · simp [hx]
          · simp [k3 x hx]
        have hdec : resident_entries E
            (gsgpu_cs_try_evict E (gsgpu_cs_bo_validate E p w bo).p
              (gsgpu_cs_bo_validate E p w bo).w bo).2.w bo (E.bo bo).allowed_domains
            (gsgpu_cs_try_evict E (gsgpu_cs_bo_validate E p w bo).p
              (gsgpu_cs_bo_validate E p w bo).w bo).2.p.validated <
            resident_entries E w bo (E.bo bo).allowed_domains p.validated := by
          rw [← hm]
          unfold gsgpu_cs_try_evict at ht ⊢
          cases hc : (gsgpu_cs_bo_validate E p w bo).p.evictable with
          | none =>
            rw [hc] at ht
            cases ht
          | some n =>
            rw [hc] at ht
            exact (try_evict_scan_evicts E hs hl bo _ _ n ht).2
        obtain ⟨i1, i2⟩ := ih
          (gsgpu_cs_try_evict E (gsgpu_cs_bo_validate E p w bo).p
            (gsgpu_cs_bo_validate E p w bo).w bo).2.p
          (gsgpu_cs_try_evict E (gsgpu_cs_bo_validate E p w bo).p
            (gsgpu_cs_bo_validate E p w bo).w bo).2.w
          (calls ++ (gsgpu_cs_bo_validate E p w bo).calls ++
            (gsgpu_cs_try_evict E (gsgpu_cs_bo_validate E p w bo).p
              (gsgpu_cs_bo_validate E p w bo).w bo).2.calls) (ev + 1) (by omega)
        exact ⟨i1, by omega⟩
      · rw [if_neg ht]
        exact ⟨rfl, by simp⟩
    · rw [if_neg hr]
      exact ⟨rfl, by simp⟩

/-- Once the loop is left, more turns change nothing. -/
theorem validate_loop_more_fuel {W : Type} (E : PlaceEnv W) (bo : Nat) :
    ∀ (fuel extra : Nat) (p : gsgpu_cs_parser_t) (w : W) (calls : List place_call) (ev : Nat),
      (validate_loop E bo fuel p w calls ev).returned = true →
      validate_loop E bo (fuel + extra) p w calls ev = validate_loop E bo fuel p w calls ev := by
  intro fuel
  induction fuel with
  | zero =>
    intro extra p w calls ev h
    simp [validate_loop] at h
  | succ fuel ih =>
    intro extra p w calls ev h
    rw [show fuel + 1 + extra = (fuel + extra) + 1 by omega]
    rw [validate_loop] at h ⊢
    simp only [] at h ⊢
    by_cases hr : (gsgpu_cs_bo_validate E p w bo).r = -ENOMEM
    · rw [if_pos hr] at h ⊢
      by_cases ht : (gsgpu_cs_try_evict E (gsgpu_cs_bo_validate E p w bo).p
          (gsgpu_cs_bo_validate E p w bo).w bo).1 = true
      · rw [if_pos ht] at h ⊢
        rw [ih extra _ _ _ _ h]
        conv_rhs => rw [validate_loop]
        simp only [if_pos hr, if_pos ht]
      · rw [if_neg ht]
        conv_rhs => rw [validate_loop]
        simp only [if_pos hr, if_neg ht]
    · rw [if_neg hr]
      conv_rhs => rw [validate_loop]
      simp only [if_neg hr]

/-- C21 (as amended): the retry loop of `gsgpu_cs_validate` is left, for every validated list,
every cursor position and every resource, in the list or not, provided each placement call that
reports success leaves the relocated resource resident within the requested domains and no
placement call, successful or failing, changes the residence of another resource: with more
turns allowed than the list has entries the loop has returned, the result no longer depends on
the number of turns allowed, `gsgpu_cs_validate` returns, and the number of times
`gsgpu_cs_try_evict` returned true is at most the number of entries other than the resource
that reside in one of its allowed domains, so at most the number of entries of the list. -/
theorem validate_loop_terminates {W : Type} (E : PlaceEnv W) (hs : placement_settles E)
    (hl : placement_local E) (bo : Nat) (p : gsgpu_cs_parser_t) (w : W) (fuel : Nat)
    (hf : p.validated.length < fuel) :
    (validate_loop E bo fuel p w [] 0).returned = true ∧
    (validate_loop E bo fuel p w [] 0).evictions ≤
      resident_entries E w bo (E.bo bo).allowed_domains p.validated ∧
    (validate_loop E bo fuel p w [] 0).evictions ≤ p.validated.length ∧
    validate_loop E bo fuel p w [] 0 =
      validate_loop E bo (p.validated.length + 1) p w [] 0 ∧
    (gsgpu_cs_validate E fuel p w bo).isSome = true := by
  have hle := resident_entries_le E w bo (E.bo bo).allowed_domains p.validated
  obtain ⟨b1, b2⟩ := validate_loop_bound E hs hl bo fuel p w [] 0 (by omega)
  obtain ⟨c1, _⟩ := validate_loop_bound E hs hl bo (p.validated.length + 1) p w [] 0 (by omega)
  refine ⟨b1, by omega, by omega, ?_, ?_⟩
  · have := validate_loop_more_fuel E bo (p.validated.length + 1)
      (fuel - (p.validated.length + 1)) p w [] 0 c1
    rw [show p.validated.length + 1 + (fuel - (p.validated.length + 1)) = fuel by omega] at this
    exact this
  · unfold gsgpu_cs_validate
    simp only [b1, Bool.not_true, Bool.false_eq_true, if_false]
    split_ifs
    · rfl
    · cases (E.bo bo).shadow <;> rfl

theorem env_evict_settles : placement_settles env_evict := by
  intro w b d m h
  simp only [env_evict] at h ⊢
  by_cases hb : b = 0
  · simp [hb, ENOMEM] at h
  · by_cases hd : d &&& 2 = 2
    · simp only [if_neg hb, if_pos hd, if_true]
      rw [Nat.land_comm]
      exact hd
    · simp [hb, hd, ENOMEM] at h

theorem env_evict_local : placement_local env_evict := by
  intro w b d m x hx
  simp only [env_evict]
  split_ifs <;> simp [hx]

/-- C21, witness: `env_evict` obeys both conditions; for resource 0 and the list `[2, 3]` with
every resource in VRAM the loop is left within three turns after at most two evictions. -/
theorem validate_loop_terminates_witness :
    placement_settles env_evict ∧ placement_local env_evict ∧
    parser_pair.validated.length < 3 ∧
    (validate_loop env_evict 0 3 parser_pair w_all_vram [] 0).returned = true ∧
    (validate_loop env_evict 0 3 parser_pair w_all_vram [] 0).evictions ≤ 2 :=
  ⟨env_evict_settles, env_evict_local, by decide,
    (validate_loop_terminates env_evict env_evict_settles env_evict_local 0 parser_pair
      w_all_vram 3 (by decide)).1,
    (validate_loop_terminates env_evict env_evict_settles env_evict_local 0 parser_pair
      w_all_vram 3 (by decide)).2.2.1⟩

theorem env_thrash_settles : placement_settles env_thrash := by
  intro w b d m h
  simp only [env_thrash, env_evict] at h ⊢
  by_cases hb : b = 0
  · simp [hb, ENOMEM] at h
  · by_cases hd : d &&& 2 = 2
    · simp only [if_neg hb, if_pos hd, if_true]
      rw [Nat.land_comm]
      exact hd
    · simp [hb, hd, ENOMEM] at h

theorem env_thrash_success_local : placement_success_local env_thrash := by
  intro w b d m x h hx
  simp only [env_thrash, env_evict] at h ⊢
  by_cases hb : b = 0
  · simp [hb, ENOMEM] at h
  · by_cases hd : d &&& 2 = 2
    · simp [hb, hd, hx]
    · simp [hb, hd, ENOMEM] at h

theorem env_thrash_domain (p : gsgpu_cs_parser_t) : bo_validate_domain env_thrash p 0 = 4 := by
  unfold bo_validate_domain
  split_ifs <;> rfl

/-- Under `env_thrash` the validation of resource 0 reports `-ENOMEM` and leaves every resource
in VRAM. -/
theorem env_thrash_validate (p : gsgpu_cs_parser_t) (w : Nat → Nat) :
    (gsgpu_cs_bo_validate env_thrash p w 0).r = -ENOMEM ∧
    (gsgpu_cs_bo_validate env_thrash p w 0).w = (fun _ => 4) ∧
    (gsgpu_cs_bo_validate env_thrash p w 0).p.validated = p.validated ∧
    (gsgpu_cs_bo_validate env_thrash p w 0).p.evictable = p.evictable := by
  have h : ¬((env_thrash.ttm_bo_validate w 0 (bo_validate_domain env_thrash p 0) 0).1 = -ENOMEM ∧
      bo_validate_domain env_thrash p 0 ≠ (env_thrash.bo 0).allowed_domains) := by
    rw [env_thrash_domain]
    intro hh
    exact hh.2 rfl
  rw [bo_validate_unpinned_once env_thrash p w 0 rfl h]
  exact ⟨rfl, rfl, (bo_validate_account_frame _ _ _ _).1, (bo_validate_account_frame _ _ _ _).2⟩

/-- Under `env_thrash`, with every resource in VRAM and the cursor on the second of two entries
among the resources 2 and 3, `gsgpu_cs_try_evict` for resource 0 evicts that entry, moves it to
the front and leaves the cursor on the second entry. -/
theorem env_thrash_evict (q : gsgpu_cs_parser_t) (a b : Nat) (ha : a = 2 ∨ a = 3)
    (hb : b = 2 ∨ b = 3) (hv : q.validated = [a, b]) (he : q.evictable = some 2) :
    (gsgpu_cs_try_evict env_thrash q (fun _ => 4) 0).1 = true ∧
    (gsgpu_cs_try_evict env_thrash q (fun _ => 4) 0).2.p.validated = [b, a] ∧
    (gsgpu_cs_try_evict env_thrash q (fun _ => 4) 0).2.p.evictable = some 2 := by
  have e1 : (6 : Nat) &&& 4294967291 = 2 := by decide
  have e2 : (2 : Nat) &&& 2 = 2 := by decide
  rcases ha with rfl | rfl <;> rcases hb with rfl | rfl <;>
    simp [gsgpu_cs_try_evict, try_evict_scan, hv, he, env_thrash, env_evict, and_not32, e1, e2]

/-- Under `env_thrash` the loop for resource 0 is never left: after any number of turns it has
not returned and has made one eviction per turn. -/
theorem validate_loop_thrash_spins :
    ∀ (fuel : Nat) (p : gsgpu_cs_parser_t) (w : Nat → Nat) (calls : List place_call) (ev : Nat)
      (a b : Nat), (a = 2 ∨ a = 3) → (b = 2 ∨ b = 3) → p.validated = [a, b] →
      p.evictable = some 2 →
      (validate_loop env_thrash 0 fuel p w calls ev).returned = false ∧
      (validate_loop env_thrash 0 fuel p w calls ev).evictions = ev + fuel := by
  intro fuel
  induction fuel with
  | zero =>
    intro p w calls ev a b _ _ _ _
    exact ⟨rfl, rfl⟩
  | succ fuel ih =>
    intro p w calls ev a b ha hb hv he
    obtain ⟨v1, v2, v3, v4⟩ := env_thrash_validate p w
    obtain ⟨t1, t2, t3⟩ := env_thrash_evict (gsgpu_cs_bo_validate env_thrash p w 0).p a b ha hb
      (v3.trans hv) (v4.trans he)
    rw [validate_loop]
    simp only []
    rw [if_pos v1, v2, if_pos t1]
    obtain ⟨i1, i2⟩ := ih
      (gsgpu_cs_try_evict env_thrash (gsgpu_cs_bo_validate env_thrash p w 0).p (fun _ => 4) 0).2.p
      (gsgpu_cs_try_evict env_thrash (gsgpu_cs_bo_validate env_thrash p w 0).p (fun _ => 4) 0).2.w
      (calls ++ (gsgpu_cs_bo_validate env_thrash p w 0).calls ++
        (gsgpu_cs_try_evict env_thrash (gsgpu_cs_bo_validate env_thrash p w 0).p
          (fun _ => 4) 0).2.calls)
      (ev + 1) b a hb ha t2 t3
    exact ⟨i1, by omega⟩

/-- C21, counterexample to the claim as stated: `env_thrash` obeys the two conditions on
placement calls that report success, and the validated list `[2, 3]` has two entries; yet the
failing placement of resource 0 puts the evicted entries back into VRAM, and after 100 turns
the loop for resource 0 has not returned and has made 100 evictions. -/
theorem validate_loop_thrash :
    placement_settles env_thrash ∧ placement_success_local env_thrash ∧
    parser_pair.validated.length = 2 ∧
    (validate_loop env_thrash 0 100 parser_pair w_all_vram [] 0).returned = false ∧
    (validate_loop env_thrash 0 100 parser_pair w_all_vram [] 0).evictions = 100 ∧
    gsgpu_cs_validate env_thrash 100 parser_pair w_all_vram 0 = none := by
  obtain ⟨h1, h2⟩ := validate_loop_thrash_spins 100 parser_pair w_all_vram [] 0 2 3
    (Or.inl rfl) (Or.inr rfl) rfl rfl
  refine ⟨env_thrash_settles, env_thrash_success_local, rfl, h1, by simpa using h2, ?_⟩
  unfold gsgpu_cs_validate
  simp [h1]

/-! ### Context references of the dependency processing -/

theorem ctx_gets_append (a b : List dep_event) :
    ctx_gets (a ++ b) = ctx_gets a + ctx_gets b := by
  induction a with
  | nil => simp [ctx_gets]
  | cons e es ih =>
    cases e with
    | gsgpu_ctx_get i c =>
      cases c with
      | none => simpa [ctx_gets] using ih
      | some c =>
        show ctx_gets (es ++ b) + 1 = ctx_gets es + 1 + ctx_gets b
        rw [ih]
        omega
    | gsgpu_ctx_put c => simpa [ctx_gets] using ih
    | gsgpu_sync_fence f r => simpa [ctx_gets] using ih
    | dma_fence_put f => simpa [ctx_gets] using ih
    | drm_syncobj_find h s => simpa [ctx_gets] using ih

theorem ctx_puts_append (a b : List dep_event) :
    ctx_puts (a ++ b) = ctx_puts a + ctx_puts b := by
  induction a with
  | nil => simp [ctx_puts]
  | cons e es ih =>
    cases e with
    | gsgpu_ctx_get i c => simpa [ctx_puts] using ih
    | gsgpu_ctx_put c =>
      show ctx_puts (es ++ b) + 1 = ctx_puts es + 1 + ctx_puts b
      rw [ih]
      omega
    | gsgpu_sync_fence f r => simpa [ctx_puts] using ih
    | dma_fence_put f => simpa [ctx_puts] using ih
    | drm_syncobj_find h s => simpa [ctx_puts] using ih

/-- The references of one turn of the loop of `gsgpu_cs_process_fence_dep`: a turn puts the
reference it took, except when the context and the queue resolve and there is no fence, where
it takes one reference and puts none. -/
theorem fence_dep_entry_refs (env : DepEnv) (d : drm_gsgpu_cs_chunk_dep) :
    ((∃ ctx, env.gsgpu_ctx_get d.ctx_id = some ctx ∧
        (env.gsgpu_queue_mgr_map ctx d.ip_type d.ip_instance d.ring).1 = 0 ∧
        env.gsgpu_ctx_get_fence ctx
          (env.gsgpu_queue_mgr_map ctx d.ip_type d.ip_instance d.ring).2 d.handle = .null) →
      (fence_dep_entry env d).1 = none ∧
      ctx_gets (fence_dep_entry env d).2 = 1 ∧ ctx_puts (fence_dep_entry env d).2 = 0) ∧
    ((¬ ∃ ctx, env.gsgpu_ctx_get d.ctx_id = some ctx ∧
        (env.gsgpu_queue_mgr_map ctx d.ip_type d.ip_instance d.ring).1 = 0 ∧
        env.gsgpu_ctx_get_fence ctx
          (env.gsgpu_queue_mgr_map ctx d.ip_type d.ip_instance d.ring).2 d.handle = .null) →
      ctx_gets (fence_dep_entry env d).2 = ctx_puts (fence_dep_entry env d).2) := by
  refine ⟨?_, ?_⟩
  · rintro ⟨ctx, hc, hm, hf⟩
    rw [fence_dep_entry_absent env d ctx hc hm hf]
    exact ⟨rfl, rfl, rfl⟩
  · intro hn
    unfold fence_dep_entry
    cases hc : env.gsgpu_ctx_get d.ctx_id with
    | none => rfl
    | some ctx =>
      simp only []
      by_cases hm : (env.gsgpu_queue_mgr_map ctx d.ip_type d.ip_instance d.ring).1 ≠ 0
      · rw [if_pos hm]
        rfl
      · rw [if_neg hm]
        cases hf : env.gsgpu_ctx_get_fence ctx
            (env.gsgpu_queue_mgr_map ctx d.ip_type d.ip_instance d.ring).2 d.handle with
        | err r => rfl
        | null => exact absurd ⟨ctx, hc, by simpa using hm, hf⟩ hn
        | fence f => rfl

/-- The loop of `gsgpu_cs_process_fence_dep` never puts more references than it took, and it
puts as many as it took when no record it is given resolves without a fence. -/
theorem fence_dep_loop_refs (env : DepEnv) (ds : List drm_gsgpu_cs_chunk_dep) :
    ctx_puts (fence_dep_loop env ds).2 ≤ ctx_gets (fence_dep_loop env ds).2 ∧
    ((∀ d ∈ ds, ¬ ∃ ctx, env.gsgpu_ctx_get d.ctx_id = some ctx ∧
        (env.gsgpu_queue_mgr_map ctx d.ip_type d.ip_instance d.ring).1 = 0 ∧
        env.gsgpu_ctx_get_fence ctx
          (env.gsgpu_queue_mgr_map ctx d.ip_type d.ip_instance d.ring).2 d.handle = .null) →
      ctx_gets (fence_dep_loop env ds).2 = ctx_puts (fence_dep_loop env ds).2) := by
  induction ds with
  | nil => exact ⟨le_refl _, fun _ => rfl⟩
  | cons d ds ih =>
    obtain ⟨r1, r2⟩ := fence_dep_entry_refs env d
    have hent : ctx_puts (fence_dep_entry env d).2 ≤ ctx_gets (fence_dep_entry env d).2 := by
      by_cases hk : ∃ ctx, env.gsgpu_ctx_get d.ctx_id = some ctx ∧
          (env.gsgpu_queue_mgr_map ctx d.ip_type d.ip_instance d.ring).1 = 0 ∧
          env.gsgpu_ctx_get_fence ctx
            (env.gsgpu_queue_mgr_map ctx d.ip_type d.ip_instance d.ring).2 d.handle = .null
      · have := r1 hk
        omega
      · have := r2 hk
        omega
    rw [fence_dep_loop]
    cases he : (fence_dep_entry env d).1 with
    | some r =>
      simp only []
      refine ⟨hent, fun h => r2 (h d (List.mem_cons_self _ _))⟩
    | none =>
      simp only [ctx_gets_append, ctx_puts_append]
      refine ⟨by omega, fun h => ?_⟩
      have h1 := r2 (h d (List.mem_cons_self _ _))
      have h2 := ih.2 (fun e hm => h e (List.mem_cons_of_mem _ hm))
      omega

/-- C22, the failing run: both records of `chunk_retired_deps` resolve their context and
queue and have no fence; `gsgpu_cs_process_fence_dep` returns 0 after two successful
`gsgpu_ctx_get` lookups and no `gsgpu_ctx_put`.  For `chunk_two_deps`, whose second record has
a fence, it makes two lookups and one put. -/
theorem fence_dep_ctx_leak :
    gsgpu_cs_process_fence_dep consts_la64 dep_env_ok chunk_retired_deps =
      some (0, [.gsgpu_ctx_get 1 (some 201), .gsgpu_ctx_get 1 (some 201)]) ∧
    (gsgpu_cs_process_fence_dep consts_la64 dep_env_ok chunk_retired_deps).map
      (fun res => (ctx_gets res.2, ctx_puts res.2)) = some (2, 0) ∧
    (gsgpu_cs_process_fence_dep consts_la64 dep_env_ok chunk_two_deps).map
      (fun res => (res.1, ctx_gets res.2, ctx_puts res.2)) = some (0, 2, 1) := by
  decide

end Gsgpu
